import Mathlib

/-!
Verification development for the finance-notebook query layer.

The definitions below are a shallow embedding of the deterministic core of
the repository: the period resolver, plan validator and router-output
parsing of src/ai_router.py, the tool library of src/ai_tools.py, and the
deterministic order-query fast path of app/ai_assistant.py.  Python values
reaching the validator are modelled by the inductive type PyVal; Python
dicts are association lists over string keys (first occurrence is the
binding, mirroring dict get/set-in-place semantics); Python floats are
modelled as exact fractions.
-/

set_option autoImplicit false

namespace FinanceSpec

/-! ## Calendar arithmetic (Python datetime.date, proleptic Gregorian) -/

/-- Leap-year test of the proleptic Gregorian calendar. -/
def isLeap (y : Nat) : Bool := y % 4 == 0 && (y % 100 != 0 || y % 400 == 0)

/-- Number of days in month m (1..12) of year y. -/
def daysInMonth (y m : Nat) : Nat :=
  if m == 2 then (if isLeap y then 29 else 28)
  else if m == 4 || m == 6 || m == 9 || m == 11 then 30
  else 31

/-- A calendar date, as Python datetime.date (year, month, day). -/
structure Date where
  year : Nat
  month : Nat
  day : Nat
  deriving DecidableEq, Repr

/-- Validity of a date (Python date objects always satisfy this). -/
def Date.validB (d : Date) : Bool :=
  1 ≤ d.year && 1 ≤ d.month && d.month ≤ 12 && 1 ≤ d.day && d.day ≤ daysInMonth d.year d.month

/-- The day before d.  Python date subtraction of one day. -/
def predDate (d : Date) : Date :=
  if 1 < d.day then ⟨d.year, d.month, d.day - 1⟩
  else if 1 < d.month then ⟨d.year, d.month - 1, daysInMonth d.year (d.month - 1)⟩
  else ⟨d.year - 1, 12, 31⟩

/-- Python date minus a timedelta of n days. -/
def subDays : Date → Nat → Date
  | d, 0 => d
  | d, n + 1 => subDays (predDate d) n

/-- The day after d.  Python date plus one day. -/
def succDate (d : Date) : Date :=
  if d.day < daysInMonth d.year d.month then ⟨d.year, d.month, d.day + 1⟩
  else if d.month < 12 then ⟨d.year, d.month + 1, 1⟩
  else ⟨d.year + 1, 1, 1⟩

/-- Python date plus a timedelta of n days. -/
def addDays : Date → Nat → Date
  | d, 0 => d
  | d, n + 1 => addDays (succDate d) n

/-- First day of the month of d: the helper month_start of ai_router.py. -/
def monthStart (d : Date) : Date := ⟨d.year, d.month, 1⟩

/-- First and last day of the month before the month of d: the helper
prev_month_range of ai_router.py (first of this month minus one day, then
the first of that day's month). -/
def prevMonthRange (d : Date) : Date × Date :=
  let lastPrev := predDate (monthStart d)
  (⟨lastPrev.year, lastPrev.month, 1⟩, lastPrev)

/-- Decimal rendering of n zero-padded to width w. -/
def pad (w : Nat) (n : Nat) : String :=
  let s := toString n
  String.mk (List.replicate (w - s.length) '0') ++ s

/-- Render a date as YYYY-MM-DD: strftime of the format used throughout
ai_router.py.  The year is zero-padded to four digits; CPython delegates
the padding of the %Y directive to the platform, but the two agree on all
years from 1000 to 9999. -/
def fmtDate (d : Date) : String :=
  pad 4 d.year ++ "-" ++ pad 2 d.month ++ "-" ++ pad 2 d.day

/-- Render a year-month pair as YYYY-MM, the string form of a pandas
monthly Period used by the ym columns in ai_tools.py. -/
def fmtYM (y m : Nat) : String := pad 4 y ++ "-" ++ pad 2 m

/-! ## Exact fractions

Python floats are modelled by exact fractions with an integer numerator
and a natural denominator.  All operations are plain structural
arithmetic on Int and Nat, so every concrete computation in this file
reduces inside the kernel.  The embedding is exact: none of the claims
depends on binary floating-point rounding. -/

/-- An exact fraction modelling a Python float value. -/
structure Flt where
  num : Int
  den : Nat
  deriving DecidableEq, Repr, Inhabited

instance (n : Nat) : OfNat Flt n := ⟨⟨(n : Int), 1⟩⟩

/-- Value order: a < b as fractions (denominators are positive on all
values the embedding constructs). -/
def fltLtB (a b : Flt) : Bool := decide (a.num * (b.den : Int) < b.num * (a.den : Int))

/-- Value order: a is at most b as fractions. -/
def fltLeB (a b : Flt) : Bool := decide (a.num * (b.den : Int) ≤ b.num * (a.den : Int))

/-- Value equality of two fractions (Python float ==). -/
def fltEqB (a b : Flt) : Bool := decide (a.num * (b.den : Int) = b.num * (a.den : Int))

/-- Fraction addition. -/
def Flt.add (a b : Flt) : Flt := ⟨a.num * b.den + b.num * a.den, a.den * b.den⟩

/-- Fraction negation. -/
def Flt.neg (a : Flt) : Flt := ⟨-a.num, a.den⟩

/-- Fraction multiplication. -/
def Flt.mul (a b : Flt) : Flt := ⟨a.num * b.num, a.den * b.den⟩

/-- Fraction reciprocal (callers guard the zero case). -/
def Flt.inv (b : Flt) : Flt :=
  if b.num < 0 then ⟨-(b.den : Int), b.num.natAbs⟩
  else if b.num == 0 then ⟨0, 1⟩
  else ⟨(b.den : Int), b.num.natAbs⟩

/-- Fraction division. -/
def Flt.div (a b : Flt) : Flt := Flt.mul a (Flt.inv b)

/-- Sum of a list of fractions, modelling Series.sum. -/
def fltSum (l : List Flt) : Flt := l.foldr Flt.add 0

/-- Python min of two floats (the first argument on ties). -/
def minF (a b : Flt) : Flt := if fltLtB b a then b else a

/-- Python max of two floats (the first argument on ties). -/
def maxF (a b : Flt) : Flt := if fltLtB a b then b else a

/-! ## Python values -/

/-- Model of the Python values that can appear in an LLM-produced plan:
the JSON-expressible values. -/
inductive PyVal where
  | vnone
  | vbool (b : Bool)
  | vint (n : Int)
  | vfloat (q : Flt)
  | vstr (s : String)
  | vlist (xs : List PyVal)
  | vdict (xs : List (String × PyVal))

mutual

/-- Structural equality test on PyVal, modelling Python == on
JSON-expressible values. -/
def PyVal.beq : PyVal → PyVal → Bool
  | .vnone, .vnone => true
  | .vbool a, .vbool b => a == b
  | .vint a, .vint b => a == b
  | .vfloat a, .vfloat b => fltEqB a b
  | .vstr a, .vstr b => a == b
  | .vlist xs, .vlist ys => PyVal.beqList xs ys
  | .vdict xs, .vdict ys => PyVal.beqDict xs ys
  | _, _ => false

/-- Elementwise equality test on lists of PyVal. -/
def PyVal.beqList : List PyVal → List PyVal → Bool
  | [], [] => true
  | a :: ta, b :: tb => PyVal.beq a b && PyVal.beqList ta tb
  | _, _ => false

/-- Entrywise equality test on dict association lists. -/
def PyVal.beqDict : List (String × PyVal) → List (String × PyVal) → Bool
  | [], [] => true
  | (k1, a) :: ta, (k2, b) :: tb => k1 == k2 && PyVal.beq a b && PyVal.beqDict ta tb
  | _, _ => false

end

instance : BEq PyVal := ⟨PyVal.beq⟩

/-- Characters stripped by Python str.strip(): the ASCII whitespace set
(space, tab, newline, carriage return, vertical tab, form feed). -/
def pyWs (c : Char) : Bool :=
  c == ' ' || c == '\t' || c == '\n' || c == '\r' || c == Char.ofNat 11 || c == Char.ofNat 12

/-- Python str.strip(): drop leading and trailing whitespace. -/
def pyStrip (s : String) : String :=
  String.mk (((s.data.dropWhile pyWs).reverse.dropWhile pyWs).reverse)

/-- First n characters of a string (Python slice s[:n]). -/
def strTake (n : Nat) (s : String) : String := String.mk (s.data.take n)

/-- Smallest exponent k (up to 17) such that q times 10^k is an integer;
used to model the decimal repr of a float. -/
def decExp (den : Nat) : Option Nat :=
  (List.range 18).find? (fun k => 10 ^ k % den == 0)

/-- Model of repr() of a Python float whose value is an exactly
representable short decimal (all floats arising in the claims are).
Values outside that fragment (needing scientific notation, or with no
short decimal form) are rendered as num/den; no claim depends on them. -/
def floatRepr (q : Flt) : String :=
  match decExp q.den with
  | some k =>
    let sgn := if q.num < 0 then "-" else ""
    let n : Nat := q.num.natAbs * (10 ^ k / q.den)
    let ip := n / 10 ^ k
    let fp := n % 10 ^ k
    sgn ++ toString ip ++ "." ++ (if k == 0 then "0" else pad k fp)
  | none => toString q.num ++ "/" ++ toString q.den

/-- Single-quote character, used by the repr of strings. -/
def sq : Char := Char.ofNat 39

/-- Left and right curly-brace characters, used by the repr of dicts. -/
def lbr : Char := Char.ofNat 123

/-- Right curly-brace character. -/
def rbr : Char := Char.ofNat 125

/-- Model of repr() on a Python string: the content between single quotes
(without the escaping repr applies inside the quotes; the claims never
render strings needing escapes). -/
def pyStrRepr (s : String) : String := String.mk [sq] ++ s ++ String.mk [sq]

mutual

/-- Model of Python repr() on PyVal. -/
def pyRepr : PyVal → String
  | .vnone => "None"
  | .vbool b => if b then "True" else "False"
  | .vint n => toString n
  | .vfloat q => floatRepr q
  | .vstr s => pyStrRepr s
  | .vlist xs => "[" ++ pyReprList xs false ++ "]"
  | .vdict xs => String.mk [lbr] ++ pyReprDict xs false ++ String.mk [rbr]

/-- Comma-separated repr of list elements. -/
def pyReprList : List PyVal → Bool → String
  | [], _ => ""
  | x :: t, withComma => (if withComma then ", " else "") ++ pyRepr x ++ pyReprList t true

/-- Comma-separated repr of dict entries. -/
def pyReprDict : List (String × PyVal) → Bool → String
  | [], _ => ""
  | (k, v) :: t, withComma =>
    (if withComma then ", " else "") ++ pyStrRepr k ++ ": " ++ pyRepr v ++ pyReprDict t true

end

/-- Model of Python str() on PyVal: identity on strings, repr elsewhere. -/
def pyStr : PyVal → String
  | .vstr s => s
  | v => pyRepr v

/-- Python truthiness of a PyVal. -/
def pyTruthy : PyVal → Bool
  | .vnone => false
  | .vbool b => b
  | .vint n => n != 0
  | .vfloat q => q.num != 0
  | .vstr s => !(s == "")
  | .vlist xs => !xs.isEmpty
  | .vdict xs => !xs.isEmpty

/-- Model of Python int(str): optional surrounding whitespace, optional
sign, then a nonempty digit run. -/
def parseIntStr (s : String) : Option Int :=
  match (pyStrip s).data with
  | [] => none
  | c :: rest =>
    let ds := if c == '-' || c == '+' then rest else c :: rest
    let neg := c == '-'
    if !ds.isEmpty && ds.all Char.isDigit then
      let m : Nat := ds.foldl (fun acc d => acc * 10 + (d.toNat - 48)) 0
      some (if neg then -(m : Int) else (m : Int))
    else none

/-- Model of Python int(v): ints and bools convert, floats truncate
toward zero, strings parse; anything else raises (None here). -/
def pyInt : PyVal → Option Int
  | .vint n => some n
  | .vbool b => some (if b then 1 else 0)
  | .vfloat q => some (Int.tdiv q.num (q.den : Int))
  | .vstr s => parseIntStr s
  | _ => none

/-- Parse a nonempty digit run as a Nat. -/
def digitsToNat (ds : List Char) : Nat :=
  ds.foldl (fun acc d => acc * 10 + (d.toNat - 48)) 0

/-- Model of Python float(str) on the plain decimal fragment: optional
sign, digits with an optional fractional part, and an optional decimal
exponent.  The special spellings inf and nan are outside the model. -/
def parseFloatStr (s : String) : Option Flt :=
  match (pyStrip s).data with
  | [] => none
  | c :: rest =>
    let body := if c == '-' || c == '+' then rest else c :: rest
    let neg := c == '-'
    let (mant, expPart) :=
      match body.splitOn 'e' with
      | [m, e] => (m, some e)
      | _ =>
        match body.splitOn 'E' with
        | [m, e] => (m, some e)
        | _ => (body, none)
    let mantOk : Option Flt :=
      match mant.splitOn '.' with
      | [ip, fp] =>
        if (ip.all Char.isDigit && fp.all Char.isDigit) && !(ip.isEmpty && fp.isEmpty) then
          some ⟨(digitsToNat ip * 10 ^ fp.length + digitsToNat fp : Int), 10 ^ fp.length⟩
        else none
      | [ip] =>
        if !ip.isEmpty && ip.all Char.isDigit then some ⟨(digitsToNat ip : Int), 1⟩ else none
      | _ => none
    match mantOk with
    | none => none
    | some m =>
      let signed : Flt := if neg then ⟨-m.num, m.den⟩ else m
      match expPart with
      | none => some signed
      | some e =>
        match e with
        | [] => none
        | ec :: erest =>
          let eds := if ec == '-' || ec == '+' then erest else ec :: erest
          let eneg := ec == '-'
          if !eds.isEmpty && eds.all Char.isDigit then
            let ev := digitsToNat eds
            some (if eneg then ⟨signed.num, signed.den * 10 ^ ev⟩
                  else ⟨signed.num * (10 ^ ev : Int), signed.den⟩)
          else none

/-- Model of Python float(v). -/
def pyFloat : PyVal → Option Flt
  | .vfloat q => some q
  | .vint n => some ⟨n, 1⟩
  | .vbool b => some (if b then 1 else 0)
  | .vstr s => parseFloatStr s
  | _ => none

/-! ## Python dicts as association lists -/

/-- Type of the args mapping of a plan. -/
abbrev PyDict := List (String × PyVal)

/-- Python dict.get: value at the first binding of k. -/
def dictGet (k : String) : PyDict → Option PyVal
  | [] => none
  | (k2, v) :: t => if k2 == k then some v else dictGet k t

/-- Python dict.get with a default. -/
def dictGetD (k : String) (d : PyDict) (dflt : PyVal) : PyVal :=
  (dictGet k d).getD dflt

/-- Python dict assignment: update the binding of k in place, else append
(insertion order preserved, as CPython dicts do). -/
def dictSet (k : String) (v : PyVal) : PyDict → PyDict
  | [] => [(k, v)]
  | (k2, w) :: t => if k2 == k then (k2, v) :: t else (k2, w) :: dictSet k v t

/-- Python dict.pop: remove the binding of k. -/
def dictPop (k : String) : PyDict → PyDict
  | [] => []
  | (k2, w) :: t => if k2 == k then t else (k2, w) :: dictPop k t

/-- Python membership test k in d. -/
def dictHasKey (k : String) (d : PyDict) : Bool := (dictGet k d).isSome

/-! ## Period resolver (expand_period of ai_router.py) -/

/-- The enumerated period tokens PERIODS of ai_router.py. -/
def PERIODS : List String :=
  ["last_7_days", "last_30_days", "last_90_days",
   "this_month", "last_month", "this_year", "last_year"]

/-- Embedding of expand_period(args, today).  The source defaults today to
the wall clock in the Helsinki timezone; the embedding always takes the
injected today, which is the deterministic contract under verification. -/
def expandPeriod (args : PyDict) (today : Date) : PyDict :=
  let period := dictGetD "period" args .vnone
  if !pyTruthy period then args
  else
    match period with
    | .vstr p =>
      if PERIODS.contains p then
        let se : Date × Date :=
          if p == "last_7_days" then (subDays today 6, today)
          else if p == "last_30_days" then (subDays today 29, today)
          else if p == "last_90_days" then (subDays today 89, today)
          else if p == "this_month" then (monthStart today, today)
          else if p == "last_month" then prevMonthRange today
          else if p == "this_year" then (⟨today.year, 1, 1⟩, today)
          else (⟨today.year - 1, 1, 1⟩, ⟨today.year - 1, 12, 31⟩)
        dictPop "period" (dictSet "end_date" (.vstr (fmtDate se.2))
          (dictSet "start_date" (.vstr (fmtDate se.1)) args))
      else dictSet "period" .vnone args
    | _ => dictSet "period" .vnone args

/-! ## Plan validator (validate_plan of ai_router.py) -/

/-- The allow-list ALLOWED_TOOLS of ai_router.py. -/
def ALLOWED_TOOLS : List String :=
  ["none", "get_latest", "sum_by_merchant", "sum_by_category", "top_transactions",
   "group_by_month", "outliers_large", "recurring_merchants", "merchant_breakdown",
   "category_trend"]

/-- The cleaned plan dict constructed at the end of validate_plan. -/
structure Cleaned where
  tool : String
  args : PyDict

/-- Render a Cleaned back as the plan dict it denotes. -/
def toPlanDict (c : Cleaned) : PyDict :=
  [("tool", .vstr c.tool), ("args", .vdict c.args)]

/-- Validator working state: the args dict plus the accumulated errors. -/
structure VSt where
  args : PyDict
  errs : List String

/-- Embedding of the line tool = (plan.get("tool") or "none").strip() of
validate_plan.  A truthy non-string tool value has no strip attribute, so
the Python line raises AttributeError; that outcome is the error case. -/
def toolOfPlan (plan : PyDict) : Except String String :=
  let t := dictGetD "tool" plan .vnone
  let t2 := if pyTruthy t then t else .vstr "none"
  match t2 with
  | .vstr s => .ok (pyStrip s)
  | _ => .error "AttributeError: object has no attribute strip"

/-- Embedding of the inner helper clamp_int of validate_plan. -/
def clampInt (name : String) (dflt lo hi : Int) (st : VSt) : VSt :=
  let v := dictGetD name st.args (.vint dflt)
  match pyInt v with
  | some i => { st with args := dictSet name (.vint (max lo (min hi i))) st.args }
  | none =>
    { args := dictSet name (.vint (max lo (min hi dflt))) st.args,
      errs := st.errs ++ [name ++ " must be int"] }

/-- Embedding of the inner helper clamp_float of validate_plan. -/
def clampFloat (name : String) (dflt lo hi : Flt) (st : VSt) : VSt :=
  let v := dictGetD name st.args (.vfloat dflt)
  match pyFloat v with
  | some q => { st with args := dictSet name (.vfloat (maxF lo (minF hi q))) st.args }
  | none =>
    { args := dictSet name (.vfloat (maxF lo (minF hi dflt))) st.args,
      errs := st.errs ++ [name ++ " must be number"] }

/-- The string a value is normalised to by norm_str before length capping:
None becomes the empty string, anything else is str()-converted, then
stripped. -/
def normStrVal (v : PyVal) : String :=
  if v == .vnone then "" else pyStrip (pyStr v)

/-- Embedding of the inner helper norm_str of validate_plan. -/
def normStr (name : String) (cap : Nat) (st : VSt) : VSt :=
  let v := dictGetD name st.args (.vstr "")
  { st with args := dictSet name (.vstr (strTake cap (normStrVal v))) st.args }

/-- Match of the regex DATE_RE of ai_router.py against a whole string:
exactly four digits, dash, two digits, dash, two digits.  A single
trailing newline is also accepted, as the dollar anchor of Python re is. -/
def dateReExact (s : String) : Bool :=
  match s.data with
  | [a, b, c, d, h1, e, f, h2, g, i] =>
    a.isDigit && b.isDigit && c.isDigit && d.isDigit && h1 == '-' &&
      e.isDigit && f.isDigit && h2 == '-' && g.isDigit && i.isDigit
  | _ => false

/-- Full DATE_RE match including the trailing-newline tolerance. -/
def dateReMatch (s : String) : Bool :=
  dateReExact s ||
    (s.data.getLast? == some '\n' && dateReExact (String.mk s.data.dropLast))

/-- Embedding of the inner helper date_field of validate_plan. -/
def dateField (name : String) (st : VSt) : VSt :=
  let v := dictGetD name st.args .vnone
  if v == .vnone || v == .vstr "" then
    { st with args := dictSet name .vnone st.args }
  else
    let s := pyStrip (pyStr v)
    if dateReMatch s then { st with args := dictSet name (.vstr s) st.args }
    else
      { args := dictSet name .vnone st.args,
        errs := st.errs ++ [name ++ " must be YYYY-MM-DD"] }

/-- Embedding of the period-normalisation block of validate_plan: when the
args contain a period key, coerce it to a stripped string (or None) and
expand it deterministically. -/
def periodStep (today : Date) (st : VSt) : VSt :=
  if dictHasKey "period" st.args then
    let v := dictGetD "period" st.args .vnone
    let a1 := dictSet "period" (if v == .vnone then .vnone else .vstr (pyStrip (pyStr v))) st.args
    { st with args := expandPeriod a1 today }
  else st

/-- The optional-string block of the top_transactions branch: when the
key is present, norm_str it and turn an empty result into None. -/
def optStep (name : String) (cap : Nat) (st : VSt) : VSt :=
  if dictHasKey name st.args then
    let st2 := normStr name cap st
    if dictGetD name st2.args .vnone == PyVal.vstr "" then
      { st2 with args := dictSet name .vnone st2.args }
    else st2
  else st

/-- The default-fill block of the group_by_month and merchant_breakdown
branches: replace an empty or None value by the default string. -/
def defaultStep (name dflt : String) (st : VSt) : VSt :=
  let fv := dictGetD name st.args .vnone
  if fv == .vstr "" || fv == .vnone then
    { st with args := dictSet name (.vstr dflt) st.args }
  else st

/-- Embedding of the per-tool validation branches of validate_plan,
returning the possibly demoted tool name together with the updated state. -/
def dispatchTool (tool : String) (st : VSt) : String × VSt :=
  if tool == "get_latest" then
    (tool, clampInt "offset" 0 0 50 (clampInt "n" 1 1 10 st))
  else if tool == "sum_by_merchant" then
    let st := normStr "merchant_substr" 60 st
    if !pyTruthy (dictGetD "merchant_substr" st.args .vnone) then
      ("none", { args := [], errs := st.errs ++ ["merchant_substr required"] })
    else (tool, dateField "end_date" (dateField "start_date" st))
  else if tool == "sum_by_category" then
    let st := normStr "category" 60 st
    if !pyTruthy (dictGetD "category" st.args .vnone) then
      ("none", { args := [], errs := st.errs ++ ["category required"] })
    else (tool, dateField "end_date" (dateField "start_date" st))
  else if tool == "top_transactions" then
    let st := dateField "end_date" (dateField "start_date" (clampInt "n" 10 1 50 st))
    (tool, optStep "merchant_substr" 60 (optStep "category" 60 st))
  else if tool == "group_by_month" then
    let st := clampInt "top_k" 5 1 10 (normStr "field" 30 (dateField "end_date" (dateField "start_date" st)))
    (tool, defaultStep "field" "category" st)
  else if tool == "outliers_large" then
    (tool, dateField "end_date" (dateField "start_date" (clampFloat "min_amount" 100 0 1000000 st)))
  else if tool == "recurring_merchants" then
    (tool, clampInt "min_count" 3 2 20 (clampInt "months" 6 1 24 st))
  else if tool == "merchant_breakdown" then
    let st := normStr "by" 30 (normStr "merchant_substr" 60 st)
    if !pyTruthy (dictGetD "merchant_substr" st.args .vnone) then
      ("none", { args := [], errs := st.errs ++ ["merchant_substr required"] })
    else
      (tool, dateField "end_date" (dateField "start_date" (defaultStep "by" "category" st)))
  else if tool == "category_trend" then
    let st := clampInt "months" 6 1 24 (normStr "category" 60 st)
    if !pyTruthy (dictGetD "category" st.args .vnone) then
      ("none", { args := [], errs := st.errs ++ ["category required"] })
    else (tool, st)
  else (tool, st)

/-- Embedding of validate_plan(plan).  The implicit wall-clock read that
expand_period falls back to is surfaced as the explicit today argument.
The only Python statement in validate_plan that can raise on a dict input
is the attribute access modelled by toolOfPlan, hence the Except result. -/
def validatePlan (plan : PyDict) (today : Date) :
    Except String (Bool × Cleaned × List String) :=
  match toolOfPlan plan with
  | .error e => .error e
  | .ok tool0 =>
    let argsRaw := dictGetD "args" plan .vnone
    let argsV := if pyTruthy argsRaw then argsRaw else .vdict []
    let t1 : String × PyVal × List String :=
      if !ALLOWED_TOOLS.contains tool0 then
        ("none", .vdict [], ["Unknown tool: " ++ tool0])
      else (tool0, argsV, [])
    let t2 : String × PyDict × List String :=
      match t1.2.1 with
      | .vdict d => (t1.1, d, t1.2.2)
      | _ => (t1.1, [], t1.2.2 ++ ["args must be an object"])
    let st1 := periodStep today ⟨t2.2.1, t2.2.2⟩
    let r := dispatchTool t2.1 st1
    let ok := r.1 != "none" && r.2.errs.isEmpty
    .ok (ok, ⟨r.1, r.2.args⟩, r.2.errs)

/-! ## Router output parsing (_extract_json, parse_router_output) -/

/-- Embedding of the helper _extract_json of ai_router.py: after stripping,
either the text as a whole is a braced block, or the greedy DOTALL search
for a braced region returns the span from the first opening brace to the
last closing brace (when the latter comes after the former). -/
def extractJson (text : String) : Option String :=
  if text == "" then none
  else
    let t := pyStrip text
    let cs := t.data
    if cs.head? == some lbr && cs.getLast? == some rbr then some t
    else
      match cs.findIdx? (fun c => c == lbr), cs.reverse.findIdx? (fun c => c == rbr) with
      | some i, some jr =>
        let j := cs.length - 1 - jr
        if i < j then some (String.mk ((cs.drop i).take (j - i + 1))) else none
      | _, _ => none

/-- JSON whitespace characters. -/
def jsonWs (c : Char) : Bool := c == ' ' || c == '\t' || c == '\n' || c == '\r'

/-- Drop leading JSON whitespace. -/
def skipWs (cs : List Char) : List Char := cs.dropWhile jsonWs

/-- Value of a hexadecimal digit. -/
def hexVal (c : Char) : Option Nat :=
  if c.isDigit then some (c.toNat - 48)
  else if 'a' ≤ c && c ≤ 'f' then some (c.toNat - 87)
  else if 'A' ≤ c && c ≤ 'F' then some (c.toNat - 55)
  else none

/-- Single-character JSON string escapes. -/
def escChar (c : Char) : Option Char :=
  if c == '"' || c == '\\' || c == '/' then some c
  else if c == 'b' then some (Char.ofNat 8)
  else if c == 'f' then some (Char.ofNat 12)
  else if c == 'n' then some '\n'
  else if c == 'r' then some '\r'
  else if c == 't' then some '\t'
  else none

/-- Scan the body of a JSON string (the opening quote already consumed),
returning the decoded characters and the remaining input. -/
def jsonStrAux : Nat → List Char → Option (List Char × List Char)
  | 0, _ => none
  | _, [] => none
  | fuel + 1, c :: rest =>
    if c == '"' then some ([], rest)
    else if c == '\\' then
      match rest with
      | [] => none
      | e :: rest2 =>
        if e == 'u' then
          match rest2 with
          | h1 :: h2 :: h3 :: h4 :: rest3 =>
            match hexVal h1, hexVal h2, hexVal h3, hexVal h4 with
            | some a, some b, some c2, some d =>
              (jsonStrAux fuel rest3).map
                (fun r => (Char.ofNat (((a * 16 + b) * 16 + c2) * 16 + d) :: r.1, r.2))
            | _, _, _, _ => none
          | _ => none
        else
          match escChar e with
          | some ec => (jsonStrAux fuel rest2).map (fun r => (ec :: r.1, r.2))
          | none => none
    else if c.toNat < 32 then none
    else (jsonStrAux fuel rest).map (fun r => (c :: r.1, r.2))

/-- Scan a JSON number starting at the head of the input (sign included),
producing an int when there is no fractional or exponent part, matching
the int/float distinction of the json module. -/
def jsonNum (cs : List Char) : Option (PyVal × List Char) :=
  let (neg, cs1) := match cs with
    | '-' :: t => (true, t)
    | _ => (false, cs)
  match cs1 with
  | [] => none
  | c :: _ =>
    if !c.isDigit then none
    else
      let ip := cs1.takeWhile Char.isDigit
      let cs2 := cs1.dropWhile Char.isDigit
      if ip.length > 1 && ip.head? == some '0' then none
      else
        let (fp, cs3) := match cs2 with
          | '.' :: t =>
            let ds := t.takeWhile Char.isDigit
            (some ds, t.dropWhile Char.isDigit)
          | _ => (none, cs2)
        if fp == some [] then none
        else
          let (ex, cs4) : Option Int × List Char := match cs3 with
            | e :: t =>
              if e == 'e' || e == 'E' then
                let (eneg, t2) := match t with
                  | '-' :: t3 => (true, t3)
                  | '+' :: t3 => (false, t3)
                  | _ => (false, t)
                let ds := t2.takeWhile Char.isDigit
                if ds.isEmpty then (none, cs3)
                else ((some (if eneg then -(digitsToNat ds : Int) else (digitsToNat ds : Int))),
                      t2.dropWhile Char.isDigit)
              else (none, cs3)
            | [] => (none, cs3)
          match fp, ex with
          | none, none =>
            some (.vint (if neg then -(digitsToNat ip : Int) else (digitsToNat ip : Int)), cs2)
          | _, _ =>
            let fds := fp.getD []
            let base : Flt := ⟨(digitsToNat ip * 10 ^ fds.length + digitsToNat fds : Int), 10 ^ fds.length⟩
            let signed : Flt := if neg then ⟨-base.num, base.den⟩ else base
            let scaled : Flt := match ex with
              | some e => if e < 0 then ⟨signed.num, signed.den * 10 ^ e.natAbs⟩
                          else ⟨signed.num * (10 ^ e.natAbs : Int), signed.den⟩
              | none => signed
            some (.vfloat scaled, cs4)

mutual

/-- Decode one JSON value at the head of the input (fuel-indexed
recursive descent over the grammar accepted by json.loads; the
nonstandard NaN and Infinity extensions are outside the model). -/
def jsonValue : Nat → List Char → Option (PyVal × List Char)
  | 0, _ => none
  | fuel + 1, cs =>
    match skipWs cs with
    | [] => none
    | c :: rest =>
      if c == '"' then
        (jsonStrAux (fuel + 1) rest).map (fun r => (.vstr (String.mk r.1), r.2))
      else if c == lbr then jsonObj fuel (skipWs rest) true []
      else if c == '[' then jsonArr fuel (skipWs rest) true []
      else if c == 't' then
        match rest with
        | 'r' :: 'u' :: 'e' :: r2 => some (.vbool true, r2)
        | _ => none
      else if c == 'f' then
        match rest with
        | 'a' :: 'l' :: 's' :: 'e' :: r2 => some (.vbool false, r2)
        | _ => none
      else if c == 'n' then
        match rest with
        | 'u' :: 'l' :: 'l' :: r2 => some (.vnone, r2)
        | _ => none
      else jsonNum (c :: rest)

/-- Decode the members of a JSON object after its opening brace.  The
first flag marks whether no member has been read yet (so a closing brace
is accepted); duplicate keys keep the last value at the first position,
as dict construction does. -/
def jsonObj : Nat → List Char → Bool → PyDict → Option (PyVal × List Char)
  | 0, _, _, _ => none
  | _, [], _, _ => none
  | fuel + 1, c :: rest, isFirst, acc =>
    if c == rbr && isFirst then some (.vdict acc, rest)
    else if c == '"' then
      match jsonStrAux (fuel + 1) rest with
      | none => none
      | some (kcs, r1) =>
        match skipWs r1 with
        | ':' :: r2 =>
          match jsonValue fuel r2 with
          | none => none
          | some (v, r3) =>
            let acc2 := dictSet (String.mk kcs) v acc
            match skipWs r3 with
            | ',' :: r4 =>
              match skipWs r4 with
              | '"' :: r5 => jsonObj fuel ('"' :: r5) false acc2
              | _ => none
            | r4 =>
              if r4.head? == some rbr then some (.vdict acc2, r4.tail)
              else none
        | _ => none
    else none

/-- Decode the elements of a JSON array after its opening bracket. -/
def jsonArr : Nat → List Char → Bool → List PyVal → Option (PyVal × List Char)
  | 0, _, _, _ => none
  | _, [], _, _ => none
  | fuel + 1, c :: rest, isFirst, acc =>
    if c == ']' && isFirst then some (.vlist acc.reverse, rest)
    else
      match jsonValue fuel (c :: rest) with
      | none => none
      | some (v, r1) =>
        match skipWs r1 with
        | ',' :: r2 => jsonArr fuel (skipWs r2) false (v :: acc)
        | ']' :: r2 => some (.vlist (v :: acc).reverse, r2)
        | _ => none

end

/-- Embedding of json.loads restricted to the grammar above: a single
value with only whitespace around it. -/
def jsonLoads (s : String) : Option PyVal :=
  match jsonValue (s.length + 1) s.data with
  | none => none
  | some (v, rest) => if (skipWs rest).isEmpty then some v else none

/-- The sentinel plan returned by parse_router_output on a JSON decode
error. -/
def sentinelPlan : PyVal := .vdict [("tool", .vstr "none"), ("args", .vdict [])]

/-- Embedding of parse_router_output of ai_router.py: extract a braced
block (falling back to the literal two-character empty-object text when
none is found), then decode it, returning the sentinel plan when decoding
raises. -/
def parseRouterOutput (text : String) : PyVal :=
  let raw := (extractJson text).getD (String.mk [lbr, rbr])
  match jsonLoads raw with
  | some v => v
  | none => sentinelPlan

/-! ## Transaction table model (ai_tools.py)

A DataFrame row is modelled by Tx; concrete column presence (the optional
adjusted_amount, time and date columns) is carried by the Frame flags,
since pandas column presence is a table-level fact.  Amount cells are
modelled as exact rationals without NaN: the pandas count/sum aggregations
then coincide with plain length/sum. -/

/-- One transaction row of the normalised table. -/
structure Tx where
  dateStr : String
  timeStr : String
  merchant : String
  amount : Flt
  adjusted : Flt
  category : String
  subcat : String
  card : String
  notes : String
  deriving DecidableEq, Repr, Inhabited

/-- A table: rows plus column-presence flags. -/
structure Frame where
  rows : List Tx
  hasDate : Bool
  hasTime : Bool
  hasAdjusted : Bool

/-- Lexicographic strict order on dates. -/
def dateLtB (a b : Date) : Bool :=
  a.year < b.year ||
    (a.year == b.year && (a.month < b.month || (a.month == b.month && a.day < b.day)))

/-- Strict order on datetimes (date, seconds within the day). -/
def dtLtB (a b : Date × Nat) : Bool :=
  dateLtB a.1 b.1 || (a.1 == b.1 && a.2 < b.2)

/-- Reflexive order on datetimes. -/
def dtLeB (a b : Date × Nat) : Bool := dtLtB a b || (a.1 == b.1 && a.2 == b.2)

/-- Parse a YYYY-MM-DD date, as pd.to_datetime with format %Y-%m-%d and
errors=coerce does on the reachable inputs (strptime also tolerates
unpadded month and day); invalid dates give None, modelling NaT. -/
def parseYMD (s : String) : Option Date :=
  match s.data.splitOn '-' with
  | [ys, ms, ds] =>
    if (!ys.isEmpty && ys.length ≤ 4 && ys.all Char.isDigit) &&
       (!ms.isEmpty && ms.length ≤ 2 && ms.all Char.isDigit) &&
       (!ds.isEmpty && ds.length ≤ 2 && ds.all Char.isDigit) then
      let d : Date := ⟨digitsToNat ys, digitsToNat ms, digitsToNat ds⟩
      if d.validB then some d else none
    else none
  | _ => none

/-- Parse an HH:MM:SS clock reading as seconds, as pd.to_timedelta on a
string does (hours may exceed 23); unparsable values give None (NaT). -/
def parseTimeDelta (s : String) : Option Nat :=
  match s.data.splitOn ':' with
  | [hs, ms, ss] =>
    if (!hs.isEmpty && hs.all Char.isDigit) && (ms.length == 2 && ms.all Char.isDigit) &&
       (ss.length == 2 && ss.all Char.isDigit) &&
       digitsToNat ms < 60 && digitsToNat ss < 60 then
      some (digitsToNat hs * 3600 + digitsToNat ms * 60 + digitsToNat ss)
    else none
  | _ => none

/-- Add a number of seconds to a datetime, rolling over days. -/
def addSecs (dt : Date × Nat) (t : Nat) : Date × Nat :=
  let total := dt.2 + t
  (addDays dt.1 (total / 86400), total % 86400)

/-- Parse a date cell, as the flexible pd.to_datetime of ensure_dt does on
the ISO forms produced by the pipeline (date, optionally followed by a
clock time); anything else is NaT. -/
def parseDateCell (s : String) : Option (Date × Nat) :=
  match s.data.splitOn ' ' with
  | [dpart] => (parseYMD (String.mk dpart)).map (fun d => (d, 0))
  | [dpart, tpart] =>
    match parseYMD (String.mk dpart), parseTimeDelta (String.mk tpart) with
    | some d, some t => some (addSecs (d, 0) t)
    | _, _ => none
  | _ => none

/-- Embedding of the dt column produced by ensure_dt: the parsed date cell
plus, when a time column exists, the parsed time (unparsable times fill
as zero).  None models NaT. -/
def txDt (f : Frame) (r : Tx) : Option (Date × Nat) :=
  if !f.hasDate then none
  else
    match parseDateCell r.dateStr with
    | none => none
    | some d0 => if f.hasTime then some (addSecs d0 ((parseTimeDelta r.timeStr).getD 0)) else some d0

/-- Embedding of pick_amount_col applied to a row: the adjusted_amount
cell when that column exists, else the amount cell. -/
def pickAmount (f : Frame) (r : Tx) : Flt := if f.hasAdjusted then r.adjusted else r.amount

/-- Embedding of filter_by_date of ai_tools.py: keep rows whose dt is at
least the start date at midnight, and strictly before the end date plus
one day (the inclusive upper bound).  A missing or unparsable bound
leaves that side unfiltered. -/
def filterByDate (f : Frame) (startS endS : Option String) : List Tx :=
  let rows := f.rows
  let rows1 :=
    match startS with
    | none => rows
    | some s =>
      match (if s == "" then none else parseYMD s) with
      | none => rows
      | some sd =>
        rows.filter (fun r =>
          match txDt f r with
          | some t => dtLeB (sd, 0) t
          | none => false)
  match endS with
  | none => rows1
  | some s =>
    match (if s == "" then none else parseYMD s) with
    | none => rows1
    | some ed =>
      rows1.filter (fun r =>
        match txDt f r with
        | some t => dtLtB t (succDate ed, 0)
        | none => false)

/-- Insert into a list before the first element the comparator does not
place after the inserted one. -/
def insertBy {α : Type} (le : α → α → Bool) (a : α) : List α → List α
  | [] => [a]
  | b :: t => if le a b then a :: b :: t else b :: insertBy le a t

/-- Stable insertion sort by a boolean comparator, modelling the
sort_values calls (pandas tie order is unspecified; the claims do not
depend on it). -/
def sortListBy {α : Type} (le : α → α → Bool) (l : List α) : List α :=
  l.foldr (insertBy le) []

/-- Comparator for sort_values by dt descending with na_position last. -/
def dtDescBefore (f : Frame) (a b : Tx) : Bool :=
  match txDt f a, txDt f b with
  | some x, some y => dtLeB y x
  | some _, none => true
  | none, some _ => false
  | none, none => true

/-- Comparator for sort_values by the amount column descending. -/
def amtDescBefore (f : Frame) (a b : Tx) : Bool := fltLeB (pickAmount f b) (pickAmount f a)

/-- Lowercasing, modelling Python str.lower on the ASCII fragment. -/
def pyLower (s : String) : String := String.mk (s.data.map Char.toLower)

/-- Whether the first list starts with the second. -/
def startsWithList : List Char → List Char → Bool
  | _, [] => true
  | [], _ :: _ => false
  | a :: ta, b :: tb => a == b && startsWithList ta tb

/-- Substring containment on character lists. -/
def subList (needle : List Char) : List Char → Bool
  | [] => needle.isEmpty
  | c :: t => startsWithList (c :: t) needle || subList needle t

/-- Python substring containment: needle in hay. -/
def strContains (hay needle : String) : Bool := subList needle.data hay.data

/-- Embedding of the case-insensitive merchant substring match
str.contains(merchant_substr, case=False, na=False) on its reachable
inputs (patterns without regex metacharacters). -/
def merchMatch (sub : String) (r : Tx) : Bool := strContains (pyLower r.merchant) (pyLower sub)

/-- Embedding of the case-insensitive exact category match. -/
def catMatch (c : String) (r : Tx) : Bool := pyLower r.category == pyLower c

/-- The basic_stats summary fields. -/
structure Stats where
  count : Nat
  sum_eur : Flt
  avg_eur : Flt
  median_eur : Flt
  max_eur : Flt
  deriving DecidableEq, Repr

/-- Median of a list of float values, as pandas Series.median. -/
def medianOf (l : List Flt) : Flt :=
  let s := sortListBy fltLeB l
  let n := s.length
  if n == 0 then 0
  else if n % 2 == 1 then s.getD (n / 2) 0
  else Flt.div (Flt.add (s.getD (n / 2 - 1) 0) (s.getD (n / 2) 0)) ⟨2, 1⟩

/-- Maximum of a list of float values (the empty case is guarded by
callers). -/
def maxOf (l : List Flt) : Flt :=
  match l with
  | [] => 0
  | h :: t => t.foldl maxF h

/-- Embedding of basic_stats of ai_tools.py over the rows of a frame
sub-selection: count, and sum/mean/median/max of the picked amount column
with zero fallbacks on an empty selection. -/
def basicStats (f : Frame) (rows : List Tx) : Stats :=
  let amts := rows.map (pickAmount f)
  if rows.isEmpty then ⟨0, 0, 0, 0, 0⟩
  else ⟨rows.length, fltSum amts, Flt.div (fltSum amts) ⟨(rows.length : Int), 1⟩,
    medianOf amts, maxOf amts⟩

/-- Common result shape for the tools whose summary embeds basic_stats:
the stats, the selected sub-table they are computed from (in the order
the code leaves it), and the tx_rows cap. -/
structure ToolResult where
  stats : Stats
  selected : List Tx
  rowsLimit : Nat

/-- Embedding of tool_get_latest: sort by dt descending, slice
[offset, offset + n), stats over the slice.  (The constant label/echo
fields of the summary dict are not re-modelled.) -/
def toolGetLatest (f : Frame) (n offset : Nat) : ToolResult :=
  let sorted := sortListBy (dtDescBefore f) f.rows
  let slice := (sorted.drop offset).take n
  ⟨basicStats f slice, slice, n⟩

/-- Embedding of tool_sum_by_merchant: date filter, case-insensitive
merchant substring match, sort by dt descending, stats over the match. -/
def toolSumByMerchant (f : Frame) (sub : String) (sd ed : Option String) : ToolResult :=
  let dfd := filterByDate f sd ed
  let sel := sortListBy (dtDescBefore f) (dfd.filter (merchMatch sub))
  ⟨basicStats f sel, sel, 50⟩

/-- Embedding of tool_sum_by_category: date filter, case-insensitive
exact category match, sort by dt descending, stats over the match. -/
def toolSumByCategory (f : Frame) (c : String) (sd ed : Option String) : ToolResult :=
  let dfd := filterByDate f sd ed
  let sel := sortListBy (dtDescBefore f) (dfd.filter (catMatch c))
  ⟨basicStats f sel, sel, 50⟩

/-- Python truthiness of an optional string argument. -/
def optTruthy (o : Option String) : Bool :=
  match o with
  | some s => !(s == "")
  | none => false

/-- Embedding of tool_top_transactions: date filter, optional category
and merchant filters, sort by the picked amount column descending, take
the first n, stats over that head. -/
def toolTopTransactions (f : Frame) (n : Nat) (sd ed : Option String)
    (category merchant_substr : Option String) : ToolResult :=
  let dfd := filterByDate f sd ed
  let out1 := if optTruthy category then dfd.filter (catMatch (category.getD "")) else dfd
  let out2 := if optTruthy merchant_substr then out1.filter (merchMatch (merchant_substr.getD "")) else out1
  let sel := (sortListBy (amtDescBefore f) out2).take n
  ⟨basicStats f sel, sel, n⟩

/-- Embedding of tool_outliers_large: date filter, keep rows whose picked
amount is at least the threshold, sort by that column descending, stats
over the kept rows. -/
def toolOutliersLarge (f : Frame) (minAmount : Flt) (sd ed : Option String) : ToolResult :=
  let dfd := filterByDate f sd ed
  let sel := sortListBy (amtDescBefore f) (dfd.filter (fun r => fltLeB minAmount (pickAmount f r)))
  ⟨basicStats f sel, sel, 50⟩

/-- Distinct elements of a list of strings. -/
def dedupKeys : List String → List String
  | [] => []
  | k :: t => if k ∈ dedupKeys t then dedupKeys t else k :: dedupKeys t

/-- Boolean lexicographic order on character lists by code point. -/
def listLeB : List Char → List Char → Bool
  | [], _ => true
  | _ :: _, [] => false
  | a :: ta, b :: tb => a.toNat < b.toNat || (a == b && listLeB ta tb)

/-- Boolean lexicographic order on strings, as Python string comparison. -/
def strLeB (a b : String) : Bool := listLeB a.data b.data

/-- The row grouping field selected by a column name, with the fallback
to category the tools apply when the named column is absent. -/
def fieldOf (byName : String) (r : Tx) : String :=
  if byName == "2nd category" then r.subcat
  else if byName == "card" then r.card
  else if byName == "notes" then r.notes
  else if byName == "merchant" then r.merchant
  else r.category

/-- Embedding of tool_merchant_breakdown: date filter and merchant match
first; the summary stats are computed over that matched sub-table (the
grouped rows are keyed by the secondary field, sorted by group sum
descending, capped at 20). -/
def toolMerchantBreakdown (f : Frame) (sub : String) (byName : String)
    (sd ed : Option String) : ToolResult × List (String × Flt) :=
  let dfd := filterByDate f sd ed
  let sel := dfd.filter (merchMatch sub)
  let keys := sortListBy strLeB (dedupKeys (sel.map (fieldOf byName)))
  let groups := keys.map (fun k =>
    (k, fltSum ((sel.filter (fun r => fieldOf byName r == k)).map (pickAmount f))))
  let grouped := (sortListBy (fun a b => fltLeB b.2 a.2) groups).take 20
  (⟨basicStats f sel, sel, 20⟩, grouped)

/-- The year-month string of a datetime, as the pandas monthly period. -/
def ymOf (dt : Date × Nat) : String := fmtYM dt.1.year dt.1.month

/-- Pandas DateOffset month subtraction: shift the month, clamping the
day to the target month length. -/
def subMonths (d : Date) (n : Nat) : Date :=
  let total := d.year * 12 + (d.month - 1)
  let t2 := total - n
  let y := t2 / 12
  let m := t2 % 12 + 1
  ⟨y, m, min d.day (daysInMonth y m)⟩

/-- DateOffset month subtraction on a timestamp (the time is kept). -/
def subMonthsDT (dt : Date × Nat) (n : Nat) : Date × Nat := (subMonths dt.1 n, dt.2)

/-- The maximum dt of a frame, skipping NaT, as Series.max. -/
def maxDt (f : Frame) : Option (Date × Nat) :=
  f.rows.foldr
    (fun r acc =>
      match txDt f r with
      | none => acc
      | some t =>
        match acc with
        | none => some t
        | some m => some (if dtLtB m t then t else m))
    none

/-- One output row of tool_recurring_merchants. -/
structure RMEntry where
  merchant : String
  txn_count : Nat
  months_active : Nat
  sum_eur : Flt
  deriving DecidableEq, Repr

/-- The recurring-merchants window: rows whose dt is at least the table
maximum minus the given number of months (empty when every dt is NaT,
matching the early return). -/
def rmWindow (f : Frame) (months : Nat) : List Tx :=
  match maxDt f with
  | none => []
  | some mx =>
    let start := subMonthsDT mx months
    f.rows.filter (fun r =>
      match txDt f r with
      | some t => dtLeB start t
      | none => false)

/-- The groupby aggregate of one merchant within the window: transaction
count, distinct active months, and amount sum. -/
def rmAggregate (f : Frame) (window : List Tx) (m : String) : RMEntry :=
  let txns := window.filter (fun r => r.merchant == m)
  ⟨m, txns.length,
    (dedupKeys (txns.map (fun r =>
      match txDt f r with
      | some t => ymOf t
      | none => "NaT"))).length,
    fltSum (txns.map (pickAmount f))⟩

/-- Descending lexicographic comparator on (months_active, sum_eur), the
sort key of tool_recurring_merchants. -/
def rmKeyGe (a b : RMEntry) : Bool :=
  b.months_active < a.months_active ||
    (a.months_active == b.months_active && fltLeB b.sum_eur a.sum_eur)

/-- The per-merchant aggregate rows of tool_recurring_merchants before
the qualification filter: one entry per distinct merchant of the window,
in groupby key order. -/
def rmEntries (f : Frame) (months : Nat) : List RMEntry :=
  (sortListBy strLeB (dedupKeys ((rmWindow f months).map (fun r => r.merchant)))).map
    (rmAggregate f (rmWindow f months))

/-- The qualification predicate of tool_recurring_merchants: transaction
count at least min_count and at least two distinct active months. -/
def rmQual (min_count : Nat) (e : RMEntry) : Bool :=
  min_count ≤ e.txn_count && 2 ≤ e.months_active

/-- Embedding of tool_recurring_merchants: aggregate the window per
merchant, keep merchants with count at least min_count and at least two
active months, sort by (months_active, sum_eur) descending, and take the
first 30 as the output rows. -/
def toolRecurringMerchants (f : Frame) (months min_count : Nat) : List RMEntry :=
  (sortListBy rmKeyGe ((rmEntries f months).filter (rmQual min_count))).take 30

/-! ## Deterministic order-query fast path (app/ai_assistant.py) -/

/-- The keyword list the fast path scans the lowered query for. -/
def ORDER_KEYWORDS : List String :=
  ["viimeisin", "uusin", "viimeinen", "vika", "toiseksi viimeinen",
   "toiseksi uusin", "kolmanneksi viimeinen", "kolmanneksi uusin",
   "edellinen", "seuraava", "sitä edellinen", "sitä seuraava",
   "latest", "newest", "last", "second last", "third last", "previous", "next"]

/-- Whether a lowered query is an order-based query. -/
def isOrderQuery (ql : String) : Bool := ORDER_KEYWORDS.any (fun k => strContains ql k)

/-- The sorted-descending index handle_order_query resolves from the
lowered query: third-style keywords first, then second-style, else the
latest. -/
def resolveIdx (ql : String) : Nat :=
  if strContains ql "kolmanneksi" || strContains ql "third" then 2
  else if strContains ql "toiseksi" || strContains ql "second" || strContains ql "edellinen" ||
      strContains ql "previous" || strContains ql "sitä edellinen" then 1
  else 0

/-- The label matching the resolved index. -/
def resolveLabel (ql : String) : String :=
  if strContains ql "kolmanneksi" || strContains ql "third" then "Kolmanneksi viimeisin"
  else if strContains ql "toiseksi" || strContains ql "second" || strContains ql "edellinen" ||
      strContains ql "previous" || strContains ql "sitä edellinen" then "Toiseksi viimeisin"
  else "Viimeisin"

/-- Round to the nearest integer, ties to even (the rounding of the .2f
conversion on exactly representable values). -/
def roundHalfEven (a : Flt) : Int :=
  let fl : Int := Int.fdiv a.num (a.den : Int)
  let frNum := a.num - fl * (a.den : Int)
  if 2 * frNum < (a.den : Int) then fl
  else if (a.den : Int) < 2 * frNum then fl + 1
  else if fl % 2 == 0 then fl else fl + 1

/-- Two-decimal formatting of an amount, modelling the .2f conversion. -/
def fmt2 (q : Flt) : String :=
  let n := (roundHalfEven ⟨(q.num.natAbs : Int) * 100, q.den⟩).toNat
  (if q.num < 0 then "-" else "") ++ toString (n / 100) ++ "." ++ pad 2 (n % 100)

/-- Clock rendering HH:MM:SS of seconds within a day. -/
def fmtClock (secs : Nat) : String :=
  pad 2 (secs / 3600) ++ ":" ++ pad 2 (secs % 3600 / 60) ++ ":" ++ pad 2 (secs % 60)

/-- Embedding of format_tx of app/ai_assistant.py. -/
def formatTx (f : Frame) (r : Tx) : String :=
  let dtStr :=
    match txDt f r with
    | some t => fmtDate t.1 ++ " " ++ fmtClock t.2
    | none => r.dateStr
  dtStr ++ " | " ++ r.merchant ++ " | €" ++ fmt2 (pickAmount f r) ++ " | " ++
    r.category ++ " / " ++ r.subcat

/-- Embedding of handle_order_query: resolve the index from the lowered
query; report the row count when the sorted table is too short, else
format the row at that index. -/
def handleOrderQuery (f : Frame) (sorted : List Tx) (ql : String) : String :=
  let idx := resolveIdx ql
  if sorted.length ≤ idx then
    "En löytänyt tarpeeksi tapahtumia. Tietokannassa on " ++ toString sorted.length ++
      " tapahtumaa."
  else resolveLabel ql ++ " tapahtuma: " ++ formatTx f (sorted.getD idx default)

/-- Outcome of the dispatch prelude of one chat turn. -/
inductive TurnPath where
  | fastPath (answer : String)
  | llmPath
  deriving DecidableEq, Repr

/-- Embedding of the dispatch prelude of render_ai_assistant_tab: lower
the query; when it matches the order-keyword set and the table is
non-empty with a date column, sort by dt descending and answer through
handle_order_query, returning before any LLM involvement (fastPath);
otherwise control continues into the LLM-backed strategies (llmPath). -/
def assistantTurn (f : Frame) (user_input : String) : TurnPath :=
  let ql := pyLower user_input
  if isOrderQuery ql && !f.rows.isEmpty && f.hasDate then
    .fastPath (handleOrderQuery f (sortListBy (dtDescBefore f) f.rows) ql)
  else .llmPath

/-! ## Period ranges as the specification states them

specPeriodRange is deliberately written from the wording of the
specification (section 4.1), not from the code, so that the period
resolver theorem compares the two formulations. -/

/-- The start/end dates the specification assigns to each period token:
last_N_days is today minus N-1 through today; this_month starts at the
first of the month; last_month is the first through last day of the
previous month (via the month-length table, not day arithmetic);
this_year starts January 1; last_year is the whole previous year. -/
def specPeriodRange (p : String) (today : Date) : Option (Date × Date) :=
  if p == "last_7_days" then some (subDays today (7 - 1), today)
  else if p == "last_30_days" then some (subDays today (30 - 1), today)
  else if p == "last_90_days" then some (subDays today (90 - 1), today)
  else if p == "this_month" then some (⟨today.year, today.month, 1⟩, today)
  else if p == "last_month" then
    let py := if today.month == 1 then today.year - 1 else today.year
    let pm := if today.month == 1 then 12 else today.month - 1
    some (⟨py, pm, 1⟩, ⟨py, pm, daysInMonth py pm⟩)
  else if p == "this_year" then some (⟨today.year, 1, 1⟩, today)
  else if p == "last_year" then some (⟨today.year - 1, 1, 1⟩, ⟨today.year - 1, 12, 31⟩)
  else none

/-! ## Validator state invariant

cleanedInvB is a verification artifact (not a translation of source
code): the decidable invariant that validate_plan establishes on the
cleaned plan it returns.  It is used to state and prove the re-validation
fixed-point property. -/

/-- The value at an integer-clamped field: an int within [lo, hi]. -/
def intClamped (d : PyDict) (name : String) (lo hi : Int) : Bool :=
  match dictGet name d with
  | some (.vint i) => decide (lo ≤ i) && decide (i ≤ hi)
  | _ => false

/-- The value at a float-clamped field: a float fixed by re-clamping. -/
def floatClamped (d : PyDict) (name : String) (lo hi : Flt) : Bool :=
  match dictGet name d with
  | some (.vfloat q) => maxF lo (minF hi q) == q
  | _ => false

/-- The value at a required string field: a nonempty capped string. -/
def strReq (d : PyDict) (name : String) (cap : Nat) : Bool :=
  match dictGet name d with
  | some (.vstr s) => !(s == "") && decide (s.length ≤ cap)
  | _ => false

/-- The value at an optional string field of top_transactions: absent,
None, or a nonempty capped string. -/
def optStrOk (d : PyDict) (name : String) (cap : Nat) : Bool :=
  match dictGet name d with
  | none => true
  | some .vnone => true
  | some (.vstr s) => !(s == "") && decide (s.length ≤ cap)
  | _ => false

/-- The value at a date field: None, or a trim-stable DATE_RE match. -/
def dateStored (d : PyDict) (name : String) : Bool :=
  match dictGet name d with
  | some .vnone => true
  | some (.vstr s) => dateReMatch s && (pyStrip s == s)
  | _ => false

/-- The period key after validation: absent, None, or the empty string. -/
def periodOk (d : PyDict) : Bool :=
  match dictGet "period" d with
  | none => true
  | some .vnone => true
  | some (.vstr s) => s == ""
  | _ => false

/-- The invariant validate_plan establishes on its cleaned plan. -/
def cleanedInvB (c : Cleaned) : Bool :=
  if c.tool == "none" then periodOk c.args
  else if c.tool == "get_latest" then
    periodOk c.args && intClamped c.args "n" 1 10 && intClamped c.args "offset" 0 50
  else if c.tool == "sum_by_merchant" then
    periodOk c.args && strReq c.args "merchant_substr" 60 &&
      dateStored c.args "start_date" && dateStored c.args "end_date"
  else if c.tool == "sum_by_category" then
    periodOk c.args && strReq c.args "category" 60 &&
      dateStored c.args "start_date" && dateStored c.args "end_date"
  else if c.tool == "top_transactions" then
    periodOk c.args && intClamped c.args "n" 1 50 &&
      dateStored c.args "start_date" && dateStored c.args "end_date" &&
      optStrOk c.args "category" 60 && optStrOk c.args "merchant_substr" 60
  else if c.tool == "group_by_month" then
    periodOk c.args && dateStored c.args "start_date" && dateStored c.args "end_date" &&
      strReq c.args "field" 30 && intClamped c.args "top_k" 1 10
  else if c.tool == "outliers_large" then
    periodOk c.args && floatClamped c.args "min_amount" 0 1000000 &&
      dateStored c.args "start_date" && dateStored c.args "end_date"
  else if c.tool == "recurring_merchants" then
    periodOk c.args && intClamped c.args "months" 1 24 && intClamped c.args "min_count" 2 20
  else if c.tool == "merchant_breakdown" then
    periodOk c.args && strReq c.args "merchant_substr" 60 && strReq c.args "by" 30 &&
      dateStored c.args "start_date" && dateStored c.args "end_date"
  else if c.tool == "category_trend" then
    periodOk c.args && strReq c.args "category" 60 && intClamped c.args "months" 1 24
  else false

/-- The norm_str-processed (length-capped) string fields of each tool:
the fields whose stored value re-validation trims again. -/
def strFieldsOf (tool : String) : List String :=
  if tool == "sum_by_merchant" then ["merchant_substr"]
  else if tool == "sum_by_category" then ["category"]
  else if tool == "top_transactions" then ["category", "merchant_substr"]
  else if tool == "group_by_month" then ["field"]
  else if tool == "merchant_breakdown" then ["merchant_substr", "by"]
  else if tool == "category_trend" then ["category"]
  else []

/-! ## Concrete instances used by witnesses and counterexamples -/

/-- A fixed reference date used by concrete instances. -/
def t0 : Date := ⟨2025, 6, 15⟩

/-- A merchant_substr value of 63 characters whose 60-character cut ends
in a space: 59 letters, a space, then three more letters. -/
def c4sub : String := String.mk (List.replicate 59 'a') ++ " bbb"

/-- The plan the idempotence counterexample validates. -/
def c4plan : PyDict :=
  [("tool", .vstr "sum_by_merchant"), ("args", .vdict [("merchant_substr", .vstr c4sub)])]

/-- The cleaned plan of the first validation: the stored merchant
substring ends in the space the cut exposed. -/
def c4cleaned1 : Cleaned :=
  ⟨"sum_by_merchant",
   [("merchant_substr", .vstr (String.mk (List.replicate 59 'a') ++ " ")),
    ("start_date", .vnone), ("end_date", .vnone)]⟩

/-- The cleaned plan of the second validation: the trailing space is
trimmed away. -/
def c4cleaned2 : Cleaned :=
  ⟨"sum_by_merchant",
   [("merchant_substr", .vstr (String.mk (List.replicate 59 'a'))),
    ("start_date", .vnone), ("end_date", .vnone)]⟩

/-- Row helper for the concrete tables. -/
def mkTx (d m : String) (amount adjusted : Flt) (cat : String) : Tx :=
  ⟨d, "", m, amount, adjusted, cat, "sub", "card", "notes"⟩

/-- A row dated 2025-01-10 at 23:59:00 (time column present). -/
def lateRow : Tx := ⟨"2025-01-10", "23:59:00", "Night Shop", 5, 5, "Groceries", "", "", ""⟩

/-- A one-row frame holding lateRow. -/
def lateFrame : Frame := ⟨[lateRow], true, true, true⟩

/-- A frame whose amount and adjusted_amount columns differ everywhere,
so a sum over the wrong column is visibly wrong. -/
def c2frame : Frame :=
  ⟨[mkTx "2025-01-01" "Prisma Kuopio" 10 5 "Ruokakauppa",
    mkTx "2025-01-15" "Prisma Keskusta" 20 7 "Ruokakauppa",
    mkTx "2025-02-01" "K-Market" 30 9 "Ostokset"],
   true, false, true⟩

/-- Recurring-merchants witness frame: one merchant with five
transactions inside a single month, one with three transactions across
two months. -/
def rmFrame : Frame :=
  ⟨[mkTx "2025-03-01" "OneMonth" 10 10 "C", mkTx "2025-03-02" "OneMonth" 10 10 "C",
    mkTx "2025-03-03" "OneMonth" 10 10 "C", mkTx "2025-03-04" "OneMonth" 10 10 "C",
    mkTx "2025-03-05" "OneMonth" 10 10 "C",
    mkTx "2025-02-10" "TwoMonths" 7 7 "C", mkTx "2025-03-10" "TwoMonths" 7 7 "C",
    mkTx "2025-03-11" "TwoMonths" 7 7 "C"],
   true, false, true⟩

/-- Thirty-one qualifying merchants m00..m30, each with three
transactions across two months and a distinct sum. -/
def c8frame : Frame :=
  ⟨(List.range 31).flatMap (fun i =>
      [mkTx "2025-01-01" ("m" ++ pad 2 i) ⟨(10 + i : Int), 1⟩ ⟨(10 + i : Int), 1⟩ "C",
       mkTx "2025-01-02" ("m" ++ pad 2 i) ⟨(10 + i : Int), 1⟩ ⟨(10 + i : Int), 1⟩ "C",
       mkTx "2025-02-01" ("m" ++ pad 2 i) ⟨(10 + i : Int), 1⟩ ⟨(10 + i : Int), 1⟩ "C"]),
   true, false, true⟩

/-- A cleaned get_latest plan already in validated form, used by the
idempotence witness. -/
def c4gl : Cleaned := ⟨"get_latest", [("n", .vint 5), ("offset", .vint 0)]⟩

/-- Three-row frame for the order-query instances. -/
def oqFrame : Frame :=
  ⟨[mkTx "2025-01-01" "Alpha" 1 1 "C", mkTx "2025-01-02" "Beta" 2 2 "C",
    mkTx "2025-01-03" "Gamma" 3 3 "C"],
   true, false, false⟩


/-! ## Association-list lemmas -/

theorem beq_false_of_ne {a b : String} (h : a ≠ b) : (a == b) = false := by
  simpa using h

theorem dictGet_set_self (k : String) (v : PyVal) (d : PyDict) :
    dictGet k (dictSet k v d) = some v := by
  induction d with
  | nil => simp [dictSet, dictGet]
  | cons hd t ih =>
    obtain ⟨k1, v1⟩ := hd
    by_cases hk : k1 = k
    · simp [dictSet, dictGet, hk]
    · simp [dictSet, dictGet, beq_false_of_ne hk, ih]

theorem dictGet_set_ne (k k2 : String) (v : PyVal) (d : PyDict) (hk : k ≠ k2) :
    dictGet k (dictSet k2 v d) = dictGet k d := by
  induction d with
  | nil => simp [dictSet, dictGet, beq_false_of_ne (Ne.symm hk)]
  | cons hd t ih =>
    obtain ⟨k1, v1⟩ := hd
    by_cases h2 : k1 = k2
    · have h3 : k1 ≠ k := fun hc => hk ((hc.symm.trans h2).symm ▸ rfl)
      simp [dictSet, dictGet, h2, beq_false_of_ne h3, beq_false_of_ne (h2 ▸ h3)]
    · by_cases h4 : k1 = k <;>
        simp [dictSet, dictGet, beq_false_of_ne h2, h4, beq_false_of_ne hk, ih]

theorem dictSet_same (k : String) (v : PyVal) (d : PyDict) (h : dictGet k d = some v) :
    dictSet k v d = d := by
  induction d with
  | nil => simp [dictGet] at h
  | cons hd t ih =>
    obtain ⟨k1, v1⟩ := hd
    by_cases h2 : k1 = k
    · simp only [dictGet, h2, beq_self_eq_true, if_pos, Option.some.injEq] at h
      simp [dictSet, h2, h]
    · simp only [dictGet, beq_false_of_ne h2, Bool.false_eq_true, if_false] at h
      simp [dictSet, beq_false_of_ne h2, ih h]

theorem dictGet_pop_ne (k k2 : String) (d : PyDict) (hk : k ≠ k2) :
    dictGet k (dictPop k2 d) = dictGet k d := by
  induction d with
  | nil => simp [dictPop]
  | cons hd t ih =>
    obtain ⟨k1, v1⟩ := hd
    by_cases h2 : k1 = k2
    · have h3 : k1 ≠ k := fun hc => hk ((hc.symm.trans h2).symm ▸ rfl)
      simp [dictPop, dictGet, h2, beq_false_of_ne h3, Ne.symm hk]
    · by_cases h4 : k1 = k <;>
        simp [dictPop, dictGet, beq_false_of_ne h2, h4, beq_false_of_ne hk, ih]

theorem dictGet_none_of_not_mem_keys (k : String) (d : PyDict)
    (h : k ∉ d.map Prod.fst) : dictGet k d = none := by
  induction d with
  | nil => rfl
  | cons hd t ih =>
    obtain ⟨k1, v1⟩ := hd
    simp only [List.map_cons, List.mem_cons, not_or] at h
    simp [dictGet, beq_false_of_ne (Ne.symm h.1), ih h.2]

theorem dictGet_pop_self (k : String) (d : PyDict) (hnd : (d.map Prod.fst).Nodup) :
    dictGet k (dictPop k d) = none := by
  induction d with
  | nil => simp [dictPop, dictGet]
  | cons hd t ih =>
    obtain ⟨k1, v1⟩ := hd
    simp only [List.map_cons, List.nodup_cons] at hnd
    by_cases h2 : k1 = k
    · simp only [dictPop, h2, beq_self_eq_true, if_pos]
      exact dictGet_none_of_not_mem_keys k t (h2 ▸ hnd.1)
    · simp [dictPop, dictGet, beq_false_of_ne h2, ih hnd.2]

theorem keys_dictSet (k : String) (v : PyVal) (d : PyDict) :
    (dictSet k v d).map Prod.fst = if (dictGet k d).isSome then d.map Prod.fst
      else d.map Prod.fst ++ [k] := by
  induction d with
  | nil => simp [dictSet, dictGet]
  | cons hd t ih =>
    obtain ⟨k1, v1⟩ := hd
    by_cases h2 : k1 = k
    · simp [dictSet, dictGet, h2]
    · simp only [dictSet, beq_false_of_ne h2, Bool.false_eq_true, if_false, List.map_cons,
        dictGet, ih]
      by_cases h3 : (dictGet k t).isSome <;> simp [h2, h3]

theorem dictGet_isSome_of_mem_keys (k : String) (d : PyDict)
    (h : k ∈ d.map Prod.fst) : (dictGet k d).isSome := by
  induction d with
  | nil => simp at h
  | cons hd t ih =>
    obtain ⟨k1, v1⟩ := hd
    simp only [List.map_cons, List.mem_cons] at h
    by_cases h2 : k1 = k
    · simp [dictGet, h2]
    · simp only [dictGet, beq_false_of_ne h2, Bool.false_eq_true, if_false]
      exact ih (h.resolve_left (fun hc => h2 hc.symm))

theorem nodup_keys_dictSet (k : String) (v : PyVal) (d : PyDict)
    (hnd : (d.map Prod.fst).Nodup) : ((dictSet k v d).map Prod.fst).Nodup := by
  rw [keys_dictSet]
  by_cases h3 : (dictGet k d).isSome
  · simp [h3, hnd]
  · have hk : k ∉ d.map Prod.fst := by
      intro hmem
      exact h3 (dictGet_isSome_of_mem_keys k d hmem)
    simp [h3, List.nodup_append, hnd, hk]

theorem sublist_dictPop (k : String) (d : PyDict) : (dictPop k d).Sublist d := by
  induction d with
  | nil => simp [dictPop]
  | cons hd t ih =>
    obtain ⟨k1, v1⟩ := hd
    by_cases h2 : k1 = k
    · simp only [dictPop, h2, beq_self_eq_true, if_pos]
      exact List.sublist_cons_self (k, v1) t
    · simpa [dictPop, beq_false_of_ne h2] using ih.cons₂ (k1, v1)

theorem nodup_keys_dictPop (k : String) (d : PyDict)
    (hnd : (d.map Prod.fst).Nodup) : ((dictPop k d).map Prod.fst).Nodup :=
  hnd.sublist ((sublist_dictPop k d).map Prod.fst)

/-! ## Claim theorems: router output parsing and simple fast-path facts -/

/-- Claim C1 (code evaluation at the failing input): on the plan whose
tool value is the integer 5 (a truthy non-string), validate_plan reaches
(5).strip() and raises AttributeError instead of returning an
(ok, plan, errors) triple, contradicting the never-raises contract. -/
theorem c1_validate_plan_raises_on_nonstring_tool :
    validatePlan [("tool", PyVal.vint 5), ("args", PyVal.vdict [])] t0 =
      Except.error "AttributeError: object has no attribute strip" := rfl

/-- Claim C5 (counterexample): on empty model output, parse_router_output
returns the empty dict, not the plan with tool none and empty args that
the claim promises. -/
theorem c5_counterexample_empty_text :
    parseRouterOutput "" = PyVal.vdict [] ∧ parseRouterOutput "" ≠ sentinelPlan := by
  have he : parseRouterOutput "" = PyVal.vdict [] := rfl
  refine ⟨he, fun h => ?_⟩
  rw [he] at h
  simp [sentinelPlan] at h

/-- Claim C5 (amended): when no braced block is found in the model output
(including empty text), parse_router_output returns the empty mapping;
when a block is found but fails to decode as JSON, it returns the plan
with tool none and empty args.  It never raises: the embedding is total. -/
theorem c5_parse_router_output_fallbacks (text : String) :
    (extractJson text = none → parseRouterOutput text = PyVal.vdict []) ∧
    (∀ raw, extractJson text = some raw → jsonLoads raw = none →
      parseRouterOutput text = sentinelPlan) := by
  constructor
  · intro h
    simp only [parseRouterOutput, h, Option.getD]
    rfl
  · intro raw h hj
    simp only [parseRouterOutput, h, Option.getD, hj]

/-- Witness for C5: the empty text yields the empty mapping, and a
non-JSON braced block yields the sentinel plan. -/
theorem c5_witness :
    parseRouterOutput "" = PyVal.vdict [] ∧ parseRouterOutput "\x7bbad\x7d" = sentinelPlan :=
  ⟨(c5_parse_router_output_fallbacks "").1 rfl,
   (c5_parse_router_output_fallbacks "\x7bbad\x7d").2 "\x7bbad\x7d" rfl rfl⟩

/-- Claim C10: when the resolved order index is at least the number of
rows, handle_order_query returns the insufficient-transactions message
reporting the row count (the embedding is total, so no exception can
occur). -/
theorem c10_order_query_insufficient_rows (f : Frame) (sorted : List Tx) (ql : String)
    (h : sorted.length ≤ resolveIdx ql) :
    handleOrderQuery f sorted ql =
      "En löytänyt tarpeeksi tapahtumia. Tietokannassa on " ++ toString sorted.length ++
        " tapahtumaa." := by
  simp only [handleOrderQuery]
  rw [if_pos h]

/-- Witness for C10: a second-to-last query against a one-row table. -/
theorem c10_witness :
    handleOrderQuery oqFrame [mkTx "2025-01-01" "Alpha" 1 1 "C"] "second" =
      "En löytänyt tarpeeksi tapahtumia. Tietokannassa on 1 tapahtumaa." := by
  have h := c10_order_query_insufficient_rows oqFrame [mkTx "2025-01-01" "Alpha" 1 1 "C"]
    "second" (by decide)
  simpa using h


/-! ## String stripping lemmas -/

theorem head_dropWhile_false (p : Char → Bool) (l : List Char) :
    ∀ c, (l.dropWhile p).head? = some c → p c = false := by
  induction l with
  | nil => intro c h; simp at h
  | cons a t ih =>
    intro c h
    rw [List.dropWhile_cons] at h
    by_cases hp : p a
    · exact ih c (by simpa [hp] using h)
    · simp only [hp, if_false, List.head?_cons, Option.some.injEq] at h
      simp only [Bool.false_eq_true, if_false] at h
      cases h
      simpa using hp

theorem dropWhile_eq_self_of_head (p : Char → Bool) (l : List Char)
    (h : ∀ c, l.head? = some c → p c = false) : l.dropWhile p = l := by
  cases l with
  | nil => rfl
  | cons a t =>
    have := h a rfl
    simp [List.dropWhile_cons, this]

theorem getLast?_dropWhile (p : Char → Bool) (l : List Char)
    (hne : l.dropWhile p ≠ []) : (l.dropWhile p).getLast? = l.getLast? := by
  induction l with
  | nil => simp at hne
  | cons a t ih =>
    rw [List.dropWhile_cons]
    by_cases hp : p a
    · rw [if_pos hp]
      rw [List.dropWhile_cons, if_pos hp] at hne
      have ht : t ≠ [] := by
        intro h0; rw [h0] at hne; exact hne rfl
      obtain ⟨b, t2, rfl⟩ := List.exists_cons_of_ne_nil ht
      rw [ih hne, List.getLast?_cons_cons]
    · rw [if_neg hp]

theorem pyStrip_of_ends (l : List Char)
    (h1 : ∀ c, l.head? = some c → pyWs c = false)
    (h2 : ∀ c, l.getLast? = some c → pyWs c = false) :
    pyStrip (String.mk l) = String.mk l := by
  unfold pyStrip
  show String.mk ((l.dropWhile pyWs).reverse.dropWhile pyWs).reverse = String.mk l
  rw [dropWhile_eq_self_of_head pyWs l h1]
  rw [dropWhile_eq_self_of_head pyWs l.reverse
    (fun c hc => h2 c (by rwa [List.head?_reverse] at hc))]
  rw [List.reverse_reverse]

theorem pyStrip_head (s : String) :
    ∀ c, (pyStrip s).data.head? = some c → pyWs c = false := by
  intro c hc
  show pyWs c = false
  have hd : (pyStrip s).data =
      ((s.data.dropWhile pyWs).reverse.dropWhile pyWs).reverse := rfl
  rw [hd, List.head?_reverse] at hc
  have hne : (s.data.dropWhile pyWs).reverse.dropWhile pyWs ≠ [] := by
    intro h0; rw [h0] at hc; simp at hc
  rw [getLast?_dropWhile pyWs _ hne, List.getLast?_reverse] at hc
  exact head_dropWhile_false pyWs _ c hc

theorem pyStrip_getLast (s : String) :
    ∀ c, (pyStrip s).data.getLast? = some c → pyWs c = false := by
  intro c hc
  have hd : (pyStrip s).data =
      ((s.data.dropWhile pyWs).reverse.dropWhile pyWs).reverse := rfl
  rw [hd, List.getLast?_reverse] at hc
  exact head_dropWhile_false pyWs _ c hc

theorem pyStrip_idem (s : String) : pyStrip (pyStrip s) = pyStrip s := by
  have h := pyStrip_of_ends (pyStrip s).data (pyStrip_head s) (pyStrip_getLast s)
  simpa using h

theorem strTake_of_length_le (n : Nat) (s : String) (h : s.length ≤ n) :
    strTake n s = s := by
  obtain ⟨l⟩ := s
  show String.mk (l.take n) = String.mk l
  rw [List.take_of_length_le h]

theorem strTake_length_le (n : Nat) (s : String) : (strTake n s).length ≤ n := by
  obtain ⟨l⟩ := s
  show (l.take n).length ≤ n
  simp

/-! ## Validator field-operation lemmas -/

theorem clampInt_frame (name : String) (dflt lo hi : Int) (st : VSt) (k : String)
    (hk : k ≠ name) :
    dictGet k (clampInt name dflt lo hi st).args = dictGet k st.args := by
  cases h : pyInt (dictGetD name st.args (.vint dflt)) <;>
    simp [clampInt, h, dictGet_set_ne k name _ _ hk]

theorem clampInt_nodup (name : String) (dflt lo hi : Int) (st : VSt)
    (hnd : (st.args.map Prod.fst).Nodup) :
    ((clampInt name dflt lo hi st).args.map Prod.fst).Nodup := by
  cases h : pyInt (dictGetD name st.args (.vint dflt)) <;>
    simp [clampInt, h, nodup_keys_dictSet _ _ _ hnd]

theorem clampInt_post (name : String) (dflt lo hi : Int) (st : VSt) (hlh : lo ≤ hi) :
    intClamped (clampInt name dflt lo hi st).args name lo hi = true := by
  cases h : pyInt (dictGetD name st.args (.vint dflt)) <;>
    simp [clampInt, h, intClamped, dictGet_set_self] <;> exact hlh

theorem clampInt_stable (name : String) (dflt lo hi : Int) (st : VSt) (i : Int)
    (hget : dictGet name st.args = some (.vint i)) (hlo : lo ≤ i) (hhi : i ≤ hi) :
    clampInt name dflt lo hi st = st := by
  unfold clampInt
  rw [dictGetD, hget, Option.getD_some]
  show (⟨dictSet name (.vint (max lo (min hi i))) st.args, st.errs⟩ : VSt) = st
  rw [min_eq_right hhi, max_eq_right hlo, dictSet_same name _ _ hget]

theorem clampFloat_frame (name : String) (dflt lo hi : Flt) (st : VSt) (k : String)
    (hk : k ≠ name) :
    dictGet k (clampFloat name dflt lo hi st).args = dictGet k st.args := by
  cases h : pyFloat (dictGetD name st.args (.vfloat dflt)) <;>
    simp [clampFloat, h, dictGet_set_ne k name _ _ hk]

theorem clampFloat_nodup (name : String) (dflt lo hi : Flt) (st : VSt)
    (hnd : (st.args.map Prod.fst).Nodup) :
    ((clampFloat name dflt lo hi st).args.map Prod.fst).Nodup := by
  cases h : pyFloat (dictGetD name st.args (.vfloat dflt)) <;>
    simp [clampFloat, h, nodup_keys_dictSet _ _ _ hnd]

theorem fltLtB_irrefl (a : Flt) : fltLtB a a = false := by
  simp [fltLtB]

theorem clamp2F_idem (lo hi q : Flt) (hlo : fltLtB lo hi = true) :
    maxF lo (minF hi (maxF lo (minF hi q))) = maxF lo (minF hi q) := by
  by_cases h1 : fltLtB q hi = true
  · by_cases h2 : fltLtB lo q = true
    · simp [maxF, minF, h1, h2]
    · simp [maxF, minF, h1, h2, hlo, fltLtB_irrefl]
  · simp [maxF, minF, h1, hlo, fltLtB_irrefl]

theorem clampFloat_post (name : String) (dflt lo hi : Flt) (st : VSt)
    (hlo : fltLtB lo hi = true) :
    floatClamped (clampFloat name dflt lo hi st).args name lo hi = true := by
  cases h : pyFloat (dictGetD name st.args (.vfloat dflt)) <;>
    simp [clampFloat, h, floatClamped, dictGet_set_self, clamp2F_idem lo hi _ hlo]

theorem clampFloat_stable (name : String) (dflt lo hi : Flt) (st : VSt) (q : Flt)
    (hget : dictGet name st.args = some (.vfloat q)) (hq : maxF lo (minF hi q) = q) :
    clampFloat name dflt lo hi st = st := by
  unfold clampFloat
  rw [dictGetD, hget, Option.getD_some]
  show (⟨dictSet name (.vfloat (maxF lo (minF hi q))) st.args, st.errs⟩ : VSt) = st
  rw [hq, dictSet_same name _ _ hget]

theorem normStr_frame (name : String) (cap : Nat) (st : VSt) (k : String)
    (hk : k ≠ name) :
    dictGet k (normStr name cap st).args = dictGet k st.args := by
  unfold normStr
  simp [dictGet_set_ne k name _ _ hk]

theorem normStr_nodup (name : String) (cap : Nat) (st : VSt)
    (hnd : (st.args.map Prod.fst).Nodup) :
    ((normStr name cap st).args.map Prod.fst).Nodup := by
  unfold normStr
  simp [nodup_keys_dictSet _ _ _ hnd]

theorem normStr_errs (name : String) (cap : Nat) (st : VSt) :
    (normStr name cap st).errs = st.errs := rfl

theorem normStr_post (name : String) (cap : Nat) (st : VSt) :
    ∃ w, dictGet name (normStr name cap st).args = some (.vstr w) ∧ w.length ≤ cap := by
  unfold normStr
  exact ⟨_, dictGet_set_self name _ _, strTake_length_le cap _⟩

theorem normStr_stable (name : String) (cap : Nat) (st : VSt) (s : String)
    (hget : dictGet name st.args = some (.vstr s))
    (hfix : pyStrip s = s) (hlen : s.length ≤ cap) : normStr name cap st = st := by
  unfold normStr
  rw [dictGetD, hget, Option.getD_some]
  show (⟨dictSet name (.vstr (strTake cap (normStrVal (.vstr s)))) st.args, st.errs⟩ : VSt) = st
  have hv : normStrVal (.vstr s) = pyStrip s := rfl
  rw [hv, hfix, strTake_of_length_le cap s hlen, dictSet_same name _ _ hget]

theorem dateReMatch_ne_empty (s : String) (h : dateReMatch s = true) : s ≠ "" := by
  intro h0
  rw [h0] at h
  simp [dateReMatch, dateReExact] at h

theorem dateField_frame (name : String) (st : VSt) (k : String) (hk : k ≠ name) :
    dictGet k (dateField name st).args = dictGet k st.args := by
  by_cases h1 : (dictGetD name st.args .vnone == PyVal.vnone ||
      dictGetD name st.args .vnone == PyVal.vstr "") = true
  · simp [dateField, h1, dictGet_set_ne k name _ _ hk]
  · by_cases h2 : dateReMatch (pyStrip (pyStr (dictGetD name st.args .vnone))) = true <;>
      simp [dateField, h1, h2, dictGet_set_ne k name _ _ hk]

theorem dateField_nodup (name : String) (st : VSt)
    (hnd : (st.args.map Prod.fst).Nodup) :
    ((dateField name st).args.map Prod.fst).Nodup := by
  by_cases h1 : (dictGetD name st.args .vnone == PyVal.vnone ||
      dictGetD name st.args .vnone == PyVal.vstr "") = true
  · simp [dateField, h1, nodup_keys_dictSet _ _ _ hnd]
  · by_cases h2 : dateReMatch (pyStrip (pyStr (dictGetD name st.args .vnone))) = true <;>
      simp [dateField, h1, h2, nodup_keys_dictSet _ _ _ hnd]

theorem dateField_post (name : String) (st : VSt) :
    dateStored (dateField name st).args name = true := by
  by_cases h1 : (dictGetD name st.args .vnone == PyVal.vnone ||
      dictGetD name st.args .vnone == PyVal.vstr "") = true
  · simp [dateField, h1, dateStored, dictGet_set_self]
  · by_cases h2 : dateReMatch (pyStrip (pyStr (dictGetD name st.args .vnone))) = true <;>
      simp [dateField, h1, h2, dateStored, dictGet_set_self, pyStrip_idem]

theorem dateField_stable (name : String) (st : VSt)
    (h : dictGet name st.args = some .vnone ∨
      ∃ s, dictGet name st.args = some (.vstr s) ∧ dateReMatch s = true ∧ pyStrip s = s) :
    dateField name st = st := by
  unfold dateField
  rcases h with h | ⟨s, hget, hre, hfix⟩
  · rw [dictGetD, h, Option.getD_some]
    rw [if_pos (by simp [PyVal.beq, instBEqPyVal])]
    show (⟨dictSet name .vnone st.args, st.errs⟩ : VSt) = st
    rw [dictSet_same name _ _ h]
  · rw [dictGetD, hget, Option.getD_some]
    have hne : s ≠ "" := dateReMatch_ne_empty s hre
    rw [if_neg (by simp [PyVal.beq, instBEqPyVal, PyVal.beqList, PyVal.beqDict, hne])]
    have hps : pyStrip (pyStr (.vstr s)) = s := hfix
    rw [hps, if_pos hre]
    show (⟨dictSet name (.vstr s) st.args, st.errs⟩ : VSt) = st
    rw [dictSet_same name _ _ hget]


/-! ## Period-normalisation lemmas -/

theorem expandPeriod_frame (a : PyDict) (today : Date) (k : String)
    (h1 : k ≠ "period") (h2 : k ≠ "start_date") (h3 : k ≠ "end_date") :
    dictGet k (expandPeriod a today) = dictGet k a := by
  by_cases ht : pyTruthy (dictGetD "period" a .vnone) = true
  · cases hv : dictGetD "period" a .vnone with
    | vnone => rw [hv] at ht; simp [pyTruthy] at ht
    | vstr p =>
      rw [hv] at ht
      by_cases hc : p ∈ PERIODS
      · simp [expandPeriod, hv, ht, hc, dictGet_pop_ne k "period" _ h1,
          dictGet_set_ne k "end_date" _ _ h3, dictGet_set_ne k "start_date" _ _ h2]
      · simp [expandPeriod, hv, ht, hc, dictGet_set_ne k "period" _ _ h1]
    | vbool b => rw [hv] at ht; simp [expandPeriod, hv, ht, dictGet_set_ne k "period" _ _ h1]
    | vint n => rw [hv] at ht; simp [expandPeriod, hv, ht, dictGet_set_ne k "period" _ _ h1]
    | vfloat q => rw [hv] at ht; simp [expandPeriod, hv, ht, dictGet_set_ne k "period" _ _ h1]
    | vlist xs => rw [hv] at ht; simp [expandPeriod, hv, ht, dictGet_set_ne k "period" _ _ h1]
    | vdict xs => rw [hv] at ht; simp [expandPeriod, hv, ht, dictGet_set_ne k "period" _ _ h1]
  · simp [expandPeriod, ht]

theorem expandPeriod_nodup (a : PyDict) (today : Date)
    (hnd : (a.map Prod.fst).Nodup) : ((expandPeriod a today).map Prod.fst).Nodup := by
  by_cases ht : pyTruthy (dictGetD "period" a .vnone) = true
  · cases hv : dictGetD "period" a .vnone with
    | vnone => rw [hv] at ht; simp [pyTruthy] at ht
    | vstr p =>
      rw [hv] at ht
      by_cases hc : p ∈ PERIODS
      · have hc2 : PERIODS.contains p = true := by simpa using hc
        simp only [expandPeriod, hv, ht, hc2, Bool.not_true, Bool.false_eq_true, if_false,
          if_true]
        exact nodup_keys_dictPop _ _ (nodup_keys_dictSet _ _ _ (nodup_keys_dictSet _ _ _ hnd))
      · have hc2 : PERIODS.contains p = false := by simpa using hc
        simp only [expandPeriod, hv, ht, hc2, Bool.not_true, Bool.false_eq_true, if_false]
        exact nodup_keys_dictSet _ _ _ hnd
    | vbool b => rw [hv] at ht; simp [expandPeriod, hv, ht, nodup_keys_dictSet _ _ _ hnd]
    | vint n => rw [hv] at ht; simp [expandPeriod, hv, ht, nodup_keys_dictSet _ _ _ hnd]
    | vfloat q => rw [hv] at ht; simp [expandPeriod, hv, ht, nodup_keys_dictSet _ _ _ hnd]
    | vlist xs => rw [hv] at ht; simp [expandPeriod, hv, ht, nodup_keys_dictSet _ _ _ hnd]
    | vdict xs => rw [hv] at ht; simp [expandPeriod, hv, ht, nodup_keys_dictSet _ _ _ hnd]
  · simpa [expandPeriod, ht] using hnd

theorem expandPeriod_periodOk (a : PyDict) (today : Date)
    (hnd : (a.map Prod.fst).Nodup)
    (hv : dictGetD "period" a .vnone = .vnone ∨ ∃ p, dictGetD "period" a .vnone = .vstr p) :
    periodOk (expandPeriod a today) = true := by
  rcases hv with hv | ⟨p, hv⟩
  · have ht : pyTruthy (dictGetD "period" a .vnone) = false := by rw [hv]; rfl
    simp only [expandPeriod, ht, Bool.not_false, if_true]
    rw [periodOk]
    cases hg : dictGet "period" a with
    | none => rfl
    | some w =>
      have : w = PyVal.vnone := by rw [dictGetD, hg, Option.getD_some] at hv; exact hv
      rw [this]
  · by_cases hp : p = ""
    · have ht : pyTruthy (dictGetD "period" a .vnone) = false := by
        rw [hv, hp]; rfl
      simp only [expandPeriod, ht, Bool.not_false, if_true]
      rw [periodOk]
      cases hg : dictGet "period" a with
      | none => rfl
      | some w =>
        have : w = PyVal.vstr p := by rw [dictGetD, hg, Option.getD_some] at hv; exact hv
        rw [this, hp]
        simp
    · have ht : pyTruthy (PyVal.vstr p) = true := by simpa [pyTruthy] using hp
      by_cases hc : p ∈ PERIODS
      · have hc2 : PERIODS.contains p = true := by simpa using hc
        simp only [expandPeriod, hv, ht, hc2, Bool.not_true, Bool.false_eq_true, if_false,
          if_true]
        rw [periodOk]
        rw [dictGet_pop_self _ _ (nodup_keys_dictSet _ _ _ (nodup_keys_dictSet _ _ _ hnd))]
      · have hc2 : PERIODS.contains p = false := by simpa using hc
        simp only [expandPeriod, hv, ht, hc2, Bool.not_true, Bool.false_eq_true, if_false]
        rw [periodOk, dictGet_set_self]

theorem periodStep_errs (today : Date) (st : VSt) : (periodStep today st).errs = st.errs := by
  by_cases hk : dictHasKey "period" st.args = true <;> simp [periodStep, hk]

theorem periodStep_frame (today : Date) (st : VSt) (k : String)
    (h1 : k ≠ "period") (h2 : k ≠ "start_date") (h3 : k ≠ "end_date") :
    dictGet k (periodStep today st).args = dictGet k st.args := by
  by_cases hk : dictHasKey "period" st.args = true
  · simp only [periodStep, hk, if_true]
    rw [expandPeriod_frame _ _ _ h1 h2 h3, dictGet_set_ne k "period" _ _ h1]
  · simp [periodStep, hk]

theorem periodStep_nodup (today : Date) (st : VSt)
    (hnd : (st.args.map Prod.fst).Nodup) :
    ((periodStep today st).args.map Prod.fst).Nodup := by
  by_cases hk : dictHasKey "period" st.args = true
  · simp only [periodStep, hk, if_true]
    exact expandPeriod_nodup _ _ (nodup_keys_dictSet _ _ _ hnd)
  · simpa [periodStep, hk] using hnd

theorem periodStep_periodOk (today : Date) (st : VSt)
    (hnd : (st.args.map Prod.fst).Nodup) :
    periodOk (periodStep today st).args = true := by
  by_cases hk : dictHasKey "period" st.args = true
  · simp only [periodStep, hk, if_true]
    apply expandPeriod_periodOk _ _ (nodup_keys_dictSet _ _ _ hnd)
    rw [dictGetD, dictGet_set_self, Option.getD_some]
    by_cases hz : (dictGetD "period" st.args .vnone == PyVal.vnone) = true
    · left; simp [hz]
    · right
      refine ⟨pyStrip (pyStr (dictGetD "period" st.args .vnone)), ?_⟩
      simp [hz]
  · simp only [periodStep, hk, Bool.false_eq_true, if_false]
    rw [periodOk]
    have : dictGet "period" st.args = none := by
      rw [dictHasKey] at hk
      cases hg : dictGet "period" st.args with
      | none => rfl
      | some w => rw [hg] at hk; simp at hk
    rw [this]

theorem periodStep_stable (today : Date) (st : VSt) (h : periodOk st.args = true) :
    periodStep today st = st := by
  rw [periodOk] at h
  cases hg : dictGet "period" st.args with
  | none =>
    have hk : dictHasKey "period" st.args = false := by simp [dictHasKey, hg]
    simp [periodStep, hk]
  | some w =>
    rw [hg] at h
    have hk : dictHasKey "period" st.args = true := by simp [dictHasKey, hg]
    have hgd : dictGetD "period" st.args .vnone = w := by rw [dictGetD, hg, Option.getD_some]
    cases w with
    | vnone =>
      simp only [periodStep, hk, if_true, hgd]
      rw [if_pos (by rfl)]
      rw [dictSet_same _ _ _ hg]
      have : expandPeriod st.args today = st.args := by
        have ht : pyTruthy (dictGetD "period" st.args .vnone) = false := by rw [hgd]; rfl
        simp [expandPeriod, ht]
      rw [this]
    | vstr p =>
      have hp : p = "" := by simpa using h
      subst hp
      simp only [periodStep, hk, if_true, hgd]
      rw [if_neg (by simp [PyVal.beq, instBEqPyVal])]
      have hps : pyStrip (pyStr (PyVal.vstr "")) = "" := rfl
      rw [hps, dictSet_same _ _ _ hg]
      have : expandPeriod st.args today = st.args := by
        have ht : pyTruthy (dictGetD "period" st.args .vnone) = false := by rw [hgd]; rfl
        simp [expandPeriod, ht]
      rw [this]
    | vbool b => simp at h
    | vint n => simp at h
    | vfloat q => simp at h
    | vlist xs => simp at h
    | vdict xs => simp at h


/-! ## Unfolding validate_plan on well-shaped plans -/

theorem validatePlan_textbook (ts : String) (d : PyDict) (today : Date) (hts : ts ≠ "") :
    validatePlan [("tool", .vstr ts), ("args", .vdict d)] today =
      (let t1 : String × PyDict × List String :=
        if !ALLOWED_TOOLS.contains (pyStrip ts) then
          ("none", [], ["Unknown tool: " ++ pyStrip ts])
        else (pyStrip ts, d, [])
       let r := dispatchTool t1.1 (periodStep today ⟨t1.2.1, t1.2.2⟩)
       .ok ((r.1 != "none") && r.2.errs.isEmpty, ⟨r.1, r.2.args⟩, r.2.errs)) := by
  have htool : toolOfPlan [("tool", .vstr ts), ("args", .vdict d)] = .ok (pyStrip ts) := by
    simp [toolOfPlan, dictGetD, dictGet, pyTruthy, hts]
  have hargs : dictGetD "args" [("tool", PyVal.vstr ts), ("args", PyVal.vdict d)] .vnone =
      .vdict d := by
    simp [dictGetD, dictGet]
  simp only [validatePlan, htool, hargs]
  by_cases hcon : pyStrip ts ∈ ALLOWED_TOOLS
  · by_cases hd : pyTruthy (.vdict d) = true
    · simp [hcon, hd]
    · have hdnil : d = [] := by
        simpa [pyTruthy, List.isEmpty_iff] using hd
      subst hdnil
      simp [hcon, hd]
  · by_cases hd : pyTruthy (.vdict d) = true
    · simp [hcon, hd]
    · have hdnil : d = [] := by
        simpa [pyTruthy, List.isEmpty_iff] using hd
      subst hdnil
      simp [hcon, hd]

/-- Claim C7: a sum_by_merchant plan whose merchant_substr argument is
missing, None, or a string that trims to empty is demoted to the cleaned
plan with tool none and empty args, with the required-field error
recorded and ok false. -/
theorem c7_sum_by_merchant_requires_substr (ts : String) (d : PyDict) (today : Date)
    (ht : pyStrip ts = "sum_by_merchant")
    (hm : dictGet "merchant_substr" d = none ∨ dictGet "merchant_substr" d = some .vnone ∨
      ∃ s, dictGet "merchant_substr" d = some (.vstr s) ∧ pyStrip s = "") :
    validatePlan [("tool", .vstr ts), ("args", .vdict d)] today =
      .ok (false, ⟨"none", []⟩, ["merchant_substr required"]) := by
  have hts : ts ≠ "" := by
    intro h0
    rw [h0] at ht
    exact absurd ht (by decide)
  rw [validatePlan_textbook ts d today hts, ht]
  have hcon : ALLOWED_TOOLS.contains "sum_by_merchant" = true := by decide
  simp only [hcon, Bool.not_true, Bool.false_eq_true, if_false]
  have hfr : dictGet "merchant_substr" (periodStep today ⟨d, []⟩).args =
      dictGet "merchant_substr" d :=
    periodStep_frame today ⟨d, []⟩ "merchant_substr" (by decide) (by decide) (by decide)
  have hw : strTake 60 (normStrVal (dictGetD "merchant_substr"
      (periodStep today ⟨d, []⟩).args (.vstr ""))) = "" := by
    rcases hm with h | h | ⟨s2, hgs, hss⟩
    · rw [dictGetD, hfr, h]; rfl
    · rw [dictGetD, hfr, h]; rfl
    · rw [dictGetD, hfr, hgs, Option.getD_some,
        show normStrVal (PyVal.vstr s2) = pyStrip s2 from rfl, hss]
      rfl
  have hnorm : normStr "merchant_substr" 60 (periodStep today ⟨d, []⟩) =
      ⟨dictSet "merchant_substr" (.vstr "") (periodStep today ⟨d, []⟩).args,
       (periodStep today ⟨d, []⟩).errs⟩ := by
    simp only [normStr, hw]
  have herrs : (periodStep today ⟨d, []⟩).errs = [] := periodStep_errs today ⟨d, []⟩
  simp only [dispatchTool]
  simp only [(by decide : ("sum_by_merchant" == "get_latest") = false), Bool.false_eq_true,
    if_false, (by decide : ("sum_by_merchant" == "sum_by_merchant") = true), if_true]
  rw [hnorm]
  have hget : dictGetD "merchant_substr"
      (dictSet "merchant_substr" (.vstr "") (periodStep today ⟨d, []⟩).args) .vnone =
      .vstr "" := by
    rw [dictGetD, dictGet_set_self, Option.getD_some]
  simp [hget, herrs, pyTruthy]

/-! ## Claim C3: the period resolver matches the specified formulas -/

theorem prevMonthRange_spec (d : Date) (h1 : 1 ≤ d.month) :
    prevMonthRange d =
      (⟨(if d.month == 1 then d.year - 1 else d.year),
        (if d.month == 1 then 12 else d.month - 1), 1⟩,
       ⟨(if d.month == 1 then d.year - 1 else d.year),
        (if d.month == 1 then 12 else d.month - 1),
        daysInMonth (if d.month == 1 then d.year - 1 else d.year)
          (if d.month == 1 then 12 else d.month - 1)⟩) := by
  by_cases hm : d.month = 1
  · simp only [prevMonthRange, monthStart, predDate, hm]
    norm_num
    rfl
  · have h2 : 1 < d.month := by omega
    have hb : (d.month == 1) = false := by simpa using hm
    simp only [prevMonthRange, monthStart, predDate, hb]
    norm_num [h2]

set_option maxHeartbeats 1600000 in
/-- Claim C3: for every args mapping carrying a supported period token and
every injected today (a valid date), expand_period rewrites the args with
the start_date/end_date pair given by the specification formulas
(specPeriodRange, written from the spec text): last_N_days is today minus
N-1 through today, this_month from the first of the month, last_month the
first through last day of the previous month, this_year from January 1,
last_year the whole previous year.  Determinism is structural: the
embedding is a pure function of (args, today) with the clock surfaced as
the today argument. -/
theorem c3_expand_period_matches_spec (args : PyDict) (today : Date) (p : String)
    (hv : today.validB = true)
    (hp : dictGet "period" args = some (.vstr p))
    (hmem : p ∈ PERIODS) :
    ∃ s e : Date, specPeriodRange p today = some (s, e) ∧
      dictGet "start_date" (expandPeriod args today) = some (.vstr (fmtDate s)) ∧
      dictGet "end_date" (expandPeriod args today) = some (.vstr (fmtDate e)) := by
  have hgd : dictGetD "period" args .vnone = .vstr p := by
    rw [dictGetD, hp, Option.getD_some]
  have hmonth : 1 ≤ today.month := by
    rw [Date.validB] at hv
    simp only [Bool.and_eq_true, decide_eq_true_eq] at hv
    exact hv.1.1.1.2
  have hgets : ∀ S E : PyVal,
      dictGet "start_date" (dictPop "period" (dictSet "end_date" E
        (dictSet "start_date" S args))) = some S ∧
      dictGet "end_date" (dictPop "period" (dictSet "end_date" E
        (dictSet "start_date" S args))) = some E := by
    intro S E
    constructor
    · rw [dictGet_pop_ne _ _ _ (by decide), dictGet_set_ne _ _ _ _ (by decide),
        dictGet_set_self]
    · rw [dictGet_pop_ne _ _ _ (by decide), dictGet_set_self]
  simp only [PERIODS, List.mem_cons, List.not_mem_nil, or_false] at hmem
  rcases hmem with rfl | rfl | rfl | rfl | rfl | rfl | rfl
  · have hred : expandPeriod args today = dictPop "period" (dictSet "end_date"
        (PyVal.vstr (fmtDate today)) (dictSet "start_date"
        (PyVal.vstr (fmtDate (subDays today 6))) args)) := by
      generalize hsd : subDays today 6 = SD
      simp only [expandPeriod, hgd, hsd, (by decide : pyTruthy (PyVal.vstr "last_7_days") = true),
        (by decide : PERIODS.contains "last_7_days" = true),
        (by decide : ("last_7_days" == "last_7_days") = true),
        Bool.not_true, Bool.false_eq_true, if_false, if_true]
    exact ⟨subDays today 6, today, rfl, hred ▸ (hgets _ _).1, hred ▸ (hgets _ _).2⟩
  · have hred : expandPeriod args today = dictPop "period" (dictSet "end_date"
        (PyVal.vstr (fmtDate today)) (dictSet "start_date"
        (PyVal.vstr (fmtDate (subDays today 29))) args)) := by
      generalize hsd : subDays today 29 = SD
      simp only [expandPeriod, hgd, hsd, (by decide : pyTruthy (PyVal.vstr "last_30_days") = true),
        (by decide : PERIODS.contains "last_30_days" = true),
        (by decide : ("last_30_days" == "last_7_days") = false),
        (by decide : ("last_30_days" == "last_30_days") = true),
        Bool.not_true, Bool.false_eq_true, if_false, if_true]
    exact ⟨subDays today 29, today, rfl, hred ▸ (hgets _ _).1, hred ▸ (hgets _ _).2⟩
  · have hred : expandPeriod args today = dictPop "period" (dictSet "end_date"
        (PyVal.vstr (fmtDate today)) (dictSet "start_date"
        (PyVal.vstr (fmtDate (subDays today 89))) args)) := by
      generalize hsd : subDays today 89 = SD
      simp only [expandPeriod, hgd, hsd, (by decide : pyTruthy (PyVal.vstr "last_90_days") = true),
        (by decide : PERIODS.contains "last_90_days" = true),
        (by decide : ("last_90_days" == "last_7_days") = false),
        (by decide : ("last_90_days" == "last_30_days") = false),
        (by decide : ("last_90_days" == "last_90_days") = true),
        Bool.not_true, Bool.false_eq_true, if_false, if_true]
    exact ⟨subDays today 89, today, rfl, hred ▸ (hgets _ _).1, hred ▸ (hgets _ _).2⟩
  · have hred : expandPeriod args today = dictPop "period" (dictSet "end_date"
        (PyVal.vstr (fmtDate today)) (dictSet "start_date"
        (PyVal.vstr (fmtDate (monthStart today))) args)) := by
      simp only [expandPeriod, hgd, (by decide : pyTruthy (PyVal.vstr "this_month") = true),
        (by decide : PERIODS.contains "this_month" = true),
        (by decide : ("this_month" == "last_7_days") = false),
        (by decide : ("this_month" == "last_30_days") = false),
        (by decide : ("this_month" == "last_90_days") = false),
        (by decide : ("this_month" == "this_month") = true),
        Bool.not_true, Bool.false_eq_true, if_false, if_true]
    exact ⟨monthStart today, today, rfl, hred ▸ (hgets _ _).1, hred ▸ (hgets _ _).2⟩
  · have hred : expandPeriod args today = dictPop "period" (dictSet "end_date"
        (PyVal.vstr (fmtDate (prevMonthRange today).2)) (dictSet "start_date"
        (PyVal.vstr (fmtDate (prevMonthRange today).1)) args)) := by
      simp only [expandPeriod, hgd, (by decide : pyTruthy (PyVal.vstr "last_month") = true),
        (by decide : PERIODS.contains "last_month" = true),
        (by decide : ("last_month" == "last_7_days") = false),
        (by decide : ("last_month" == "last_30_days") = false),
        (by decide : ("last_month" == "last_90_days") = false),
        (by decide : ("last_month" == "this_month") = false),
        (by decide : ("last_month" == "last_month") = true),
        Bool.not_true, Bool.false_eq_true, if_false, if_true]
    refine ⟨(prevMonthRange today).1, (prevMonthRange today).2, ?_,
      hred ▸ (hgets _ _).1, hred ▸ (hgets _ _).2⟩
    rw [show specPeriodRange "last_month" today =
      some (⟨(if today.month == 1 then today.year - 1 else today.year),
        (if today.month == 1 then 12 else today.month - 1), 1⟩,
       ⟨(if today.month == 1 then today.year - 1 else today.year),
        (if today.month == 1 then 12 else today.month - 1),
        daysInMonth (if today.month == 1 then today.year - 1 else today.year)
          (if today.month == 1 then 12 else today.month - 1)⟩) from by
      simp [specPeriodRange]]
    rw [prevMonthRange_spec today hmonth]
  · have hred : expandPeriod args today = dictPop "period" (dictSet "end_date"
        (PyVal.vstr (fmtDate today)) (dictSet "start_date"
        (PyVal.vstr (fmtDate ⟨today.year, 1, 1⟩)) args)) := by
      simp only [expandPeriod, hgd, (by decide : pyTruthy (PyVal.vstr "this_year") = true),
        (by decide : PERIODS.contains "this_year" = true),
        (by decide : ("this_year" == "last_7_days") = false),
        (by decide : ("this_year" == "last_30_days") = false),
        (by decide : ("this_year" == "last_90_days") = false),
        (by decide : ("this_year" == "this_month") = false),
        (by decide : ("this_year" == "last_month") = false),
        (by decide : ("this_year" == "this_year") = true),
        Bool.not_true, Bool.false_eq_true, if_false, if_true]
    exact ⟨⟨today.year, 1, 1⟩, today, rfl, hred ▸ (hgets _ _).1, hred ▸ (hgets _ _).2⟩
  · have hred : expandPeriod args today = dictPop "period" (dictSet "end_date"
        (PyVal.vstr (fmtDate ⟨today.year - 1, 12, 31⟩)) (dictSet "start_date"
        (PyVal.vstr (fmtDate ⟨today.year - 1, 1, 1⟩)) args)) := by
      simp only [expandPeriod, hgd, (by decide : pyTruthy (PyVal.vstr "last_year") = true),
        (by decide : PERIODS.contains "last_year" = true),
        (by decide : ("last_year" == "last_7_days") = false),
        (by decide : ("last_year" == "last_30_days") = false),
        (by decide : ("last_year" == "last_90_days") = false),
        (by decide : ("last_year" == "this_month") = false),
        (by decide : ("last_year" == "last_month") = false),
        (by decide : ("last_year" == "this_year") = false),
        Bool.not_true, Bool.false_eq_true, if_false, if_true]
    exact ⟨⟨today.year - 1, 1, 1⟩, ⟨today.year - 1, 12, 31⟩, rfl,
      hred ▸ (hgets _ _).1, hred ▸ (hgets _ _).2⟩

/-- Witness for C3: today 2025-06-15 with period last_month resolves to
start 2025-05-01 and end 2025-05-31. -/
theorem c3_witness :
    dictGet "start_date" (expandPeriod [("period", PyVal.vstr "last_month")] t0) =
      some (.vstr "2025-05-01") ∧
    dictGet "end_date" (expandPeriod [("period", PyVal.vstr "last_month")] t0) =
      some (.vstr "2025-05-31") := by
  obtain ⟨s, e, hspec, h1, h2⟩ := c3_expand_period_matches_spec
    [("period", PyVal.vstr "last_month")] t0 "last_month" (by decide) rfl (by decide)
  rw [(by decide : specPeriodRange "last_month" t0 = some (⟨2025, 5, 1⟩, ⟨2025, 5, 31⟩))]
    at hspec
  cases hspec
  exact ⟨h1, h2⟩


/-- Witness for C7: an explicit whitespace-only merchant_substr. -/
theorem c7_witness :
    validatePlan [("tool", .vstr "sum_by_merchant"),
      ("args", .vdict [("merchant_substr", .vstr "   ")])] t0 =
      .ok (false, ⟨"none", []⟩, ["merchant_substr required"]) :=
  c7_sum_by_merchant_requires_substr "sum_by_merchant"
    [("merchant_substr", .vstr "   ")] t0 (by decide)
    (Or.inr (Or.inr ⟨"   ", rfl, by decide⟩))

/-! ## Sorting lemmas -/

theorem mem_insertBy {α : Type} (le : α → α → Bool) (x a : α) (l : List α) :
    a ∈ insertBy le x l ↔ a = x ∨ a ∈ l := by
  induction l with
  | nil => simp [insertBy]
  | cons b t ih =>
    by_cases h : le x b = true
    · simp [insertBy, h]
    · simp only [insertBy, h, Bool.false_eq_true, if_false, List.mem_cons, ih]
      tauto

theorem mem_sortListBy {α : Type} (le : α → α → Bool) (a : α) (l : List α) :
    a ∈ sortListBy le l ↔ a ∈ l := by
  induction l with
  | nil => simp [sortListBy]
  | cons b t ih =>
    rw [show sortListBy le (b :: t) = insertBy le b (sortListBy le t) from rfl,
      mem_insertBy]
    simp [ih]

theorem length_insertBy {α : Type} (le : α → α → Bool) (x : α) (l : List α) :
    (insertBy le x l).length = l.length + 1 := by
  induction l with
  | nil => rfl
  | cons b t ih =>
    by_cases h : le x b = true <;> simp [insertBy, h, ih]

theorem length_sortListBy {α : Type} (le : α → α → Bool) (l : List α) :
    (sortListBy le l).length = l.length := by
  induction l with
  | nil => rfl
  | cons b t ih =>
    rw [show sortListBy le (b :: t) = insertBy le b (sortListBy le t) from rfl,
      length_insertBy, ih]
    rfl

/-! ## Claim C6: inclusive date-range filtering -/

/-- Claim C6: with both bounds given in YYYY-MM-DD form, filter_by_date
keeps a row exactly when its dt is at least the start date at midnight
and strictly before the end date plus one day — so the bound is inclusive
of every time within the end day. -/
theorem c6_filter_by_date_inclusive (f : Frame) (ss es : String) (sd ed : Date) (r : Tx)
    (hs : parseYMD ss = some sd) (he : parseYMD es = some ed) :
    r ∈ filterByDate f (some ss) (some es) ↔
      (r ∈ f.rows ∧ ∃ t, txDt f r = some t ∧ dtLeB (sd, 0) t = true ∧
        dtLtB t (succDate ed, 0) = true) := by
  have hsif : (if (ss == "") = true then none else parseYMD ss) = some sd := by
    by_cases h0 : ss = ""
    · rw [h0, (by decide : parseYMD "" = (none : Option Date))] at hs
      simp at hs
    · simpa [h0] using hs
  have heif : (if (es == "") = true then none else parseYMD es) = some ed := by
    by_cases h0 : es = ""
    · rw [h0, (by decide : parseYMD "" = (none : Option Date))] at he
      simp at he
    · simpa [h0] using he
  have hform : filterByDate f (some ss) (some es) =
      (f.rows.filter (fun r => match txDt f r with
        | some t => dtLeB (sd, 0) t
        | none => false)).filter (fun r => match txDt f r with
        | some t => dtLtB t (succDate ed, 0)
        | none => false) := by
    simp only [filterByDate, hsif, heif]
  rw [hform, List.mem_filter, List.mem_filter]
  cases ht : txDt f r with
  | none => simp [ht]
  | some t => simp [ht, and_assoc]

/-- Witness for C6: the range 2025-01-10 to 2025-01-10 keeps the row
timed 23:59:00 on that day. -/
theorem c6_witness : lateRow ∈ filterByDate lateFrame (some "2025-01-10") (some "2025-01-10") := by
  have h := c6_filter_by_date_inclusive lateFrame "2025-01-10" "2025-01-10"
    ⟨2025, 1, 10⟩ ⟨2025, 1, 10⟩ lateRow (by decide) (by decide)
  exact h.mpr (by refine ⟨by decide, (⟨2025, 1, 10⟩, 86340), by decide, by decide, by decide⟩)

/-! ## Claim C2: aggregation sums use the adjusted_amount column -/

theorem basicStats_sum_adjusted (f : Frame) (hadj : f.hasAdjusted = true) (rows : List Tx) :
    (basicStats f rows).sum_eur = fltSum (rows.map (fun r => r.adjusted)) := by
  have hpick : (pickAmount f) = (fun r : Tx => r.adjusted) := by
    funext r
    simp [pickAmount, hadj]
  cases rows with
  | nil => rfl
  | cons a t => simp [basicStats, hpick]

/-- Claim C2: on a table that has both amount columns, the summary
sum_eur of every basic_stats-reporting tool (get_latest, sum_by_merchant,
sum_by_category, top_transactions, outliers_large, merchant_breakdown)
equals the sum of the adjusted_amount column over exactly the rows the
tool selected, and the selections of the predicate-style tools contain a
row exactly when it passes the date filter and the tool's own match —
outliers_large also thresholds on the adjusted column.  (The remaining
tools, group_by_month, recurring_merchants and category_trend, put no
sum_eur in their summary.) -/
theorem c2_sum_eur_uses_adjusted_column (f : Frame) (hadj : f.hasAdjusted = true)
    (n offset : Nat) (msub csub : String) (sd ed : Option String) (tn : Nat)
    (cat topsub : Option String) (minA : Flt) (bsub byName : String) :
    ((toolGetLatest f n offset).stats.sum_eur =
        fltSum ((toolGetLatest f n offset).selected.map (fun r => r.adjusted)))
    ∧ ((toolSumByMerchant f msub sd ed).stats.sum_eur =
        fltSum ((toolSumByMerchant f msub sd ed).selected.map (fun r => r.adjusted)))
    ∧ (∀ r : Tx, r ∈ (toolSumByMerchant f msub sd ed).selected ↔
        r ∈ filterByDate f sd ed ∧ merchMatch msub r = true)
    ∧ ((toolSumByCategory f csub sd ed).stats.sum_eur =
        fltSum ((toolSumByCategory f csub sd ed).selected.map (fun r => r.adjusted)))
    ∧ (∀ r : Tx, r ∈ (toolSumByCategory f csub sd ed).selected ↔
        r ∈ filterByDate f sd ed ∧ catMatch csub r = true)
    ∧ ((toolTopTransactions f tn sd ed cat topsub).stats.sum_eur =
        fltSum ((toolTopTransactions f tn sd ed cat topsub).selected.map
          (fun r => r.adjusted)))
    ∧ ((toolOutliersLarge f minA sd ed).stats.sum_eur =
        fltSum ((toolOutliersLarge f minA sd ed).selected.map (fun r => r.adjusted)))
    ∧ (∀ r : Tx, r ∈ (toolOutliersLarge f minA sd ed).selected ↔
        r ∈ filterByDate f sd ed ∧ fltLeB minA r.adjusted = true)
    ∧ ((toolMerchantBreakdown f bsub byName sd ed).1.stats.sum_eur =
        fltSum ((toolMerchantBreakdown f bsub byName sd ed).1.selected.map
          (fun r => r.adjusted)))
    ∧ (∀ r : Tx, r ∈ (toolMerchantBreakdown f bsub byName sd ed).1.selected ↔
        r ∈ filterByDate f sd ed ∧ merchMatch bsub r = true) := by
  have hpickeq : ∀ r : Tx, pickAmount f r = r.adjusted := by
    intro r
    simp [pickAmount, hadj]
  refine ⟨basicStats_sum_adjusted f hadj _, basicStats_sum_adjusted f hadj _, ?_,
    basicStats_sum_adjusted f hadj _, ?_, basicStats_sum_adjusted f hadj _,
    basicStats_sum_adjusted f hadj _, ?_, basicStats_sum_adjusted f hadj _, ?_⟩
  · intro r
    rw [show (toolSumByMerchant f msub sd ed).selected =
      sortListBy (dtDescBefore f) ((filterByDate f sd ed).filter (merchMatch msub)) from rfl]
    rw [mem_sortListBy, List.mem_filter]
  · intro r
    rw [show (toolSumByCategory f csub sd ed).selected =
      sortListBy (dtDescBefore f) ((filterByDate f sd ed).filter (catMatch csub)) from rfl]
    rw [mem_sortListBy, List.mem_filter]
  · intro r
    rw [show (toolOutliersLarge f minA sd ed).selected =
      sortListBy (amtDescBefore f) ((filterByDate f sd ed).filter
        (fun r => fltLeB minA (pickAmount f r))) from rfl]
    rw [mem_sortListBy, List.mem_filter, hpickeq r]
  · intro r
    rw [show (toolMerchantBreakdown f bsub byName sd ed).1.selected =
      (filterByDate f sd ed).filter (merchMatch bsub) from rfl]
    rw [List.mem_filter]

/-- Witness for C2: on a table whose amount column everywhere differs
from adjusted_amount, the merchant sum is the adjusted 5 + 7 = 12 (the
amount column would give 30) and the latest-two sum is 9 + 7 = 16. -/
theorem c2_witness :
    (toolSumByMerchant c2frame "prisma" none none).stats.sum_eur = ⟨12, 1⟩ ∧
    (toolGetLatest c2frame 2 0).stats.sum_eur = ⟨16, 1⟩ := by
  have h := c2_sum_eur_uses_adjusted_column c2frame rfl 2 0 "prisma" "x" none none 3
    none none 0 "y" "category"
  exact ⟨h.2.1.trans (by decide), h.1.trans (by decide)⟩


/-! ## Claim C9: the deterministic order-query fast path -/

/-- Claim C9: when the lowered query matches the order-keyword set and
the table is non-empty with a date column, the turn is answered on the
fast path (the code returns before answer_with_tools, so no LLM call is
made): a second-style query against at least two rows answers with the
row at index 1 of the dt-descending sort, a third-style query with index
2, and any other matching query with index 0. -/
theorem c9_order_query_fast_path (f : Frame) (q : String)
    (hd : f.hasDate = true) (hne : f.rows ≠ [])
    (horder : isOrderQuery (pyLower q) = true) :
    ((strContains (pyLower q) "kolmanneksi" = false) →
     (strContains (pyLower q) "third" = false) →
     (strContains (pyLower q) "toiseksi" || strContains (pyLower q) "second" ||
      strContains (pyLower q) "edellinen" || strContains (pyLower q) "previous" ||
      strContains (pyLower q) "sitä edellinen") = true →
     2 ≤ f.rows.length →
     assistantTurn f q = .fastPath ("Toiseksi viimeisin" ++ " tapahtuma: " ++
       formatTx f ((sortListBy (dtDescBefore f) f.rows).getD 1 default)))
    ∧ ((strContains (pyLower q) "kolmanneksi" || strContains (pyLower q) "third") = true →
     3 ≤ f.rows.length →
     assistantTurn f q = .fastPath ("Kolmanneksi viimeisin" ++ " tapahtuma: " ++
       formatTx f ((sortListBy (dtDescBefore f) f.rows).getD 2 default)))
    ∧ ((strContains (pyLower q) "kolmanneksi" = false) →
     (strContains (pyLower q) "third" = false) →
     (strContains (pyLower q) "toiseksi" || strContains (pyLower q) "second" ||
      strContains (pyLower q) "edellinen" || strContains (pyLower q) "previous" ||
      strContains (pyLower q) "sitä edellinen") = false →
     1 ≤ f.rows.length →
     assistantTurn f q = .fastPath ("Viimeisin" ++ " tapahtuma: " ++
       formatTx f ((sortListBy (dtDescBefore f) f.rows).getD 0 default))) := by
  have hie : f.rows.isEmpty = false := by
    cases hr : f.rows with
    | nil => exact absurd hr hne
    | cons a t => rfl
  have hturn : assistantTurn f q =
      .fastPath (handleOrderQuery f (sortListBy (dtDescBefore f) f.rows) (pyLower q)) := by
    simp [assistantTurn, horder, hie, hd]
  have hlen : (sortListBy (dtDescBefore f) f.rows).length = f.rows.length :=
    length_sortListBy _ _
  refine ⟨?_, ?_, ?_⟩
  · intro h1 h2 h3 hn
    have hidx : resolveIdx (pyLower q) = 1 := by
      simp only [resolveIdx, h1, h2, h3, Bool.or_self, Bool.false_eq_true, if_false, if_true]
    have hlab : resolveLabel (pyLower q) = "Toiseksi viimeisin" := by
      simp only [resolveLabel, h1, h2, h3, Bool.or_self, Bool.false_eq_true, if_false, if_true]
    rw [hturn]
    simp only [handleOrderQuery, hidx, hlab, hlen]
    rw [if_neg (by omega)]
  · intro h1 hn
    have hidx : resolveIdx (pyLower q) = 2 := by
      simp only [resolveIdx, h1, if_true]
    have hlab : resolveLabel (pyLower q) = "Kolmanneksi viimeisin" := by
      simp only [resolveLabel, h1, if_true]
    rw [hturn]
    simp only [handleOrderQuery, hidx, hlab, hlen]
    rw [if_neg (by omega)]
  · intro h1 h2 h3 hn
    have hidx : resolveIdx (pyLower q) = 0 := by
      simp only [resolveIdx, h1, h2, h3, Bool.or_self, Bool.false_eq_true, if_false]
    have hlab : resolveLabel (pyLower q) = "Viimeisin" := by
      simp only [resolveLabel, h1, h2, h3, Bool.or_self, Bool.false_eq_true, if_false]
    rw [hturn]
    simp only [handleOrderQuery, hidx, hlab, hlen]
    rw [if_neg (by omega)]

/-- Witness for C9: the canonical second-to-last query against a
three-row table answers from index 1 of the sort, with the concrete
formatted row, entirely on the fast path. -/
theorem c9_witness :
    assistantTurn oqFrame "What was my second-to-last transaction?" =
      .fastPath "Toiseksi viimeisin tapahtuma: 2025-01-02 00:00:00 | Beta | €2.00 | C / sub" := by
  have h := (c9_order_query_fast_path oqFrame "What was my second-to-last transaction?"
    rfl (by decide) (by decide)).1 (by decide) (by decide) (by decide) (by decide)
  exact h.trans (by decide)

/-! ## Claim C8: tool_recurring_merchants -/

theorem fltLeB_total (a b : Flt) : fltLeB a b = true ∨ fltLeB b a = true := by
  simp only [fltLeB, decide_eq_true_eq]
  exact Int.le_total _ _

theorem fltLeB_trans (a b c : Flt) (hb : 0 < b.den)
    (h1 : fltLeB a b = true) (h2 : fltLeB b c = true) : fltLeB a c = true := by
  simp only [fltLeB, decide_eq_true_eq] at h1 h2 ⊢
  have hbd : (0 : Int) < (b.den : Int) := by exact_mod_cast hb
  have had : (0 : Int) ≤ (a.den : Int) := Int.natCast_nonneg _
  have hcd : (0 : Int) ≤ (c.den : Int) := Int.natCast_nonneg _
  have h3 : a.num * (c.den : Int) * (b.den : Int) ≤ c.num * (a.den : Int) * (b.den : Int) := by
    nlinarith [mul_le_mul_of_nonneg_right h1 hcd, mul_le_mul_of_nonneg_right h2 had]
  exact le_of_mul_le_mul_right h3 hbd

theorem rmKeyGe_total (a b : RMEntry) : rmKeyGe a b = true ∨ rmKeyGe b a = true := by
  simp only [rmKeyGe, Bool.or_eq_true, Bool.and_eq_true, beq_iff_eq, decide_eq_true_eq]
  rcases Nat.lt_trichotomy a.months_active b.months_active with h | h | h
  · exact Or.inr (Or.inl h)
  · rcases fltLeB_total a.sum_eur b.sum_eur with hf | hf
    · exact Or.inr (Or.inr ⟨h.symm, hf⟩)
    · exact Or.inl (Or.inr ⟨h, hf⟩)
  · exact Or.inl (Or.inl h)

theorem rmKeyGe_trans (a b c : RMEntry) (hb : 0 < b.sum_eur.den)
    (h1 : rmKeyGe a b = true) (h2 : rmKeyGe b c = true) : rmKeyGe a c = true := by
  simp only [rmKeyGe, Bool.or_eq_true, Bool.and_eq_true, beq_iff_eq,
    decide_eq_true_eq] at h1 h2 ⊢
  rcases h1 with h1 | ⟨h1e, h1f⟩
  · rcases h2 with h2 | ⟨h2e, h2f⟩
    · exact Or.inl (h2.trans h1)
    · exact Or.inl (h2e ▸ h1)
  · rcases h2 with h2 | ⟨h2e, h2f⟩
    · exact Or.inl (by rw [h1e]; exact h2)
    · exact Or.inr ⟨h1e.trans h2e, fltLeB_trans c.sum_eur b.sum_eur a.sum_eur hb h2f h1f⟩

theorem pairwise_insertBy {α : Type} (le : α → α → Bool) (x : α) (l : List α)
    (htot : ∀ a ∈ l, le x a = true ∨ le a x = true)
    (htx : ∀ a ∈ l, ∀ b ∈ l, le x a = true → le a b = true → le x b = true)
    (hl : l.Pairwise (fun a b => le a b = true)) :
    (insertBy le x l).Pairwise (fun a b => le a b = true) := by
  induction l with
  | nil => simp [insertBy]
  | cons b t ih =>
    rw [List.pairwise_cons] at hl
    by_cases h : le x b = true
    · rw [insertBy, if_pos h]
      refine List.pairwise_cons.2 ⟨?_, List.pairwise_cons.2 hl⟩
      intro c hc
      rcases List.mem_cons.1 hc with rfl | hct
      · exact h
      · exact htx b (List.mem_cons_self b t) c (List.mem_cons_of_mem b hct) h (hl.1 c hct)
    · rw [insertBy, if_neg h]
      refine List.pairwise_cons.2 ⟨?_, ?_⟩
      · intro c hc
        rcases (mem_insertBy le x c t).1 hc with rfl | hct
        · rcases htot b (List.mem_cons_self b t) with hxb | hbx
          · exact absurd hxb h
          · exact hbx
        · exact hl.1 c hct
      · exact ih (fun a ha => htot a (List.mem_cons_of_mem b ha))
          (fun a ha a2 ha2 => htx a (List.mem_cons_of_mem b ha) a2 (List.mem_cons_of_mem b ha2))
          hl.2

theorem pairwise_sortListBy {α : Type} (le : α → α → Bool) (l : List α)
    (htot : ∀ a ∈ l, ∀ b ∈ l, le a b = true ∨ le b a = true)
    (htrans : ∀ a ∈ l, ∀ b ∈ l, ∀ c ∈ l,
      le a b = true → le b c = true → le a c = true) :
    (sortListBy le l).Pairwise (fun a b => le a b = true) := by
  induction l with
  | nil => simp [sortListBy]
  | cons x t ih =>
    have hs : sortListBy le (x :: t) = insertBy le x (sortListBy le t) := rfl
    rw [hs]
    refine pairwise_insertBy le x (sortListBy le t) ?_ ?_ ?_
    · intro a ha
      exact htot x (List.mem_cons_self x t) a
        (List.mem_cons_of_mem x ((mem_sortListBy le a t).1 ha))
    · intro a ha b hb hxa hab
      exact htrans x (List.mem_cons_self x t) a
        (List.mem_cons_of_mem x ((mem_sortListBy le a t).1 ha))
        b (List.mem_cons_of_mem x ((mem_sortListBy le b t).1 hb)) hxa hab
    · exact ih (fun a ha b hb => htot a (List.mem_cons_of_mem x ha) b (List.mem_cons_of_mem x hb))
        (fun a ha b hb c hc => htrans a (List.mem_cons_of_mem x ha) b
          (List.mem_cons_of_mem x hb) c (List.mem_cons_of_mem x hc))

theorem fltSum_den_pos (l : List Flt) (h : ∀ q ∈ l, 0 < q.den) : 0 < (fltSum l).den := by
  induction l with
  | nil => decide
  | cons a t ih =>
    show 0 < a.den * (fltSum t).den
    exact Nat.mul_pos (h a (List.mem_cons_self a t))
      (ih (fun q hq => h q (List.mem_cons_of_mem a hq)))

theorem rmAggregate_den_pos (f : Frame) (window : List Tx) (m : String)
    (hpos : ∀ r ∈ window, 0 < (pickAmount f r).den) :
    0 < (rmAggregate f window m).sum_eur.den := by
  have he : (rmAggregate f window m).sum_eur
      = fltSum ((window.filter (fun r => r.merchant == m)).map (pickAmount f)) := rfl
  rw [he]
  refine fltSum_den_pos _ ?_
  intro q hq
  rcases List.mem_map.1 hq with ⟨r, hr, rfl⟩
  exact hpos r (List.mem_of_mem_filter hr)

theorem rmWindow_subset (f : Frame) (months : Nat) :
    ∀ r ∈ rmWindow f months, r ∈ f.rows := by
  intro r hr
  cases h : maxDt f with
  | none => simp [rmWindow, h] at hr
  | some mx =>
    simp only [rmWindow, h] at hr
    exact List.mem_of_mem_filter hr

theorem mem_rmEntries (f : Frame) (months : Nat) (e : RMEntry)
    (he : e ∈ rmEntries f months) :
    e = rmAggregate f (rmWindow f months) e.merchant := by
  rcases List.mem_map.1 he with ⟨m, _, rfl⟩
  rfl

set_option maxRecDepth 16000 in
/-- Counterexample to C8 as stated: with thirty-one merchants each
having three transactions across two distinct months, merchant m00
satisfies both qualification conditions and appears in the per-merchant
aggregates, yet the tool output omits it — the claim's "keeps exactly
the merchants" ignores the head(30) cap. -/
theorem c8_counterexample :
    rmQual 3 (rmAggregate c8frame (rmWindow c8frame 6) "m00") = true ∧
    rmAggregate c8frame (rmWindow c8frame 6) "m00" ∈ rmEntries c8frame 6 ∧
    "m00" ∉ (toolRecurringMerchants c8frame 6 3).map (fun e => e.merchant) := by
  refine ⟨by decide, by decide, by decide⟩

/-- Claim C8 (amended): the output rows of tool_recurring_merchants are
exactly per-merchant window aggregates that meet the qualification
conditions (count at least min_count, at least two distinct active
months, over the last-N-months window counted back from the table's
maximum dt), they are sorted by (months_active, sum) descending, and —
whenever at most thirty merchants qualify — every qualifying aggregate
appears; beyond thirty the head(30) cap drops the rest. -/
theorem c8_recurring_merchants_amended (f : Frame) (months min_count : Nat)
    (hpos : ∀ r ∈ f.rows, 0 < (pickAmount f r).den) :
    (∀ e ∈ toolRecurringMerchants f months min_count,
        e = rmAggregate f (rmWindow f months) e.merchant ∧
        min_count ≤ e.txn_count ∧ 2 ≤ e.months_active)
    ∧ (toolRecurringMerchants f months min_count).Pairwise
        (fun a b => rmKeyGe a b = true)
    ∧ (((rmEntries f months).filter (rmQual min_count)).length ≤ 30 →
        ∀ e ∈ rmEntries f months, rmQual min_count e = true →
          e ∈ toolRecurringMerchants f months min_count) := by
  have hdenK : ∀ e ∈ (rmEntries f months).filter (rmQual min_count), 0 < e.sum_eur.den := by
    intro e heK
    have heE : e ∈ rmEntries f months := List.mem_of_mem_filter heK
    have hagg := mem_rmEntries f months e heE
    rw [hagg]
    exact rmAggregate_den_pos f _ _ (fun r hr => hpos r (rmWindow_subset f months r hr))
  refine ⟨?_, ?_, ?_⟩
  · intro e he
    simp only [toolRecurringMerchants] at he
    have h1 : e ∈ sortListBy rmKeyGe ((rmEntries f months).filter (rmQual min_count)) :=
      List.mem_of_mem_take he
    have h2 : e ∈ (rmEntries f months).filter (rmQual min_count) :=
      (mem_sortListBy _ _ _).1 h1
    have h3 : e ∈ rmEntries f months := List.mem_of_mem_filter h2
    have h4 : rmQual min_count e = true := List.of_mem_filter h2
    have h5 : min_count ≤ e.txn_count ∧ 2 ≤ e.months_active := by
      simpa [rmQual, Bool.and_eq_true] using h4
    exact ⟨mem_rmEntries f months e h3, h5.1, h5.2⟩
  · have hp : (sortListBy rmKeyGe ((rmEntries f months).filter (rmQual min_count))).Pairwise
        (fun a b => rmKeyGe a b = true) := by
      refine pairwise_sortListBy _ _ ?_ ?_
      · intro a _ b _
        exact rmKeyGe_total a b
      · intro a _ b hb c _ hab hbc
        exact rmKeyGe_trans a b c (hdenK b hb) hab hbc
    simp only [toolRecurringMerchants]
    exact List.Pairwise.sublist (List.take_sublist 30 _) hp
  · intro hlen e heE hq
    have heK : e ∈ (rmEntries f months).filter (rmQual min_count) :=
      List.mem_filter.2 ⟨heE, hq⟩
    have hmem : e ∈ sortListBy rmKeyGe ((rmEntries f months).filter (rmQual min_count)) :=
      (mem_sortListBy _ _ _).2 heK
    have hlen2 : (sortListBy rmKeyGe ((rmEntries f months).filter (rmQual min_count))).length ≤ 30 := by
      rw [length_sortListBy]
      exact hlen
    simp only [toolRecurringMerchants]
    rw [List.take_of_length_le hlen2]
    exact hmem

/-- Witness for C8: on the two-merchant frame, TwoMonths (three
transactions across two months) is in the output with min_count = 3,
OneMonth (five transactions in a single month) is not, and the amended
theorem's soundness conjunct holds at this instance. -/
theorem c8_witness :
    "TwoMonths" ∈ (toolRecurringMerchants rmFrame 6 3).map (fun e => e.merchant) ∧
    "OneMonth" ∉ (toolRecurringMerchants rmFrame 6 3).map (fun e => e.merchant) ∧
    (∀ e ∈ toolRecurringMerchants rmFrame 6 3,
        e = rmAggregate rmFrame (rmWindow rmFrame 6) e.merchant ∧
        3 ≤ e.txn_count ∧ 2 ≤ e.months_active) := by
  exact ⟨by decide, by decide, (c8_recurring_merchants_amended rmFrame 6 3 (by decide)).1⟩

/-! ## Claim C4: validator invariant and re-validation -/

theorem dictSet_set (k : String) (v w : PyVal) (d : PyDict) :
    dictSet k v (dictSet k w d) = dictSet k v d := by
  induction d with
  | nil => simp [dictSet]
  | cons hd t ih =>
    obtain ⟨k1, v1⟩ := hd
    by_cases h : k1 = k
    · simp [dictSet, h]
    · simp [dictSet, beq_false_of_ne h, ih]

theorem intClamped_elim (d : PyDict) (name : String) (lo hi : Int)
    (h : intClamped d name lo hi = true) :
    ∃ i, dictGet name d = some (.vint i) ∧ lo ≤ i ∧ i ≤ hi := by
  cases hg : dictGet name d with
  | none => simp [intClamped, hg] at h
  | some v =>
    cases v
    case vint i => exact ⟨i, rfl, by simpa [intClamped, hg] using h⟩
    all_goals simp [intClamped, hg] at h

theorem floatClamped_elim (d : PyDict) (name : String) (lo hi : Flt)
    (h : floatClamped d name lo hi = true) :
    ∃ q, dictGet name d = some (.vfloat q) ∧ maxF lo (minF hi q) = q := by
  cases hg : dictGet name d with
  | none => simp [floatClamped, hg] at h
  | some v =>
    cases v
    case vfloat q => exact ⟨q, rfl, by simpa [floatClamped, hg] using h⟩
    all_goals simp [floatClamped, hg] at h

theorem strReq_elim (d : PyDict) (name : String) (cap : Nat)
    (h : strReq d name cap = true) :
    ∃ s, dictGet name d = some (.vstr s) ∧ (s == "") = false ∧ s.length ≤ cap := by
  cases hg : dictGet name d with
  | none => simp [strReq, hg] at h
  | some v =>
    cases v
    case vstr s =>
      have h2 : (!(s == "") && decide (s.length ≤ cap)) = true := by
        rw [strReq, hg] at h
        exact h
      rw [Bool.and_eq_true] at h2
      rcases h2 with ⟨h3, h4⟩
      refine ⟨s, rfl, ?_, of_decide_eq_true h4⟩
      cases hb : (s == "") with
      | false => rfl
      | true => rw [hb] at h3; exact absurd h3 (by decide)
    all_goals simp [strReq, hg] at h

theorem dateStored_elim (d : PyDict) (name : String)
    (h : dateStored d name = true) :
    dictGet name d = some .vnone ∨
      ∃ s, dictGet name d = some (.vstr s) ∧ dateReMatch s = true ∧ pyStrip s = s := by
  cases hg : dictGet name d with
  | none => simp [dateStored, hg] at h
  | some v =>
    cases v
    case vnone => exact Or.inl rfl
    case vstr s =>
      refine Or.inr ⟨s, rfl, ?_⟩
      simpa [dateStored, hg] using h
    all_goals simp [dateStored, hg] at h

theorem optStrOk_elim (d : PyDict) (name : String) (cap : Nat)
    (h : optStrOk d name cap = true) :
    dictGet name d = none ∨ dictGet name d = some .vnone ∨
      ∃ s, dictGet name d = some (.vstr s) ∧ (s == "") = false ∧ s.length ≤ cap := by
  cases hg : dictGet name d with
  | none => exact Or.inl rfl
  | some v =>
    cases v
    case vnone => exact Or.inr (Or.inl rfl)
    case vstr s =>
      have h2 : (!(s == "") && decide (s.length ≤ cap)) = true := by
        rw [optStrOk, hg] at h
        exact h
      rw [Bool.and_eq_true] at h2
      rcases h2 with ⟨h3, h4⟩
      refine Or.inr (Or.inr ⟨s, rfl, ?_, of_decide_eq_true h4⟩)
      cases hb : (s == "") with
      | false => rfl
      | true => rw [hb] at h3; exact absurd h3 (by decide)
    all_goals simp [optStrOk, hg] at h

theorem intClamped_congr (d1 d2 : PyDict) (name : String) (lo hi : Int)
    (h : dictGet name d1 = dictGet name d2) :
    intClamped d1 name lo hi = intClamped d2 name lo hi := by
  rw [intClamped, intClamped, h]

theorem floatClamped_congr (d1 d2 : PyDict) (name : String) (lo hi : Flt)
    (h : dictGet name d1 = dictGet name d2) :
    floatClamped d1 name lo hi = floatClamped d2 name lo hi := by
  rw [floatClamped, floatClamped, h]

theorem strReq_congr (d1 d2 : PyDict) (name : String) (cap : Nat)
    (h : dictGet name d1 = dictGet name d2) :
    strReq d1 name cap = strReq d2 name cap := by
  rw [strReq, strReq, h]

theorem dateStored_congr (d1 d2 : PyDict) (name : String)
    (h : dictGet name d1 = dictGet name d2) :
    dateStored d1 name = dateStored d2 name := by
  rw [dateStored, dateStored, h]

theorem optStrOk_congr (d1 d2 : PyDict) (name : String) (cap : Nat)
    (h : dictGet name d1 = dictGet name d2) :
    optStrOk d1 name cap = optStrOk d2 name cap := by
  rw [optStrOk, optStrOk, h]

theorem periodOk_congr (d1 d2 : PyDict)
    (h : dictGet "period" d1 = dictGet "period" d2) :
    periodOk d1 = periodOk d2 := by
  rw [periodOk, periodOk, h]

theorem dispatchTool_none (st : VSt) : dispatchTool "none" st = ("none", st) := by
    simp only [dispatchTool,
    (by decide : (("none" : String) == "get_latest") = false),
    (by decide : (("none" : String) == "sum_by_merchant") = false),
    (by decide : (("none" : String) == "sum_by_category") = false),
    (by decide : (("none" : String) == "top_transactions") = false),
    (by decide : (("none" : String) == "group_by_month") = false),
    (by decide : (("none" : String) == "outliers_large") = false),
    (by decide : (("none" : String) == "recurring_merchants") = false),
    (by decide : (("none" : String) == "merchant_breakdown") = false),
    (by decide : (("none" : String) == "category_trend") = false),
    Bool.false_eq_true, if_false]

/-! ## dispatchTool stability under the invariant -/

theorem pyval_vstr_beq (a b : String) :
    (PyVal.vstr a == PyVal.vstr b) = (a == b) := rfl

theorem pyval_vstr_vnone_beq (a : String) :
    (PyVal.vstr a == PyVal.vnone) = false := rfl

theorem optStep_stable (name : String) (cap : Nat) (st : VSt)
    (h : dictGet name st.args = none ∨ dictGet name st.args = some .vnone ∨
      ∃ s, dictGet name st.args = some (.vstr s) ∧ (s == "") = false ∧ s.length ≤ cap)
    (hfix : ∀ s, dictGet name st.args = some (.vstr s) → pyStrip s = s) :
    optStep name cap st = st := by
  rw [optStep]
  rcases h with hnone | hvnone | ⟨s, hg, hne, hlen⟩
  · have hk : dictHasKey name st.args = false := by simp [dictHasKey, hnone]
    simp only [hk, Bool.false_eq_true, if_false]
  · have hk : dictHasKey name st.args = true := by simp [dictHasKey, hvnone]
    simp only [hk, if_true]
    have hempty : strTake cap "" = "" := by
      rw [strTake, show "".data = ([] : List Char) from rfl, List.take_nil]
    have hns : normStr name cap st = ⟨dictSet name (.vstr "") st.args, st.errs⟩ := by
      rw [normStr, dictGetD, hvnone]
      show (⟨dictSet name (.vstr (strTake cap (normStrVal PyVal.vnone))) st.args,
        st.errs⟩ : VSt) = _
      rw [show normStrVal PyVal.vnone = "" from rfl, hempty]
    rw [hns]
    dsimp only
    have hcond : (dictGetD name (dictSet name (PyVal.vstr "") st.args) .vnone ==
        PyVal.vstr "") = true := by
      rw [dictGetD, dictGet_set_self]
      rfl
    simp only [hcond, if_true]
    show (⟨dictSet name .vnone (dictSet name (PyVal.vstr "") st.args), st.errs⟩ : VSt) = st
    rw [dictSet_set, dictSet_same name _ _ hvnone]
  · have hk : dictHasKey name st.args = true := by simp [dictHasKey, hg]
    simp only [hk, if_true]
    have hns : normStr name cap st = st := normStr_stable name cap st s hg (hfix s hg) hlen
    rw [hns]
    have hcond : (dictGetD name st.args .vnone == PyVal.vstr "") = false := by
      rw [dictGetD, hg]
      show (PyVal.vstr s == PyVal.vstr "") = false
      rw [pyval_vstr_beq]
      exact hne
    simp only [hcond, Bool.false_eq_true, if_false]

theorem defaultStep_stable (name dflt : String) (st : VSt) (w : String)
    (hg : dictGet name st.args = some (.vstr w)) (hne : (w == "") = false) :
    defaultStep name dflt st = st := by
  rw [defaultStep]
  have hfv : dictGetD name st.args .vnone = PyVal.vstr w := by
    rw [dictGetD, hg]
    rfl
  simp only [hfv, pyval_vstr_beq, pyval_vstr_vnone_beq, hne, Bool.or_false, Bool.false_eq_true,
    if_false]

theorem pyTruthy_getD_vstr (name : String) (d : PyDict) (s : String)
    (hg : dictGet name d = some (.vstr s)) (hne : (s == "") = false) :
    pyTruthy (dictGetD name d .vnone) = true := by
  rw [dictGetD, hg]
  show (!(s == "")) = true
  rw [hne]
  rfl


theorem dispatchTool_stable (t : String) (args : PyDict)
    (hinv : cleanedInvB ⟨t, args⟩ = true)
    (hfit : ∀ name ∈ strFieldsOf t, ∀ s, dictGet name args = some (.vstr s) → pyStrip s = s) :
    dispatchTool t ⟨args, []⟩ = (t, ⟨args, []⟩) := by
  by_cases h0 : t = "none"
  · subst h0
    exact dispatchTool_none ⟨args, []⟩
  by_cases h1 : t = "get_latest"
  · subst h1
    simp only [dispatchTool,
    (by decide : (("get_latest" : String) == "get_latest") = true),
    Bool.false_eq_true, if_false, if_true]
    simp only [cleanedInvB,
    (by decide : (("get_latest" : String) == "none") = false),
    (by decide : (("get_latest" : String) == "get_latest") = true),
    Bool.false_eq_true, if_false, if_true] at hinv
    rw [Bool.and_eq_true, Bool.and_eq_true] at hinv
    obtain ⟨⟨hpo, hn⟩, hoff⟩ := hinv
    obtain ⟨ni, hgn, hn1, hn2⟩ := intClamped_elim args "n" 1 10 hn
    obtain ⟨oi, hgo, ho1, ho2⟩ := intClamped_elim args "offset" 0 50 hoff
    rw [clampInt_stable "n" 1 1 10 ⟨args, []⟩ ni hgn hn1 hn2,
      clampInt_stable "offset" 0 0 50 ⟨args, []⟩ oi hgo ho1 ho2]
  by_cases h2 : t = "sum_by_merchant"
  · subst h2
    simp only [dispatchTool,
    (by decide : (("sum_by_merchant" : String) == "get_latest") = false),
    (by decide : (("sum_by_merchant" : String) == "sum_by_merchant") = true),
    Bool.false_eq_true, if_false, if_true]
    simp only [cleanedInvB,
    (by decide : (("sum_by_merchant" : String) == "none") = false),
    (by decide : (("sum_by_merchant" : String) == "get_latest") = false),
    (by decide : (("sum_by_merchant" : String) == "sum_by_merchant") = true),
    Bool.false_eq_true, if_false, if_true] at hinv
    rw [Bool.and_eq_true, Bool.and_eq_true, Bool.and_eq_true] at hinv
    obtain ⟨⟨⟨hpo, hms⟩, hsd⟩, hed⟩ := hinv
    obtain ⟨s, hgs, hne, hlen⟩ := strReq_elim args "merchant_substr" 60 hms
    have hns : normStr "merchant_substr" 60 ⟨args, []⟩ = ⟨args, []⟩ :=
      normStr_stable "merchant_substr" 60 ⟨args, []⟩ s hgs (hfit "merchant_substr" (by decide) s hgs) hlen
    rw [hns]
    dsimp only
    rw [pyTruthy_getD_vstr "merchant_substr" args s hgs hne]
    simp only [Bool.not_true, Bool.false_eq_true, if_false]
    rw [dateField_stable "start_date" ⟨args, []⟩ (dateStored_elim args "start_date" hsd),
      dateField_stable "end_date" ⟨args, []⟩ (dateStored_elim args "end_date" hed)]
  by_cases h3 : t = "sum_by_category"
  · subst h3
    simp only [dispatchTool,
    (by decide : (("sum_by_category" : String) == "get_latest") = false),
    (by decide : (("sum_by_category" : String) == "sum_by_merchant") = false),
    (by decide : (("sum_by_category" : String) == "sum_by_category") = true),
    Bool.false_eq_true, if_false, if_true]
    simp only [cleanedInvB,
    (by decide : (("sum_by_category" : String) == "none") = false),
    (by decide : (("sum_by_category" : String) == "get_latest") = false),
    (by decide : (("sum_by_category" : String) == "sum_by_merchant") = false),
    (by decide : (("sum_by_category" : String) == "sum_by_category") = true),
    Bool.false_eq_true, if_false, if_true] at hinv
    rw [Bool.and_eq_true, Bool.and_eq_true, Bool.and_eq_true] at hinv
    obtain ⟨⟨⟨hpo, hcs⟩, hsd⟩, hed⟩ := hinv
    obtain ⟨s, hgs, hne, hlen⟩ := strReq_elim args "category" 60 hcs
    have hns : normStr "category" 60 ⟨args, []⟩ = ⟨args, []⟩ :=
      normStr_stable "category" 60 ⟨args, []⟩ s hgs (hfit "category" (by decide) s hgs) hlen
    rw [hns]
    dsimp only
    rw [pyTruthy_getD_vstr "category" args s hgs hne]
    simp only [Bool.not_true, Bool.false_eq_true, if_false]
    rw [dateField_stable "start_date" ⟨args, []⟩ (dateStored_elim args "start_date" hsd),
      dateField_stable "end_date" ⟨args, []⟩ (dateStored_elim args "end_date" hed)]
  by_cases h4 : t = "top_transactions"
  · subst h4
    simp only [dispatchTool,
    (by decide : (("top_transactions" : String) == "get_latest") = false),
    (by decide : (("top_transactions" : String) == "sum_by_merchant") = false),
    (by decide : (("top_transactions" : String) == "sum_by_category") = false),
    (by decide : (("top_transactions" : String) == "top_transactions") = true),
    Bool.false_eq_true, if_false, if_true]
    simp only [cleanedInvB,
    (by decide : (("top_transactions" : String) == "none") = false),
    (by decide : (("top_transactions" : String) == "get_latest") = false),
    (by decide : (("top_transactions" : String) == "sum_by_merchant") = false),
    (by decide : (("top_transactions" : String) == "sum_by_category") = false),
    (by decide : (("top_transactions" : String) == "top_transactions") = true),
    Bool.false_eq_true, if_false, if_true] at hinv
    rw [Bool.and_eq_true, Bool.and_eq_true, Bool.and_eq_true, Bool.and_eq_true,
      Bool.and_eq_true] at hinv
    obtain ⟨⟨⟨⟨⟨hpo, hn⟩, hsd⟩, hed⟩, hcat⟩, hms⟩ := hinv
    obtain ⟨ni, hgn, hn1, hn2⟩ := intClamped_elim args "n" 1 50 hn
    rw [clampInt_stable "n" 10 1 50 ⟨args, []⟩ ni hgn hn1 hn2,
      dateField_stable "start_date" ⟨args, []⟩ (dateStored_elim args "start_date" hsd),
      dateField_stable "end_date" ⟨args, []⟩ (dateStored_elim args "end_date" hed),
      optStep_stable "category" 60 ⟨args, []⟩ (optStrOk_elim args "category" 60 hcat)
        (fun s hs => hfit "category" (by decide) s hs),
      optStep_stable "merchant_substr" 60 ⟨args, []⟩
        (optStrOk_elim args "merchant_substr" 60 hms)
        (fun s hs => hfit "merchant_substr" (by decide) s hs)]
  by_cases h5 : t = "group_by_month"
  · subst h5
    simp only [dispatchTool,
    (by decide : (("group_by_month" : String) == "get_latest") = false),
    (by decide : (("group_by_month" : String) == "sum_by_merchant") = false),
    (by decide : (("group_by_month" : String) == "sum_by_category") = false),
    (by decide : (("group_by_month" : String) == "top_transactions") = false),
    (by decide : (("group_by_month" : String) == "group_by_month") = true),
    Bool.false_eq_true, if_false, if_true]
    simp only [cleanedInvB,
    (by decide : (("group_by_month" : String) == "none") = false),
    (by decide : (("group_by_month" : String) == "get_latest") = false),
    (by decide : (("group_by_month" : String) == "sum_by_merchant") = false),
    (by decide : (("group_by_month" : String) == "sum_by_category") = false),
    (by decide : (("group_by_month" : String) == "top_transactions") = false),
    (by decide : (("group_by_month" : String) == "group_by_month") = true),
    Bool.false_eq_true, if_false, if_true] at hinv
    rw [Bool.and_eq_true, Bool.and_eq_true, Bool.and_eq_true, Bool.and_eq_true] at hinv
    obtain ⟨⟨⟨⟨hpo, hsd⟩, hed⟩, hf⟩, htk⟩ := hinv
    obtain ⟨s, hgs, hne, hlen⟩ := strReq_elim args "field" 30 hf
    obtain ⟨ki, hgk, hk1, hk2⟩ := intClamped_elim args "top_k" 1 10 htk
    rw [dateField_stable "start_date" ⟨args, []⟩ (dateStored_elim args "start_date" hsd),
      dateField_stable "end_date" ⟨args, []⟩ (dateStored_elim args "end_date" hed),
      normStr_stable "field" 30 ⟨args, []⟩ s hgs (hfit "field" (by decide) s hgs) hlen,
      clampInt_stable "top_k" 5 1 10 ⟨args, []⟩ ki hgk hk1 hk2,
      defaultStep_stable "field" "category" ⟨args, []⟩ s hgs hne]
  by_cases h6 : t = "outliers_large"
  · subst h6
    simp only [dispatchTool,
    (by decide : (("outliers_large" : String) == "get_latest") = false),
    (by decide : (("outliers_large" : String) == "sum_by_merchant") = false),
    (by decide : (("outliers_large" : String) == "sum_by_category") = false),
    (by decide : (("outliers_large" : String) == "top_transactions") = false),
    (by decide : (("outliers_large" : String) == "group_by_month") = false),
    (by decide : (("outliers_large" : String) == "outliers_large") = true),
    Bool.false_eq_true, if_false, if_true]
    simp only [cleanedInvB,
    (by decide : (("outliers_large" : String) == "none") = false),
    (by decide : (("outliers_large" : String) == "get_latest") = false),
    (by decide : (("outliers_large" : String) == "sum_by_merchant") = false),
    (by decide : (("outliers_large" : String) == "sum_by_category") = false),
    (by decide : (("outliers_large" : String) == "top_transactions") = false),
    (by decide : (("outliers_large" : String) == "group_by_month") = false),
    (by decide : (("outliers_large" : String) == "outliers_large") = true),
    Bool.false_eq_true, if_false, if_true] at hinv
    rw [Bool.and_eq_true, Bool.and_eq_true, Bool.and_eq_true] at hinv
    obtain ⟨⟨⟨hpo, hma⟩, hsd⟩, hed⟩ := hinv
    obtain ⟨q, hgq, hq⟩ := floatClamped_elim args "min_amount" 0 1000000 hma
    rw [clampFloat_stable "min_amount" 100 0 1000000 ⟨args, []⟩ q hgq hq,
      dateField_stable "start_date" ⟨args, []⟩ (dateStored_elim args "start_date" hsd),
      dateField_stable "end_date" ⟨args, []⟩ (dateStored_elim args "end_date" hed)]
  by_cases h7 : t = "recurring_merchants"
  · subst h7
    simp only [dispatchTool,
    (by decide : (("recurring_merchants" : String) == "get_latest") = false),
    (by decide : (("recurring_merchants" : String) == "sum_by_merchant") = false),
    (by decide : (("recurring_merchants" : String) == "sum_by_category") = false),
    (by decide : (("recurring_merchants" : String) == "top_transactions") = false),
    (by decide : (("recurring_merchants" : String) == "group_by_month") = false),
    (by decide : (("recurring_merchants" : String) == "outliers_large") = false),
    (by decide : (("recurring_merchants" : String) == "recurring_merchants") = true),
    Bool.false_eq_true, if_false, if_true]
    simp only [cleanedInvB,
    (by decide : (("recurring_merchants" : String) == "none") = false),
    (by decide : (("recurring_merchants" : String) == "get_latest") = false),
    (by decide : (("recurring_merchants" : String) == "sum_by_merchant") = false),
    (by decide : (("recurring_merchants" : String) == "sum_by_category") = false),
    (by decide : (("recurring_merchants" : String) == "top_transactions") = false),
    (by decide : (("recurring_merchants" : String) == "group_by_month") = false),
    (by decide : (("recurring_merchants" : String) == "outliers_large") = false),
    (by decide : (("recurring_merchants" : String) == "recurring_merchants") = true),
    Bool.false_eq_true, if_false, if_true] at hinv
    rw [Bool.and_eq_true, Bool.and_eq_true] at hinv
    obtain ⟨⟨hpo, hmo⟩, hmc⟩ := hinv
    obtain ⟨mi, hgm, hm1, hm2⟩ := intClamped_elim args "months" 1 24 hmo
    obtain ⟨ci, hgc, hc1, hc2⟩ := intClamped_elim args "min_count" 2 20 hmc
    rw [clampInt_stable "months" 6 1 24 ⟨args, []⟩ mi hgm hm1 hm2,
      clampInt_stable "min_count" 3 2 20 ⟨args, []⟩ ci hgc hc1 hc2]
  by_cases h8 : t = "merchant_breakdown"
  · subst h8
    simp only [dispatchTool,
    (by decide : (("merchant_breakdown" : String) == "get_latest") = false),
    (by decide : (("merchant_breakdown" : String) == "sum_by_merchant") = false),
    (by decide : (("merchant_breakdown" : String) == "sum_by_category") = false),
    (by decide : (("merchant_breakdown" : String) == "top_transactions") = false),
    (by decide : (("merchant_breakdown" : String) == "group_by_month") = false),
    (by decide : (("merchant_breakdown" : String) == "outliers_large") = false),
    (by decide : (("merchant_breakdown" : String) == "recurring_merchants") = false),
    (by decide : (("merchant_breakdown" : String) == "merchant_breakdown") = true),
    Bool.false_eq_true, if_false, if_true]
    simp only [cleanedInvB,
    (by decide : (("merchant_breakdown" : String) == "none") = false),
    (by decide : (("merchant_breakdown" : String) == "get_latest") = false),
    (by decide : (("merchant_breakdown" : String) == "sum_by_merchant") = false),
    (by decide : (("merchant_breakdown" : String) == "sum_by_category") = false),
    (by decide : (("merchant_breakdown" : String) == "top_transactions") = false),
    (by decide : (("merchant_breakdown" : String) == "group_by_month") = false),
    (by decide : (("merchant_breakdown" : String) == "outliers_large") = false),
    (by decide : (("merchant_breakdown" : String) == "recurring_merchants") = false),
    (by decide : (("merchant_breakdown" : String) == "merchant_breakdown") = true),
    Bool.false_eq_true, if_false, if_true] at hinv
    rw [Bool.and_eq_true, Bool.and_eq_true, Bool.and_eq_true, Bool.and_eq_true] at hinv
    obtain ⟨⟨⟨⟨hpo, hms⟩, hby⟩, hsd⟩, hed⟩ := hinv
    obtain ⟨s, hgs, hne, hlen⟩ := strReq_elim args "merchant_substr" 60 hms
    obtain ⟨b, hgb, hbne, hblen⟩ := strReq_elim args "by" 30 hby
    rw [normStr_stable "merchant_substr" 60 ⟨args, []⟩ s hgs
        (hfit "merchant_substr" (by decide) s hgs) hlen,
      normStr_stable "by" 30 ⟨args, []⟩ b hgb (hfit "by" (by decide) b hgb) hblen]
    dsimp only
    rw [pyTruthy_getD_vstr "merchant_substr" args s hgs hne]
    simp only [Bool.not_true, Bool.false_eq_true, if_false]
    rw [defaultStep_stable "by" "category" ⟨args, []⟩ b hgb hbne,
      dateField_stable "start_date" ⟨args, []⟩ (dateStored_elim args "start_date" hsd),
      dateField_stable "end_date" ⟨args, []⟩ (dateStored_elim args "end_date" hed)]
  by_cases h9 : t = "category_trend"
  · subst h9
    simp only [dispatchTool,
    (by decide : (("category_trend" : String) == "get_latest") = false),
    (by decide : (("category_trend" : String) == "sum_by_merchant") = false),
    (by decide : (("category_trend" : String) == "sum_by_category") = false),
    (by decide : (("category_trend" : String) == "top_transactions") = false),
    (by decide : (("category_trend" : String) == "group_by_month") = false),
    (by decide : (("category_trend" : String) == "outliers_large") = false),
    (by decide : (("category_trend" : String) == "recurring_merchants") = false),
    (by decide : (("category_trend" : String) == "merchant_breakdown") = false),
    (by decide : (("category_trend" : String) == "category_trend") = true),
    Bool.false_eq_true, if_false, if_true]
    simp only [cleanedInvB,
    (by decide : (("category_trend" : String) == "none") = false),
    (by decide : (("category_trend" : String) == "get_latest") = false),
    (by decide : (("category_trend" : String) == "sum_by_merchant") = false),
    (by decide : (("category_trend" : String) == "sum_by_category") = false),
    (by decide : (("category_trend" : String) == "top_transactions") = false),
    (by decide : (("category_trend" : String) == "group_by_month") = false),
    (by decide : (("category_trend" : String) == "outliers_large") = false),
    (by decide : (("category_trend" : String) == "recurring_merchants") = false),
    (by decide : (("category_trend" : String) == "merchant_breakdown") = false),
    (by decide : (("category_trend" : String) == "category_trend") = true),
    Bool.false_eq_true, if_false, if_true] at hinv
    rw [Bool.and_eq_true, Bool.and_eq_true] at hinv
    obtain ⟨⟨hpo, hcs⟩, hmo⟩ := hinv
    obtain ⟨s, hgs, hne, hlen⟩ := strReq_elim args "category" 60 hcs
    obtain ⟨mi, hgm, hm1, hm2⟩ := intClamped_elim args "months" 1 24 hmo
    rw [normStr_stable "category" 60 ⟨args, []⟩ s hgs (hfit "category" (by decide) s hgs) hlen,
      clampInt_stable "months" 6 1 24 ⟨args, []⟩ mi hgm hm1 hm2]
    dsimp only
    rw [pyTruthy_getD_vstr "category" args s hgs hne]
    simp only [Bool.not_true, Bool.false_eq_true, if_false]
  exfalso
  rw [cleanedInvB] at hinv
  simp only [beq_false_of_ne h0, beq_false_of_ne h1, beq_false_of_ne h2, beq_false_of_ne h3,
    beq_false_of_ne h4, beq_false_of_ne h5, beq_false_of_ne h6, beq_false_of_ne h7,
    beq_false_of_ne h8, beq_false_of_ne h9, Bool.false_eq_true, if_false] at hinv

/-! ## dispatchTool establishes the invariant -/

theorem bool_eq_false_of_ne_true {b : Bool} (h : ¬ b = true) : b = false := by
  cases b
  · rfl
  · exact absurd rfl h

theorem strReq_intro (d : PyDict) (name : String) (cap : Nat) (w : String)
    (hg : dictGet name d = some (.vstr w)) (hne : (w == "") = false) (hlen : w.length ≤ cap) :
    strReq d name cap = true := by
  rw [strReq, hg]
  show (!(w == "") && decide (w.length ≤ cap)) = true
  rw [hne]
  simp [hlen]

theorem truthy_vstr_getD_ne (name : String) (d : PyDict) (w : String)
    (hg : dictGet name d = some (.vstr w))
    (htr : pyTruthy (dictGetD name d .vnone) = true) : (w == "") = false := by
  rw [dictGetD, hg] at htr
  have htr2 : (!(w == "")) = true := htr
  cases hb : (w == "") with
  | false => rfl
  | true => rw [hb] at htr2; exact absurd htr2 (by decide)

theorem dictHasKey_false_get (name : String) (d : PyDict)
    (h : ¬ dictHasKey name d = true) : dictGet name d = none := by
  cases hg : dictGet name d with
  | none => rfl
  | some v =>
    exfalso
    apply h
    rw [dictHasKey, hg]
    rfl

theorem optStep_frame (name : String) (cap : Nat) (st : VSt) (k : String) (hk : k ≠ name) :
    dictGet k (optStep name cap st).args = dictGet k st.args := by
  rw [optStep]
  by_cases hhk : dictHasKey name st.args = true
  · simp only [hhk, if_true]
    by_cases hc : (dictGetD name (normStr name cap st).args .vnone == PyVal.vstr "") = true
    · simp only [hc, if_true]
      show dictGet k (dictSet name .vnone (normStr name cap st).args) = dictGet k st.args
      rw [dictGet_set_ne k name _ _ hk, normStr_frame name cap st k hk]
    · simp only [hc, Bool.false_eq_true, if_false]
      exact normStr_frame name cap st k hk
  · simp only [hhk, Bool.false_eq_true, if_false]

theorem optStep_post (name : String) (cap : Nat) (st : VSt) :
    optStrOk (optStep name cap st).args name cap = true := by
  rw [optStep]
  by_cases hhk : dictHasKey name st.args = true
  · simp only [hhk, if_true]
    obtain ⟨w, hw, hwlen⟩ := normStr_post name cap st
    by_cases hc : (dictGetD name (normStr name cap st).args .vnone == PyVal.vstr "") = true
    · simp only [hc, if_true]
      show optStrOk (dictSet name .vnone (normStr name cap st).args) name cap = true
      rw [optStrOk, dictGet_set_self]
    · simp only [hc, Bool.false_eq_true, if_false]
      have hfv : dictGetD name (normStr name cap st).args .vnone = PyVal.vstr w := by
        rw [dictGetD, hw]
        rfl
      rw [hfv, pyval_vstr_beq] at hc
      have hwne : (w == "") = false := bool_eq_false_of_ne_true hc
      rw [optStrOk, hw]
      show (!(w == "") && decide (w.length ≤ cap)) = true
      rw [hwne]
      simp [hwlen]
  · simp only [hhk, Bool.false_eq_true, if_false]
    rw [optStrOk, dictHasKey_false_get name st.args hhk]

theorem defaultStep_frame (name dflt : String) (st : VSt) (k : String) (hk : k ≠ name) :
    dictGet k (defaultStep name dflt st).args = dictGet k st.args := by
  rw [defaultStep]
  by_cases hc : (dictGetD name st.args .vnone == PyVal.vstr "" ||
      dictGetD name st.args .vnone == PyVal.vnone) = true
  · simp only [hc, if_true]
    show dictGet k (dictSet name (.vstr dflt) st.args) = dictGet k st.args
    exact dictGet_set_ne k name _ _ hk
  · simp only [hc, Bool.false_eq_true, if_false]

theorem defaultStep_post (name dflt : String) (cap : Nat) (st : VSt) (w : String)
    (hg : dictGet name st.args = some (.vstr w)) (hwlen : w.length ≤ cap)
    (hd : (dflt == "") = false) (hdlen : dflt.length ≤ cap) :
    strReq (defaultStep name dflt st).args name cap = true := by
  rw [defaultStep]
  have hfv : dictGetD name st.args .vnone = PyVal.vstr w := by
    rw [dictGetD, hg]
    rfl
  simp only [hfv, pyval_vstr_beq, pyval_vstr_vnone_beq, Bool.or_false]
  by_cases hw : (w == "") = true
  · simp only [hw, if_true]
    show strReq (dictSet name (.vstr dflt) st.args) name cap = true
    exact strReq_intro _ _ _ dflt (dictGet_set_self name _ _) hd hdlen
  · simp only [bool_eq_false_of_ne_true hw, Bool.false_eq_true, if_false]
    exact strReq_intro _ _ _ w hg (bool_eq_false_of_ne_true hw) hwlen

theorem dispatchTool_inv (t : String) (st : VSt)
    (ht : t ∈ ALLOWED_TOOLS)
    (hpo : periodOk st.args = true) :
    cleanedInvB ⟨(dispatchTool t st).1, (dispatchTool t st).2.args⟩ = true := by
  fin_cases ht
  · rw [dispatchTool_none]
    show cleanedInvB ⟨"none", st.args⟩ = true
    simp only [cleanedInvB, (by decide : (("none" : String) == "none") = true), if_true]
    exact hpo
  · simp only [dispatchTool,
      (by decide : (("get_latest" : String) == "get_latest") = true),
      Bool.false_eq_true, if_false, if_true]
    simp only [cleanedInvB,
      (by decide : (("get_latest" : String) == "none") = false),
      (by decide : (("get_latest" : String) == "get_latest") = true),
      Bool.false_eq_true, if_false, if_true]
    rw [Bool.and_eq_true, Bool.and_eq_true]
    refine ⟨⟨?_, ?_⟩, ?_⟩
    · have hfr : dictGet "period" (clampInt "offset" 0 0 50 (clampInt "n" 1 1 10 st)).args =
          dictGet "period" st.args := by
        rw [clampInt_frame "offset" 0 0 50 _ "period" (by decide),
          clampInt_frame "n" 1 1 10 st "period" (by decide)]
      exact (periodOk_congr _ _ hfr).trans hpo
    · have hfr : dictGet "n" (clampInt "offset" 0 0 50 (clampInt "n" 1 1 10 st)).args =
          dictGet "n" (clampInt "n" 1 1 10 st).args :=
        clampInt_frame "offset" 0 0 50 _ "n" (by decide)
      exact (intClamped_congr _ _ "n" 1 10 hfr).trans (clampInt_post "n" 1 1 10 st (by decide))
    · exact clampInt_post "offset" 0 0 50 _ (by decide)
  · simp only [dispatchTool,
      (by decide : (("sum_by_merchant" : String) == "get_latest") = false),
      (by decide : (("sum_by_merchant" : String) == "sum_by_merchant") = true),
      Bool.false_eq_true, if_false, if_true]
    by_cases htr : pyTruthy (dictGetD "merchant_substr" (normStr "merchant_substr" 60 st).args .vnone) = true
    · simp only [htr, Bool.not_true, Bool.false_eq_true, if_false]
      simp only [cleanedInvB,
        (by decide : (("sum_by_merchant" : String) == "none") = false),
        (by decide : (("sum_by_merchant" : String) == "get_latest") = false),
        (by decide : (("sum_by_merchant" : String) == "sum_by_merchant") = true),
        Bool.false_eq_true, if_false, if_true]
      rw [Bool.and_eq_true, Bool.and_eq_true, Bool.and_eq_true]
      obtain ⟨w, hw, hwlen⟩ := normStr_post "merchant_substr" 60 st
      have hwne : (w == "") = false := truthy_vstr_getD_ne "merchant_substr" _ w hw htr
      refine ⟨⟨⟨?_, ?_⟩, ?_⟩, ?_⟩
      · have hfr : dictGet "period" (dateField "end_date" (dateField "start_date" (normStr "merchant_substr" 60 st))).args = dictGet "period" st.args := by
          rw [dateField_frame "end_date" _ "period" (by decide),
            dateField_frame "start_date" _ "period" (by decide),
            normStr_frame "merchant_substr" 60 st "period" (by decide)]
        exact (periodOk_congr _ _ hfr).trans hpo
      · have hfr : dictGet "merchant_substr" (dateField "end_date" (dateField "start_date" (normStr "merchant_substr" 60 st))).args = some (.vstr w) := by
          rw [dateField_frame "end_date" _ "merchant_substr" (by decide),
            dateField_frame "start_date" _ "merchant_substr" (by decide), hw]
        exact strReq_intro _ _ _ w hfr hwne hwlen
      · have hfr : dictGet "start_date" (dateField "end_date" (dateField "start_date" (normStr "merchant_substr" 60 st))).args =
            dictGet "start_date" (dateField "start_date" (normStr "merchant_substr" 60 st)).args :=
          dateField_frame "end_date" _ "start_date" (by decide)
        exact (dateStored_congr _ _ "start_date" hfr).trans (dateField_post "start_date" _)
      · exact dateField_post "end_date" _
    · simp only [bool_eq_false_of_ne_true htr, Bool.not_false, if_true]
      decide
  · simp only [dispatchTool,
      (by decide : (("sum_by_category" : String) == "get_latest") = false),
      (by decide : (("sum_by_category" : String) == "sum_by_merchant") = false),
      (by decide : (("sum_by_category" : String) == "sum_by_category") = true),
      Bool.false_eq_true, if_false, if_true]
    by_cases htr : pyTruthy (dictGetD "category" (normStr "category" 60 st).args .vnone) = true
    · simp only [htr, Bool.not_true, Bool.false_eq_true, if_false]
      simp only [cleanedInvB,
        (by decide : (("sum_by_category" : String) == "none") = false),
        (by decide : (("sum_by_category" : String) == "get_latest") = false),
        (by decide : (("sum_by_category" : String) == "sum_by_merchant") = false),
        (by decide : (("sum_by_category" : String) == "sum_by_category") = true),
        Bool.false_eq_true, if_false, if_true]
      rw [Bool.and_eq_true, Bool.and_eq_true, Bool.and_eq_true]
      obtain ⟨w, hw, hwlen⟩ := normStr_post "category" 60 st
      have hwne : (w == "") = false := truthy_vstr_getD_ne "category" _ w hw htr
      refine ⟨⟨⟨?_, ?_⟩, ?_⟩, ?_⟩
      · have hfr : dictGet "period" (dateField "end_date" (dateField "start_date" (normStr "category" 60 st))).args = dictGet "period" st.args := by
          rw [dateField_frame "end_date" _ "period" (by decide),
            dateField_frame "start_date" _ "period" (by decide),
            normStr_frame "category" 60 st "period" (by decide)]
        exact (periodOk_congr _ _ hfr).trans hpo
      · have hfr : dictGet "category" (dateField "end_date" (dateField "start_date" (normStr "category" 60 st))).args = some (.vstr w) := by
          rw [dateField_frame "end_date" _ "category" (by decide),
            dateField_frame "start_date" _ "category" (by decide), hw]
        exact strReq_intro _ _ _ w hfr hwne hwlen
      · have hfr : dictGet "start_date" (dateField "end_date" (dateField "start_date" (normStr "category" 60 st))).args =
            dictGet "start_date" (dateField "start_date" (normStr "category" 60 st)).args :=
          dateField_frame "end_date" _ "start_date" (by decide)
        exact (dateStored_congr _ _ "start_date" hfr).trans (dateField_post "start_date" _)
      · exact dateField_post "end_date" _
    · simp only [bool_eq_false_of_ne_true htr, Bool.not_false, if_true]
      decide
  · simp only [dispatchTool,
      (by decide : (("top_transactions" : String) == "get_latest") = false),
      (by decide : (("top_transactions" : String) == "sum_by_merchant") = false),
      (by decide : (("top_transactions" : String) == "sum_by_category") = false),
      (by decide : (("top_transactions" : String) == "top_transactions") = true),
      Bool.false_eq_true, if_false, if_true]
    simp only [cleanedInvB,
      (by decide : (("top_transactions" : String) == "none") = false),
      (by decide : (("top_transactions" : String) == "get_latest") = false),
      (by decide : (("top_transactions" : String) == "sum_by_merchant") = false),
      (by decide : (("top_transactions" : String) == "sum_by_category") = false),
      (by decide : (("top_transactions" : String) == "top_transactions") = true),
      Bool.false_eq_true, if_false, if_true]
    rw [Bool.and_eq_true, Bool.and_eq_true, Bool.and_eq_true, Bool.and_eq_true,
      Bool.and_eq_true]
    refine ⟨⟨⟨⟨⟨?_, ?_⟩, ?_⟩, ?_⟩, ?_⟩, ?_⟩
    · have hfr : dictGet "period" (optStep "merchant_substr" 60 (optStep "category" 60 (dateField "end_date" (dateField "start_date" (clampInt "n" 10 1 50 st))))).args = dictGet "period" st.args := by
        rw [optStep_frame "merchant_substr" 60 _ "period" (by decide),
          optStep_frame "category" 60 _ "period" (by decide),
          dateField_frame "end_date" _ "period" (by decide),
          dateField_frame "start_date" _ "period" (by decide),
          clampInt_frame "n" 10 1 50 st "period" (by decide)]
      exact (periodOk_congr _ _ hfr).trans hpo
    · have hfr : dictGet "n" (optStep "merchant_substr" 60 (optStep "category" 60 (dateField "end_date" (dateField "start_date" (clampInt "n" 10 1 50 st))))).args = dictGet "n" (clampInt "n" 10 1 50 st).args := by
        rw [optStep_frame "merchant_substr" 60 _ "n" (by decide),
          optStep_frame "category" 60 _ "n" (by decide),
          dateField_frame "end_date" _ "n" (by decide),
          dateField_frame "start_date" _ "n" (by decide)]
      exact (intClamped_congr _ _ "n" 1 50 hfr).trans (clampInt_post "n" 10 1 50 st (by decide))
    · have hfr : dictGet "start_date" (optStep "merchant_substr" 60 (optStep "category" 60 (dateField "end_date" (dateField "start_date" (clampInt "n" 10 1 50 st))))).args =
          dictGet "start_date" (dateField "start_date" (clampInt "n" 10 1 50 st)).args := by
        rw [optStep_frame "merchant_substr" 60 _ "start_date" (by decide),
          optStep_frame "category" 60 _ "start_date" (by decide),
          dateField_frame "end_date" _ "start_date" (by decide)]
      exact (dateStored_congr _ _ "start_date" hfr).trans (dateField_post "start_date" _)
    · have hfr : dictGet "end_date" (optStep "merchant_substr" 60 (optStep "category" 60 (dateField "end_date" (dateField "start_date" (clampInt "n" 10 1 50 st))))).args = dictGet "end_date" (dateField "end_date" (dateField "start_date" (clampInt "n" 10 1 50 st))).args := by
        rw [optStep_frame "merchant_substr" 60 _ "end_date" (by decide),
          optStep_frame "category" 60 _ "end_date" (by decide)]
      exact (dateStored_congr _ _ "end_date" hfr).trans (dateField_post "end_date" _)
    · have hfr : dictGet "category" (optStep "merchant_substr" 60 (optStep "category" 60 (dateField "end_date" (dateField "start_date" (clampInt "n" 10 1 50 st))))).args = dictGet "category" (optStep "category" 60 (dateField "end_date" (dateField "start_date" (clampInt "n" 10 1 50 st)))).args :=
        optStep_frame "merchant_substr" 60 _ "category" (by decide)
      exact (optStrOk_congr _ _ "category" 60 hfr).trans (optStep_post "category" 60 _)
    · exact optStep_post "merchant_substr" 60 _
  · simp only [dispatchTool,
      (by decide : (("group_by_month" : String) == "get_latest") = false),
      (by decide : (("group_by_month" : String) == "sum_by_merchant") = false),
      (by decide : (("group_by_month" : String) == "sum_by_category") = false),
      (by decide : (("group_by_month" : String) == "top_transactions") = false),
      (by decide : (("group_by_month" : String) == "group_by_month") = true),
      Bool.false_eq_true, if_false, if_true]
    simp only [cleanedInvB,
      (by decide : (("group_by_month" : String) == "none") = false),
      (by decide : (("group_by_month" : String) == "get_latest") = false),
      (by decide : (("group_by_month" : String) == "sum_by_merchant") = false),
      (by decide : (("group_by_month" : String) == "sum_by_category") = false),
      (by decide : (("group_by_month" : String) == "top_transactions") = false),
      (by decide : (("group_by_month" : String) == "group_by_month") = true),
      Bool.false_eq_true, if_false, if_true]
    rw [Bool.and_eq_true, Bool.and_eq_true, Bool.and_eq_true, Bool.and_eq_true]
    obtain ⟨w, hw, hwlen⟩ := normStr_post "field" 30 (dateField "end_date" (dateField "start_date" st))
    refine ⟨⟨⟨⟨?_, ?_⟩, ?_⟩, ?_⟩, ?_⟩
    · have hfr : dictGet "period" (defaultStep "field" "category" (clampInt "top_k" 5 1 10 (normStr "field" 30 (dateField "end_date" (dateField "start_date" st))))).args = dictGet "period" st.args := by
        rw [defaultStep_frame "field" "category" _ "period" (by decide),
          clampInt_frame "top_k" 5 1 10 _ "period" (by decide),
          normStr_frame "field" 30 _ "period" (by decide),
          dateField_frame "end_date" _ "period" (by decide),
          dateField_frame "start_date" _ "period" (by decide)]
      exact (periodOk_congr _ _ hfr).trans hpo
    · have hfr : dictGet "start_date" (defaultStep "field" "category" (clampInt "top_k" 5 1 10 (normStr "field" 30 (dateField "end_date" (dateField "start_date" st))))).args =
          dictGet "start_date" (dateField "start_date" st).args := by
        rw [defaultStep_frame "field" "category" _ "start_date" (by decide),
          clampInt_frame "top_k" 5 1 10 _ "start_date" (by decide),
          normStr_frame "field" 30 _ "start_date" (by decide),
          dateField_frame "end_date" _ "start_date" (by decide)]
      exact (dateStored_congr _ _ "start_date" hfr).trans (dateField_post "start_date" _)
    · have hfr : dictGet "end_date" (defaultStep "field" "category" (clampInt "top_k" 5 1 10 (normStr "field" 30 (dateField "end_date" (dateField "start_date" st))))).args =
          dictGet "end_date" (dateField "end_date" (dateField "start_date" st)).args := by
        rw [defaultStep_frame "field" "category" _ "end_date" (by decide),
          clampInt_frame "top_k" 5 1 10 _ "end_date" (by decide),
          normStr_frame "field" 30 _ "end_date" (by decide)]
      exact (dateStored_congr _ _ "end_date" hfr).trans (dateField_post "end_date" _)
    · have hg2 : dictGet "field" (clampInt "top_k" 5 1 10 (normStr "field" 30 (dateField "end_date" (dateField "start_date" st)))).args = some (.vstr w) := by
        rw [clampInt_frame "top_k" 5 1 10 _ "field" (by decide), hw]
      exact defaultStep_post "field" "category" 30 _ w hg2 hwlen (by decide) (by decide)
    · have hfr : dictGet "top_k" (defaultStep "field" "category" (clampInt "top_k" 5 1 10 (normStr "field" 30 (dateField "end_date" (dateField "start_date" st))))).args = dictGet "top_k" (clampInt "top_k" 5 1 10 (normStr "field" 30 (dateField "end_date" (dateField "start_date" st)))).args :=
        defaultStep_frame "field" "category" _ "top_k" (by decide)
      exact (intClamped_congr _ _ "top_k" 1 10 hfr).trans (clampInt_post "top_k" 5 1 10 _ (by decide))
  · simp only [dispatchTool,
      (by decide : (("outliers_large" : String) == "get_latest") = false),
      (by decide : (("outliers_large" : String) == "sum_by_merchant") = false),
      (by decide : (("outliers_large" : String) == "sum_by_category") = false),
      (by decide : (("outliers_large" : String) == "top_transactions") = false),
      (by decide : (("outliers_large" : String) == "group_by_month") = false),
      (by decide : (("outliers_large" : String) == "outliers_large") = true),
      Bool.false_eq_true, if_false, if_true]
    simp only [cleanedInvB,
      (by decide : (("outliers_large" : String) == "none") = false),
      (by decide : (("outliers_large" : String) == "get_latest") = false),
      (by decide : (("outliers_large" : String) == "sum_by_merchant") = false),
      (by decide : (("outliers_large" : String) == "sum_by_category") = false),
      (by decide : (("outliers_large" : String) == "top_transactions") = false),
      (by decide : (("outliers_large" : String) == "group_by_month") = false),
      (by decide : (("outliers_large" : String) == "outliers_large") = true),
      Bool.false_eq_true, if_false, if_true]
    rw [Bool.and_eq_true, Bool.and_eq_true, Bool.and_eq_true]
    refine ⟨⟨⟨?_, ?_⟩, ?_⟩, ?_⟩
    · have hfr : dictGet "period" (dateField "end_date" (dateField "start_date" (clampFloat "min_amount" 100 0 1000000 st))).args = dictGet "period" st.args := by
        rw [dateField_frame "end_date" _ "period" (by decide),
          dateField_frame "start_date" _ "period" (by decide),
          clampFloat_frame "min_amount" 100 0 1000000 st "period" (by decide)]
      exact (periodOk_congr _ _ hfr).trans hpo
    · have hfr : dictGet "min_amount" (dateField "end_date" (dateField "start_date" (clampFloat "min_amount" 100 0 1000000 st))).args =
          dictGet "min_amount" (clampFloat "min_amount" 100 0 1000000 st).args := by
        rw [dateField_frame "end_date" _ "min_amount" (by decide),
          dateField_frame "start_date" _ "min_amount" (by decide)]
      exact (floatClamped_congr _ _ "min_amount" 0 1000000 hfr).trans
        (clampFloat_post "min_amount" 100 0 1000000 st (by decide))
    · have hfr : dictGet "start_date" (dateField "end_date" (dateField "start_date" (clampFloat "min_amount" 100 0 1000000 st))).args =
          dictGet "start_date" (dateField "start_date" (clampFloat "min_amount" 100 0 1000000 st)).args :=
        dateField_frame "end_date" _ "start_date" (by decide)
      exact (dateStored_congr _ _ "start_date" hfr).trans (dateField_post "start_date" _)
    · exact dateField_post "end_date" _
  · simp only [dispatchTool,
      (by decide : (("recurring_merchants" : String) == "get_latest") = false),
      (by decide : (("recurring_merchants" : String) == "sum_by_merchant") = false),
      (by decide : (("recurring_merchants" : String) == "sum_by_category") = false),
      (by decide : (("recurring_merchants" : String) == "top_transactions") = false),
      (by decide : (("recurring_merchants" : String) == "group_by_month") = false),
      (by decide : (("recurring_merchants" : String) == "outliers_large") = false),
      (by decide : (("recurring_merchants" : String) == "recurring_merchants") = true),
      Bool.false_eq_true, if_false, if_true]
    simp only [cleanedInvB,
      (by decide : (("recurring_merchants" : String) == "none") = false),
      (by decide : (("recurring_merchants" : String) == "get_latest") = false),
      (by decide : (("recurring_merchants" : String) == "sum_by_merchant") = false),
      (by decide : (("recurring_merchants" : String) == "sum_by_category") = false),
      (by decide : (("recurring_merchants" : String) == "top_transactions") = false),
      (by decide : (("recurring_merchants" : String) == "group_by_month") = false),
      (by decide : (("recurring_merchants" : String) == "outliers_large") = false),
      (by decide : (("recurring_merchants" : String) == "recurring_merchants") = true),
      Bool.false_eq_true, if_false, if_true]
    rw [Bool.and_eq_true, Bool.and_eq_true]
    refine ⟨⟨?_, ?_⟩, ?_⟩
    · have hfr : dictGet "period" (clampInt "min_count" 3 2 20 (clampInt "months" 6 1 24 st)).args =
          dictGet "period" st.args := by
        rw [clampInt_frame "min_count" 3 2 20 _ "period" (by decide),
          clampInt_frame "months" 6 1 24 st "period" (by decide)]
      exact (periodOk_congr _ _ hfr).trans hpo
    · have hfr : dictGet "months" (clampInt "min_count" 3 2 20 (clampInt "months" 6 1 24 st)).args =
          dictGet "months" (clampInt "months" 6 1 24 st).args :=
        clampInt_frame "min_count" 3 2 20 _ "months" (by decide)
      exact (intClamped_congr _ _ "months" 1 24 hfr).trans (clampInt_post "months" 6 1 24 st (by decide))
    · exact clampInt_post "min_count" 3 2 20 _ (by decide)
  · simp only [dispatchTool,
      (by decide : (("merchant_breakdown" : String) == "get_latest") = false),
      (by decide : (("merchant_breakdown" : String) == "sum_by_merchant") = false),
      (by decide : (("merchant_breakdown" : String) == "sum_by_category") = false),
      (by decide : (("merchant_breakdown" : String) == "top_transactions") = false),
      (by decide : (("merchant_breakdown" : String) == "group_by_month") = false),
      (by decide : (("merchant_breakdown" : String) == "outliers_large") = false),
      (by decide : (("merchant_breakdown" : String) == "recurring_merchants") = false),
      (by decide : (("merchant_breakdown" : String) == "merchant_breakdown") = true),
      Bool.false_eq_true, if_false, if_true]
    by_cases htr : pyTruthy (dictGetD "merchant_substr" (normStr "by" 30 (normStr "merchant_substr" 60 st)).args .vnone) = true
    · simp only [htr, Bool.not_true, Bool.false_eq_true, if_false]
      simp only [cleanedInvB,
        (by decide : (("merchant_breakdown" : String) == "none") = false),
        (by decide : (("merchant_breakdown" : String) == "get_latest") = false),
        (by decide : (("merchant_breakdown" : String) == "sum_by_merchant") = false),
        (by decide : (("merchant_breakdown" : String) == "sum_by_category") = false),
        (by decide : (("merchant_breakdown" : String) == "top_transactions") = false),
        (by decide : (("merchant_breakdown" : String) == "group_by_month") = false),
        (by decide : (("merchant_breakdown" : String) == "outliers_large") = false),
        (by decide : (("merchant_breakdown" : String) == "recurring_merchants") = false),
        (by decide : (("merchant_breakdown" : String) == "merchant_breakdown") = true),
        Bool.false_eq_true, if_false, if_true]
      rw [Bool.and_eq_true, Bool.and_eq_true, Bool.and_eq_true, Bool.and_eq_true]
      obtain ⟨w, hw, hwlen⟩ := normStr_post "merchant_substr" 60 st
      have hw1 : dictGet "merchant_substr" (normStr "by" 30 (normStr "merchant_substr" 60 st)).args = some (.vstr w) := by
        rw [normStr_frame "by" 30 _ "merchant_substr" (by decide), hw]
      have hwne : (w == "") = false := truthy_vstr_getD_ne "merchant_substr" _ w hw1 htr
      obtain ⟨b, hb, hblen⟩ := normStr_post "by" 30 (normStr "merchant_substr" 60 st)
      refine ⟨⟨⟨⟨?_, ?_⟩, ?_⟩, ?_⟩, ?_⟩
      · have hfr : dictGet "period" (dateField "end_date" (dateField "start_date" (defaultStep "by" "category" (normStr "by" 30 (normStr "merchant_substr" 60 st))))).args = dictGet "period" st.args := by
          rw [dateField_frame "end_date" _ "period" (by decide),
            dateField_frame "start_date" _ "period" (by decide),
            defaultStep_frame "by" "category" _ "period" (by decide),
            normStr_frame "by" 30 _ "period" (by decide),
            normStr_frame "merchant_substr" 60 st "period" (by decide)]
        exact (periodOk_congr _ _ hfr).trans hpo
      · have hfr : dictGet "merchant_substr" (dateField "end_date" (dateField "start_date" (defaultStep "by" "category" (normStr "by" 30 (normStr "merchant_substr" 60 st))))).args = some (.vstr w) := by
          rw [dateField_frame "end_date" _ "merchant_substr" (by decide),
            dateField_frame "start_date" _ "merchant_substr" (by decide),
            defaultStep_frame "by" "category" _ "merchant_substr" (by decide), hw1]
        exact strReq_intro _ _ _ w hfr hwne hwlen
      · have hfr : dictGet "by" (dateField "end_date" (dateField "start_date" (defaultStep "by" "category" (normStr "by" 30 (normStr "merchant_substr" 60 st))))).args = dictGet "by" (defaultStep "by" "category" (normStr "by" 30 (normStr "merchant_substr" 60 st))).args := by
          rw [dateField_frame "end_date" _ "by" (by decide),
            dateField_frame "start_date" _ "by" (by decide)]
        exact (strReq_congr _ _ "by" 30 hfr).trans
          (defaultStep_post "by" "category" 30 _ b hb hblen (by decide) (by decide))
      · have hfr : dictGet "start_date" (dateField "end_date" (dateField "start_date" (defaultStep "by" "category" (normStr "by" 30 (normStr "merchant_substr" 60 st))))).args =
            dictGet "start_date" (dateField "start_date" (defaultStep "by" "category" (normStr "by" 30 (normStr "merchant_substr" 60 st)))).args :=
          dateField_frame "end_date" _ "start_date" (by decide)
        exact (dateStored_congr _ _ "start_date" hfr).trans (dateField_post "start_date" _)
      · exact dateField_post "end_date" _
    · simp only [bool_eq_false_of_ne_true htr, Bool.not_false, if_true]
      decide
  · simp only [dispatchTool,
      (by decide : (("category_trend" : String) == "get_latest") = false),
      (by decide : (("category_trend" : String) == "sum_by_merchant") = false),
      (by decide : (("category_trend" : String) == "sum_by_category") = false),
      (by decide : (("category_trend" : String) == "top_transactions") = false),
      (by decide : (("category_trend" : String) == "group_by_month") = false),
      (by decide : (("category_trend" : String) == "outliers_large") = false),
      (by decide : (("category_trend" : String) == "recurring_merchants") = false),
      (by decide : (("category_trend" : String) == "merchant_breakdown") = false),
      (by decide : (("category_trend" : String) == "category_trend") = true),
      Bool.false_eq_true, if_false, if_true]
    by_cases htr : pyTruthy (dictGetD "category" (clampInt "months" 6 1 24 (normStr "category" 60 st)).args .vnone) = true
    · simp only [htr, Bool.not_true, Bool.false_eq_true, if_false]
      simp only [cleanedInvB,
        (by decide : (("category_trend" : String) == "none") = false),
        (by decide : (("category_trend" : String) == "get_latest") = false),
        (by decide : (("category_trend" : String) == "sum_by_merchant") = false),
        (by decide : (("category_trend" : String) == "sum_by_category") = false),
        (by decide : (("category_trend" : String) == "top_transactions") = false),
        (by decide : (("category_trend" : String) == "group_by_month") = false),
        (by decide : (("category_trend" : String) == "outliers_large") = false),
        (by decide : (("category_trend" : String) == "recurring_merchants") = false),
        (by decide : (("category_trend" : String) == "merchant_breakdown") = false),
        (by decide : (("category_trend" : String) == "category_trend") = true),
        Bool.false_eq_true, if_false, if_true]
      rw [Bool.and_eq_true, Bool.and_eq_true]
      obtain ⟨w, hw, hwlen⟩ := normStr_post "category" 60 st
      have hw1 : dictGet "category" (clampInt "months" 6 1 24 (normStr "category" 60 st)).args = some (.vstr w) := by
        rw [clampInt_frame "months" 6 1 24 _ "category" (by decide), hw]
      have hwne : (w == "") = false := truthy_vstr_getD_ne "category" _ w hw1 htr
      refine ⟨⟨?_, ?_⟩, ?_⟩
      · have hfr : dictGet "period" (clampInt "months" 6 1 24 (normStr "category" 60 st)).args = dictGet "period" st.args := by
          rw [clampInt_frame "months" 6 1 24 _ "period" (by decide),
            normStr_frame "category" 60 st "period" (by decide)]
        exact (periodOk_congr _ _ hfr).trans hpo
      · exact strReq_intro _ _ _ w hw1 hwne hwlen
      · exact clampInt_post "months" 6 1 24 _ (by decide)
    · simp only [bool_eq_false_of_ne_true htr, Bool.not_false, if_true]
      decide

/-! ## validate_plan establishes the invariant; re-validation is stable -/

theorem band_left {a b : Bool} (h : (a && b) = true) : a = true := by
  cases a
  · simp at h
  · rfl

theorem band_right {a b : Bool} (h : (a && b) = true) : b = true := by
  cases b
  · simp at h
  · rfl

theorem cleanedInvB_tool (c : Cleaned) (h : cleanedInvB c = true) :
    c.tool ∈ ALLOWED_TOOLS ∧ periodOk c.args = true := by
  by_cases hx0 : c.tool = "none"
  · refine ⟨by rw [hx0]; decide, ?_⟩
    simp only [cleanedInvB, hx0,
      (by decide : (("none" : String) == "none") = true),
      Bool.false_eq_true, if_false, if_true] at h
    exact h
  by_cases hx1 : c.tool = "get_latest"
  · refine ⟨by rw [hx1]; decide, ?_⟩
    simp only [cleanedInvB, hx1,
      (by decide : (("get_latest" : String) == "none") = false),
      (by decide : (("get_latest" : String) == "get_latest") = true),
      Bool.false_eq_true, if_false, if_true] at h
    exact band_left (band_left (h))
  by_cases hx2 : c.tool = "sum_by_merchant"
  · refine ⟨by rw [hx2]; decide, ?_⟩
    simp only [cleanedInvB, hx2,
      (by decide : (("sum_by_merchant" : String) == "none") = false),
      (by decide : (("sum_by_merchant" : String) == "get_latest") = false),
      (by decide : (("sum_by_merchant" : String) == "sum_by_merchant") = true),
      Bool.false_eq_true, if_false, if_true] at h
    exact band_left (band_left (band_left (h)))
  by_cases hx3 : c.tool = "sum_by_category"
  · refine ⟨by rw [hx3]; decide, ?_⟩
    simp only [cleanedInvB, hx3,
      (by decide : (("sum_by_category" : String) == "none") = false),
      (by decide : (("sum_by_category" : String) == "get_latest") = false),
      (by decide : (("sum_by_category" : String) == "sum_by_merchant") = false),
      (by decide : (("sum_by_category" : String) == "sum_by_category") = true),
      Bool.false_eq_true, if_false, if_true] at h
    exact band_left (band_left (band_left (h)))
  by_cases hx4 : c.tool = "top_transactions"
  · refine ⟨by rw [hx4]; decide, ?_⟩
    simp only [cleanedInvB, hx4,
      (by decide : (("top_transactions" : String) == "none") = false),
      (by decide : (("top_transactions" : String) == "get_latest") = false),
      (by decide : (("top_transactions" : String) == "sum_by_merchant") = false),
      (by decide : (("top_transactions" : String) == "sum_by_category") = false),
      (by decide : (("top_transactions" : String) == "top_transactions") = true),
      Bool.false_eq_true, if_false, if_true] at h
    exact band_left (band_left (band_left (band_left (band_left (h)))))
  by_cases hx5 : c.tool = "group_by_month"
  · refine ⟨by rw [hx5]; decide, ?_⟩
    simp only [cleanedInvB, hx5,
      (by decide : (("group_by_month" : String) == "none") = false),
      (by decide : (("group_by_month" : String) == "get_latest") = false),
      (by decide : (("group_by_month" : String) == "sum_by_merchant") = false),
      (by decide : (("group_by_month" : String) == "sum_by_category") = false),
      (by decide : (("group_by_month" : String) == "top_transactions") = false),
      (by decide : (("group_by_month" : String) == "group_by_month") = true),
      Bool.false_eq_true, if_false, if_true] at h
    exact band_left (band_left (band_left (band_left (h))))
  by_cases hx6 : c.tool = "outliers_large"
  · refine ⟨by rw [hx6]; decide, ?_⟩
    simp only [cleanedInvB, hx6,
      (by decide : (("outliers_large" : String) == "none") = false),
      (by decide : (("outliers_large" : String) == "get_latest") = false),
      (by decide : (("outliers_large" : String) == "sum_by_merchant") = false),
      (by decide : (("outliers_large" : String) == "sum_by_category") = false),
      (by decide : (("outliers_large" : String) == "top_transactions") = false),
      (by decide : (("outliers_large" : String) == "group_by_month") = false),
      (by decide : (("outliers_large" : String) == "outliers_large") = true),
      Bool.false_eq_true, if_false, if_true] at h
    exact band_left (band_left (band_left (h)))
  by_cases hx7 : c.tool = "recurring_merchants"
  · refine ⟨by rw [hx7]; decide, ?_⟩
    simp only [cleanedInvB, hx7,
      (by decide : (("recurring_merchants" : String) == "none") = false),
      (by decide : (("recurring_merchants" : String) == "get_latest") = false),
      (by decide : (("recurring_merchants" : String) == "sum_by_merchant") = false),
      (by decide : (("recurring_merchants" : String) == "sum_by_category") = false),
      (by decide : (("recurring_merchants" : String) == "top_transactions") = false),
      (by decide : (("recurring_merchants" : String) == "group_by_month") = false),
      (by decide : (("recurring_merchants" : String) == "outliers_large") = false),
      (by decide : (("recurring_merchants" : String) == "recurring_merchants") = true),
      Bool.false_eq_true, if_false, if_true] at h
    exact band_left (band_left (h))
  by_cases hx8 : c.tool = "merchant_breakdown"
  · refine ⟨by rw [hx8]; decide, ?_⟩
    simp only [cleanedInvB, hx8,
      (by decide : (("merchant_breakdown" : String) == "none") = false),
      (by decide : (("merchant_breakdown" : String) == "get_latest") = false),
      (by decide : (("merchant_breakdown" : String) == "sum_by_merchant") = false),
      (by decide : (("merchant_breakdown" : String) == "sum_by_category") = false),
      (by decide : (("merchant_breakdown" : String) == "top_transactions") = false),
      (by decide : (("merchant_breakdown" : String) == "group_by_month") = false),
      (by decide : (("merchant_breakdown" : String) == "outliers_large") = false),
      (by decide : (("merchant_breakdown" : String) == "recurring_merchants") = false),
      (by decide : (("merchant_breakdown" : String) == "merchant_breakdown") = true),
      Bool.false_eq_true, if_false, if_true] at h
    exact band_left (band_left (band_left (band_left (h))))
  by_cases hx9 : c.tool = "category_trend"
  · refine ⟨by rw [hx9]; decide, ?_⟩
    simp only [cleanedInvB, hx9,
      (by decide : (("category_trend" : String) == "none") = false),
      (by decide : (("category_trend" : String) == "get_latest") = false),
      (by decide : (("category_trend" : String) == "sum_by_merchant") = false),
      (by decide : (("category_trend" : String) == "sum_by_category") = false),
      (by decide : (("category_trend" : String) == "top_transactions") = false),
      (by decide : (("category_trend" : String) == "group_by_month") = false),
      (by decide : (("category_trend" : String) == "outliers_large") = false),
      (by decide : (("category_trend" : String) == "recurring_merchants") = false),
      (by decide : (("category_trend" : String) == "merchant_breakdown") = false),
      (by decide : (("category_trend" : String) == "category_trend") = true),
      Bool.false_eq_true, if_false, if_true] at h
    exact band_left (band_left (h))
  exfalso
  rw [cleanedInvB] at h
  simp only [beq_false_of_ne hx0, beq_false_of_ne hx1, beq_false_of_ne hx2, beq_false_of_ne hx3, beq_false_of_ne hx4, beq_false_of_ne hx5, beq_false_of_ne hx6, beq_false_of_ne hx7, beq_false_of_ne hx8, beq_false_of_ne hx9, Bool.false_eq_true, if_false] at h

theorem validatePlan_inv (plan : PyDict) (today : Date) (ok : Bool) (c : Cleaned)
    (errs : List String)
    (hnd : ∀ d, dictGetD "args" plan .vnone = .vdict d → (d.map Prod.fst).Nodup)
    (hrun : validatePlan plan today = .ok (ok, c, errs)) :
    cleanedInvB c = true := by
  cases htool : toolOfPlan plan with
  | error e =>
    simp only [validatePlan, htool] at hrun
    exact Except.noConfusion hrun
  | ok tool0 =>
    simp only [validatePlan, htool] at hrun
    by_cases hall : ALLOWED_TOOLS.contains tool0 = true
    · simp only [hall, Bool.not_true, Bool.false_eq_true, if_false] at hrun
      cases hargs : dictGetD "args" plan .vnone with
      | vdict d =>
        rw [hargs] at hrun
        by_cases hne : pyTruthy (PyVal.vdict d) = true
        · simp only [hne, if_true] at hrun
          simp only [Except.ok.injEq, Prod.mk.injEq] at hrun
          obtain ⟨-, h2, -⟩ := hrun
          rw [← h2]
          exact dispatchTool_inv tool0 (periodStep today ⟨d, []⟩) (by simpa using hall)
            (periodStep_periodOk today ⟨d, []⟩ (hnd d hargs))
        · simp only [bool_eq_false_of_ne_true hne, Bool.false_eq_true, if_false] at hrun
          simp only [Except.ok.injEq, Prod.mk.injEq] at hrun
          obtain ⟨-, h2, -⟩ := hrun
          rw [← h2]
          exact dispatchTool_inv tool0 (periodStep today ⟨[], _⟩) (by simpa using hall)
            (periodStep_periodOk today ⟨[], _⟩ (by simp))
      | vnone =>
        rw [hargs] at hrun
        simp only [(by decide : pyTruthy PyVal.vnone = false), Bool.false_eq_true, if_false] at hrun
        simp only [Except.ok.injEq, Prod.mk.injEq] at hrun
        obtain ⟨-, h2, -⟩ := hrun
        rw [← h2]
        exact dispatchTool_inv tool0 (periodStep today ⟨[], _⟩) (by simpa using hall)
          (periodStep_periodOk today ⟨[], _⟩ (by simp))
      | vbool b =>
        rw [hargs] at hrun
        by_cases hne : pyTruthy (PyVal.vbool b) = true
        · simp only [hne, if_true] at hrun
          simp only [Except.ok.injEq, Prod.mk.injEq] at hrun
          obtain ⟨-, h2, -⟩ := hrun
          rw [← h2]
          exact dispatchTool_inv tool0 (periodStep today ⟨[], _⟩) (by simpa using hall)
            (periodStep_periodOk today ⟨[], _⟩ (by simp))
        · simp only [bool_eq_false_of_ne_true hne, Bool.false_eq_true, if_false] at hrun
          simp only [Except.ok.injEq, Prod.mk.injEq] at hrun
          obtain ⟨-, h2, -⟩ := hrun
          rw [← h2]
          exact dispatchTool_inv tool0 (periodStep today ⟨[], _⟩) (by simpa using hall)
            (periodStep_periodOk today ⟨[], _⟩ (by simp))
      | vint n =>
        rw [hargs] at hrun
        by_cases hne : pyTruthy (PyVal.vint n) = true
        · simp only [hne, if_true] at hrun
          simp only [Except.ok.injEq, Prod.mk.injEq] at hrun
          obtain ⟨-, h2, -⟩ := hrun
          rw [← h2]
          exact dispatchTool_inv tool0 (periodStep today ⟨[], _⟩) (by simpa using hall)
            (periodStep_periodOk today ⟨[], _⟩ (by simp))
        · simp only [bool_eq_false_of_ne_true hne, Bool.false_eq_true, if_false] at hrun
          simp only [Except.ok.injEq, Prod.mk.injEq] at hrun
          obtain ⟨-, h2, -⟩ := hrun
          rw [← h2]
          exact dispatchTool_inv tool0 (periodStep today ⟨[], _⟩) (by simpa using hall)
            (periodStep_periodOk today ⟨[], _⟩ (by simp))
      | vfloat q =>
        rw [hargs] at hrun
        by_cases hne : pyTruthy (PyVal.vfloat q) = true
        · simp only [hne, if_true] at hrun
          simp only [Except.ok.injEq, Prod.mk.injEq] at hrun
          obtain ⟨-, h2, -⟩ := hrun
          rw [← h2]
          exact dispatchTool_inv tool0 (periodStep today ⟨[], _⟩) (by simpa using hall)
            (periodStep_periodOk today ⟨[], _⟩ (by simp))
        · simp only [bool_eq_false_of_ne_true hne, Bool.false_eq_true, if_false] at hrun
          simp only [Except.ok.injEq, Prod.mk.injEq] at hrun
          obtain ⟨-, h2, -⟩ := hrun
          rw [← h2]
          exact dispatchTool_inv tool0 (periodStep today ⟨[], _⟩) (by simpa using hall)
            (periodStep_periodOk today ⟨[], _⟩ (by simp))
      | vstr s2 =>
        rw [hargs] at hrun
        by_cases hne : pyTruthy (PyVal.vstr s2) = true
        · simp only [hne, if_true] at hrun
          simp only [Except.ok.injEq, Prod.mk.injEq] at hrun
          obtain ⟨-, h2, -⟩ := hrun
          rw [← h2]
          exact dispatchTool_inv tool0 (periodStep today ⟨[], _⟩) (by simpa using hall)
            (periodStep_periodOk today ⟨[], _⟩ (by simp))
        · simp only [bool_eq_false_of_ne_true hne, Bool.false_eq_true, if_false] at hrun
          simp only [Except.ok.injEq, Prod.mk.injEq] at hrun
          obtain ⟨-, h2, -⟩ := hrun
          rw [← h2]
          exact dispatchTool_inv tool0 (periodStep today ⟨[], _⟩) (by simpa using hall)
            (periodStep_periodOk today ⟨[], _⟩ (by simp))
      | vlist xs =>
        rw [hargs] at hrun
        by_cases hne : pyTruthy (PyVal.vlist xs) = true
        · simp only [hne, if_true] at hrun
          simp only [Except.ok.injEq, Prod.mk.injEq] at hrun
          obtain ⟨-, h2, -⟩ := hrun
          rw [← h2]
          exact dispatchTool_inv tool0 (periodStep today ⟨[], _⟩) (by simpa using hall)
            (periodStep_periodOk today ⟨[], _⟩ (by simp))
        · simp only [bool_eq_false_of_ne_true hne, Bool.false_eq_true, if_false] at hrun
          simp only [Except.ok.injEq, Prod.mk.injEq] at hrun
          obtain ⟨-, h2, -⟩ := hrun
          rw [← h2]
          exact dispatchTool_inv tool0 (periodStep today ⟨[], _⟩) (by simpa using hall)
            (periodStep_periodOk today ⟨[], _⟩ (by simp))
    · simp only [bool_eq_false_of_ne_true hall, Bool.not_false, if_true] at hrun
      simp only [Except.ok.injEq, Prod.mk.injEq] at hrun
      obtain ⟨-, h2, -⟩ := hrun
      rw [← h2]
      exact dispatchTool_inv "none" (periodStep today ⟨[], _⟩) (by decide)
        (periodStep_periodOk today ⟨[], _⟩ (by simp))

set_option maxRecDepth 8000 in
/-- Counterexample to C4 as stated: the sum_by_merchant plan whose
merchant_substr is fifty-nine letters, a space, and three more letters
validates to a cleaned plan whose stored substring ends in a space (the
60-character cut falls right after it); validating that cleaned plan
again strips the exposed trailing space, so the second cleaned plan
differs from the first and validation is not idempotent. -/
theorem c4_counterexample :
    validatePlan c4plan t0 = Except.ok (true, c4cleaned1, []) ∧
    validatePlan (toPlanDict c4cleaned1) t0 = Except.ok (true, c4cleaned2, []) ∧
    c4cleaned1 ≠ c4cleaned2 := by
  refine ⟨rfl, rfl, fun h => ?_⟩
  have h2 := congrArg (fun cl => (match dictGet "merchant_substr" cl.args with
    | some (PyVal.vstr s) => s.length
    | _ => 0)) h
  exact absurd h2 (by decide)

/-- Claim C4 (amended): re-validation is the identity on the cleaned
plan whenever every length-capped string field of the cleaned plan is
fixed by a further strip.  For any run of validate_plan on a plan whose
args mapping is a well-formed Python dict (distinct keys), validating
the returned cleaned plan again returns that same cleaned plan with no
errors; the side condition is necessary, as the strip-after-truncate
counterexample shows. -/
theorem c4_validate_plan_idempotent (plan : PyDict) (today : Date) (ok : Bool)
    (c : Cleaned) (errs : List String)
    (hnd : ∀ d, dictGetD "args" plan .vnone = .vdict d → (d.map Prod.fst).Nodup)
    (hrun : validatePlan plan today = .ok (ok, c, errs))
    (hfit : ∀ name ∈ strFieldsOf c.tool, ∀ s,
      dictGet name c.args = some (.vstr s) → pyStrip s = s) :
    validatePlan (toPlanDict c) today = .ok (c.tool != "none", c, []) := by
  have hinv := validatePlan_inv plan today ok c errs hnd hrun
  obtain ⟨htmem, hpo⟩ := cleanedInvB_tool c hinv
  have hts : c.tool ≠ "" := by
    intro h0
    rw [h0] at htmem
    exact absurd htmem (by decide)
  have hstrip : pyStrip c.tool = c.tool := by
    have hall : ∀ x ∈ ALLOWED_TOOLS, pyStrip x = x := by decide
    exact hall c.tool htmem
  have hcon : ALLOWED_TOOLS.contains c.tool = true := by simpa using htmem
  have htb := validatePlan_textbook c.tool c.args today hts
  rw [hstrip] at htb
  rw [show toPlanDict c = [("tool", PyVal.vstr c.tool), ("args", PyVal.vdict c.args)] from rfl,
    htb]
  simp only [hcon, Bool.not_true, Bool.false_eq_true, if_false]
  rw [periodStep_stable today ⟨c.args, []⟩ hpo, dispatchTool_stable c.tool c.args hinv hfit]
  simp only [List.isEmpty_nil, Bool.and_true]

/-- Witness for C4: re-validating an already-clean get_latest plan
returns it unchanged with ok and no errors. -/
theorem c4_witness :
    validatePlan (toPlanDict c4gl) t0 = Except.ok (true, c4gl, []) := by
  refine c4_validate_plan_idempotent (toPlanDict c4gl) t0 true c4gl [] ?_ ?_ ?_
  · intro d hd
    have h2 : PyVal.vdict c4gl.args = PyVal.vdict d := by
      rw [← hd]
      rfl
    injection h2 with h3
    rw [← h3]
    decide
  · rfl
  · intro name hname s hs
    have h4 : strFieldsOf c4gl.tool = [] := by decide
    rw [h4] at hname
    cases hname

end FinanceSpec
